import Mathlib

/-!
Verification of the go-crossplane NGINX configuration parser.

This file gives a shallow embedding, in Lean, of the crossplane Go package:
the char source and lexer (lex.go), the directive analyser and its static
catalogue (lex.go), the recursive-descent parser (parse.go), the `if`
argument normalisation and config combiner (util.go), and the error type
(errors.go).  Go channels are modelled as lists, goroutine pipelines as
function composition, pointer-optional fields as `Option`, runtime panics
(nil dereference, out-of-range indexing) as `Option`/dedicated outcomes, and
the two unbounded loops of the code (the include queue of `Parse` and the
splice recursion of `performIncludes`, whose termination in Go rests on the
finiteness of the file system, plus the statement loop of `parse`) take an
explicit fuel argument; running out of fuel is a distinguished outcome that
no theorem below treats as normal termination.

The file system and `filepath.Glob` are collaborators of the package (the
spec treats them as out of scope), modelled as an environment: a finite
association list for the file contents, used both by the default opener and
by the eager `os.Open` probe of include resolution, and a glob function.
`filepath.Join`/`Dir` are modelled without path cleaning, and the
`ErrorCallback`/`Debug` options (explicitly out of scope in the spec) are
not modelled.
-/

set_option linter.unusedVariables false

namespace Crossplane

/-! ## Go string helpers -/

/-- Code points with the Unicode White_Space property, as tested by Go's
`unicode.IsSpace` (`strings.TrimSpace` trims exactly these). -/
def goIsSpaceChar (c : Char) : Bool :=
  (0x9 ≤ c.val && c.val ≤ 0xD) || c.val == 0x20 || c.val == 0x85 || c.val == 0xA0 ||
  c.val == 0x1680 || (0x2000 ≤ c.val && c.val ≤ 0x200A) ||
  c.val == 0x2028 || c.val == 0x2029 || c.val == 0x202F || c.val == 0x205F || c.val == 0x3000

/-- `isSpace` of lex.go: `len(strings.TrimSpace(s)) == 0`, i.e. every rune of
the (possibly escape-bonded, possibly empty) unit is white space. -/
def goIsSpaceStr (s : String) : Bool :=
  s.data.all goIsSpaceChar

/-- Is the first character list a prefix of the second? -/
def listPre : List Char → List Char → Bool
  | [], _ => true
  | _ :: _, [] => false
  | p :: ps, c :: cs => p = c && listPre ps cs

/-- Go `strings.HasPrefix` (byte prefix, here as a character prefix). -/
def strHasPrefix (s p : String) : Bool :=
  listPre p.data s.data

/-- Go `strings.HasSuffix`. -/
def strHasSuffix (s p : String) : Bool :=
  listPre p.data.reverse s.data.reverse

/-- Drop the first `n` characters. -/
def strDropLeft (s : String) (n : Nat) : String :=
  String.mk (s.data.drop n)

/-- Drop the last `n` characters. -/
def strDropRight (s : String) (n : Nat) : String :=
  String.mk (s.data.take (s.data.length - n))

/-- Go `strings.TrimPrefix s p`. -/
def goTrimPrefix (s p : String) : String :=
  if strHasPrefix s p then strDropLeft s p.length else s

/-- Go `strings.TrimSuffix s p`. -/
def goTrimSuffix (s p : String) : String :=
  if strHasSuffix s p then strDropRight s p.length else s

/-- Go `strings.TrimLeftFunc s unicode.IsSpace`. -/
def goTrimLeftSpace (s : String) : String :=
  String.mk (s.data.dropWhile (fun c => goIsSpaceChar c))

/-- Go `strings.TrimRightFunc s unicode.IsSpace`. -/
def goTrimRightSpace (s : String) : String :=
  String.mk ((s.data.reverse.dropWhile (fun c => goIsSpaceChar c)).reverse)

/-- Go `strings.ToLower` restricted to ASCII case mapping (the catalogue's
flag values `on`/`off` contain only ASCII, where the two agree). -/
def goToLower (s : String) : String :=
  String.mk (s.data.map Char.toLower)


/-! ## Char source (lex.go: readChars, escapeChars, lineCount)

A "char" of the Go pipeline is a string: one rune, or a backslash-bonded
pair of runes.  `escapeChars` is the version of the live lexer (the one the
`ngxToken` pipeline of parse.go uses), which drops a bare `\r` and a bonded
`\<CR>` unit alike. -/

/-- One unit of the char stream tagged with its line (Go `charLine`). -/
structure CharLine where
  char : String
  line : Nat
deriving Repr, DecidableEq

/-- lex.go `escapeChars`: bond a backslash with the following rune (a
trailing backslash is bonded with the zero value `""` of the closed
channel, i.e. stays a lone backslash), then drop every unit equal to
`"\r"` or `"\\\r"`. -/
def escapeChars : List Char → List String
  | [] => []
  | '\\' :: rest =>
    match rest with
    | [] => ["\\"]
    | c :: rest' =>
      if c = '\r' then escapeChars rest'
      else String.mk ['\\', c] :: escapeChars rest'
  | c :: rest =>
    if c = '\r' then escapeChars rest
    else String.singleton c :: escapeChars rest

/-- lex.go `lineCount`: the line counter starts at 1 and is incremented
before emitting any unit that ends with a newline. -/
def lineCount : List String → Nat → List CharLine
  | [], _ => []
  | u :: rest, line =>
    let line' := if strHasSuffix u "\n" then line + 1 else line
    ⟨u, line'⟩ :: lineCount rest line'

/-- The char source: decode, escape-bond, drop carriage returns, count lines. -/
def charSource (s : String) : List CharLine :=
  lineCount (escapeChars s.data) 1

/-! ## Errors (errors.go) -/

/-- errors.go `ParseError`: message with optional file and line pointers. -/
structure ParseErrorS where
  what : String
  file : Option String
  line : Option Nat
deriving Repr, DecidableEq

/-- errors.go `ParseError.Error`.  The Go method dereferences `e.file`
unconditionally (`*e.file`), so a `ParseError` whose `file` pointer is nil
panics when rendered; the panic is modelled as `none`. -/
def ParseErrorS.render : ParseErrorS → Option String
  | ⟨what, file, line⟩ =>
    match line with
    | some l => file.map (fun f => what ++ " in " ++ f ++ ":" ++ toString l)
    | none => file.map (fun f => what ++ " in " ++ f)

/-- An error value as seen through Go's `error` interface in parse.go:
either a `ParseError` of this package or an I/O error carrying only its
rendered message (`os.Open`, `filepath.Glob`). -/
inductive Err where
  | perr (e : ParseErrorS)
  | io (msg : String)
deriving Repr, DecidableEq

/-- Go `err.Error()`; `none` models the nil-file panic of
`ParseError.Error`. -/
def Err.render : Err → Option String
  | .perr e => e.render
  | .io msg => some msg

/-! ## Lexer (lex.go: tokenize, balanceBraces)

The hand-written state machine of `tokenize`, transcribed loop by loop.
The Go loops pull from the same channel; here every helper consumes a
prefix of the unit list and the mutual recursion terminates because each
step either shortens the list or moves to a later phase of one iteration. -/

/-- Go `ngxToken`. -/
structure NgxToken where
  value : String
  line : Nat
  isQuoted : Bool
  error : Option ParseErrorS
deriving Repr, DecidableEq

/-- A plain token (no error). -/
def mkTok (value : String) (line : Nat) (isQuoted : Bool) : NgxToken :=
  ⟨value, line, isQuoted, none⟩

/-- The lexer state between units: the mode of lex.go's hand-written
state machine made explicit.  `normal` is the top of the Go loop (token
buffer and its starting line); `comment`, `quoteIn` and `expansion` are
its three inner loops; `quoteStart` is the position right after an opening
quote where the Go code pulls once before entering the quoted-string loop
(EOF there emits nothing, while EOF inside `quoteIn` emits the partial
quoted token). -/
inductive LexMode where
  | normal (token : String) (tokenLine : Nat)
  | comment (acc : String) (lineAtStart : Nat) (tokenLine : Nat)
  | quoteStart (q : String) (tokenLine : Nat)
  | quoteIn (q : String) (acc : String) (tokenLine : Nat)
  | expansion (token : String) (tokenLine : Nat)
deriving Repr, DecidableEq

/-- Flush the pending bareword (Go: emit the token buffer when nonempty). -/
def flushTok (token : String) (tokenLine : Nat) : List NgxToken :=
  if token = "" then [] else [mkTok token tokenLine false]

/-- The tail of one `tokenize` iteration (quote handling, the three
punctuators, default append); also entered when the expansion loop exits,
where the current unit falls through to exactly these checks -- in
particular a white-space unit ending an expansion is appended to the
token, not treated as a separator. -/
def afterStep (token : String) (tl : Nat) (cl : CharLine) : LexMode × List NgxToken :=
  if cl.char = "\"" ∨ cl.char = "\x27" then
    if token ≠ "" then (.normal (token ++ cl.char) tl, [])
    else (.quoteStart cl.char tl, [])
  else if cl.char = "\x7b" ∨ cl.char = "\x7d" ∨ cl.char = ";" then
    (.normal "" tl, flushTok token tl ++ [mkTok cl.char cl.line false])
  else (.normal (token ++ cl.char) tl, [])

/-- One unit through the `tokenize` state machine. -/
def tokStep : LexMode → CharLine → LexMode × List NgxToken
  | .normal token tl, cl =>
    if goIsSpaceStr cl.char then (.normal "" tl, flushTok token tl)
    else if token = "" ∧ cl.char = "#" then (.comment cl.char cl.line tl, [])
    else
      let tl' := if token = "" then cl.line else tl
      if token ≠ "" ∧ strHasSuffix token "$" ∧ cl.char = "\x7b" then
        (.expansion (token ++ cl.char) tl', [])
      else afterStep token tl' cl
  | .comment acc lineAtStart tl, cl =>
    if strHasSuffix cl.char "\n" then (.normal "" tl, [mkTok acc lineAtStart false])
    else (.comment (acc ++ cl.char) lineAtStart tl, [])
  | .quoteStart q tl, cl =>
    if cl.char = q then (.normal "" tl, [mkTok "" tl true])
    else (.quoteIn q (if cl.char = "\\" ++ q then q else cl.char) tl, [])
  | .quoteIn q acc tl, cl =>
    if cl.char = q then (.normal "" tl, [mkTok acc tl true])
    else (.quoteIn q (acc ++ (if cl.char = "\\" ++ q then q else cl.char)) tl, [])
  | .expansion token tl, cl =>
    if strHasSuffix token "\x7d" ∨ goIsSpaceStr cl.char then afterStep token tl cl
    else (.expansion (token ++ cl.char) tl, [])

/-- What EOF emits in each mode: the pending bareword, the pending comment
(the Go comment loop breaks and emits), the partial quoted token of an
in-progress string, nothing right after an opening quote (the Go code
breaks out of the whole loop there with an empty buffer), and the pending
expansion token. -/
def flushEOF : LexMode → List NgxToken
  | .normal token tl => flushTok token tl
  | .comment acc lineAtStart _ => [mkTok acc lineAtStart false]
  | .quoteStart _ _ => []
  | .quoteIn _ acc tl => [mkTok acc tl true]
  | .expansion token tl => flushTok token tl

/-- Run the state machine over the unit list. -/
def tokenizeFold : List CharLine → LexMode → List NgxToken
  | [], st => flushEOF st
  | cl :: rest, st =>
    let out := tokStep st cl
    out.2 ++ tokenizeFold rest out.1

/-- lex.go `tokenize`: run the state machine over the char source with an
empty buffer (tokenLine starts as Go's zero value 0). -/
def tokenize (s : String) : List NgxToken :=
  tokenizeFold (charSource s) (.normal "" 0)

/-- lex.go `balanceBraces`: depth counting over the token stream.  More `}`
than `{` at any point emits an error token and stops; positive depth at EOF
appends an error token carrying the last observed line.  Both error tokens
carry a line but no file. -/
def balanceBraces : List NgxToken → Nat → Nat → List NgxToken
  | [], depth, line =>
    if depth > 0 then
      [⟨"", 0, false, some ⟨"unexpected end of file, expecting \"\x7d\"", none, some line⟩⟩]
    else []
  | t :: rest, depth, line =>
    let line' := t.line
    if t.value = "\x7d" ∧ ¬ t.isQuoted then
      if depth = 0 then
        [⟨"", 0, false, some ⟨"unexpected \"\x7d\"", none, some line'⟩⟩]
      else t :: balanceBraces rest (depth - 1) line'
    else if t.value = "\x7b" ∧ ¬ t.isQuoted then
      t :: balanceBraces rest (depth + 1) line'
    else t :: balanceBraces rest depth line'

/-- lex.go `lex`: tokenize and balance braces (depth 0, line 0). -/
def lex (s : String) : List NgxToken :=
  balanceBraces (tokenize s) 0 0

/-! ## Data model (types.go) -/

/-- A Directive tree node (types.go `Directive`): name, 1-based line,
arguments, and the three optional fields, where Go nil pointers are `none`
and present-but-empty values are `some []`. -/
inductive Directive where
  | mk : String → Nat → List String → Option (List Nat) → Option (List Directive) →
      Option String → Directive

/-- The directive name. -/
def Directive.directive : Directive → String
  | .mk d _ _ _ _ _ => d

/-- The source line. -/
def Directive.line : Directive → Nat
  | .mk _ l _ _ _ _ => l

/-- The argument list. -/
def Directive.args : Directive → List String
  | .mk _ _ a _ _ _ => a

/-- The optional include-index list. -/
def Directive.includes : Directive → Option (List Nat)
  | .mk _ _ _ i _ _ => i

/-- The optional child block. -/
def Directive.block : Directive → Option (List Directive)
  | .mk _ _ _ _ b _ => b

/-- The optional comment text. -/
def Directive.comment : Directive → Option String
  | .mk _ _ _ _ _ c => c

/-- types.go `Directive.IsBlock`. -/
def Directive.isBlock (d : Directive) : Bool :=
  d.block.isSome

/-- types.go `Directive.IsInclude`. -/
def Directive.isInclude (d : Directive) : Bool :=
  d.includes.isSome

/-- types.go `Directive.IsComment`. -/
def Directive.isComment (d : Directive) : Bool :=
  d.comment.isSome

mutual

/-- Boolean equality of directive trees. -/
def dirBEq : Directive → Directive → Bool
  | .mk n1 l1 a1 i1 none c1, .mk n2 l2 a2 i2 none c2 =>
    n1 = n2 && l1 = l2 && a1 = a2 && i1 = i2 && c1 = c2
  | .mk n1 l1 a1 i1 (some b1) c1, .mk n2 l2 a2 i2 (some b2) c2 =>
    n1 = n2 && l1 = l2 && a1 = a2 && i1 = i2 && c1 = c2 && dirsBEq b1 b2
  | _, _ => false

/-- Boolean equality of directive lists. -/
def dirsBEq : List Directive → List Directive → Bool
  | [], [] => true
  | x :: xs, y :: ys => dirBEq x y && dirsBEq xs ys
  | _, _ => false

end

mutual

theorem dirBEq_iff : ∀ a b, dirBEq a b = true ↔ a = b
  | .mk n1 l1 a1 i1 none c1, .mk n2 l2 a2 i2 none c2 => by
    simp [dirBEq, and_assoc]
  | .mk n1 l1 a1 i1 (some b1) c1, .mk n2 l2 a2 i2 (some b2) c2 => by
    simp [dirBEq, dirsBEq_iff b1 b2, and_assoc]
    tauto
  | .mk n1 l1 a1 i1 none c1, .mk n2 l2 a2 i2 (some b2) c2 => by simp [dirBEq]
  | .mk n1 l1 a1 i1 (some b1) c1, .mk n2 l2 a2 i2 none c2 => by simp [dirBEq]

theorem dirsBEq_iff : ∀ xs ys, dirsBEq xs ys = true ↔ xs = ys
  | [], [] => by simp [dirsBEq]
  | x :: xs, y :: ys => by simp [dirsBEq, dirBEq_iff x y, dirsBEq_iff xs ys]
  | [], _ :: _ => by simp [dirsBEq]
  | _ :: _, [] => by simp [dirsBEq]

end

instance : DecidableEq Directive := fun a b => decidable_of_iff _ (dirBEq_iff a b)

/-- types.go `ConfigError`. -/
structure ConfigError where
  line : Option Nat
  error : String
deriving Repr, DecidableEq

/-- types.go `PayloadError` (the callback field is out of scope). -/
structure PayloadError where
  file : String
  line : Option Nat
  error : String
deriving Repr, DecidableEq

/-- types.go `Config`. -/
structure Config where
  file : String
  status : String
  errors : List ConfigError
  parsed : List Directive
deriving DecidableEq

/-- types.go `Payload`. -/
structure Payload where
  status : String
  errors : List PayloadError
  config : List Config
deriving DecidableEq

/-- parse.go `ParseOptions` (`ErrorCallback`, `Open` and `Debug` are
modelled by the environment / out of scope). -/
structure ParseOptions where
  stopParsingOnError : Bool := false
  ignoreDirectives : List String := []
  combineConfigs : Bool := false
  singleFile : Bool := false
  parseComments : Bool := false
  errorOnUnknownDirectives : Bool := false
  skipDirectiveContextCheck : Bool := false
  skipDirectiveArgsCheck : Bool := false

/-! ## Directive catalogue and analyser (lex.go: masks, contexts, analyze) -/

/-- lex.go bit masks for directive argument styles and locations. -/
def ngxConfNoArgs : Nat := 0x00000001

/-- One argument. -/
def ngxConfTake1 : Nat := 0x00000002

/-- Two arguments. -/
def ngxConfTake2 : Nat := 0x00000004

/-- Three arguments. -/
def ngxConfTake3 : Nat := 0x00000008

/-- Four arguments. -/
def ngxConfTake4 : Nat := 0x00000010

/-- Five arguments. -/
def ngxConfTake5 : Nat := 0x00000020

/-- Six arguments. -/
def ngxConfTake6 : Nat := 0x00000040

/-- Followed by a block. -/
def ngxConfBlock : Nat := 0x00000100

/-- Takes one `on`/`off` argument. -/
def ngxConfFlag : Nat := 0x00000200

/-- Any number of arguments. -/
def ngxConfAny : Nat := 0x00000400

/-- One or more arguments. -/
def ngxConf1More : Nat := 0x00000800

/-- Two or more arguments. -/
def ngxConf2More : Nat := 0x00001000

/-- One or two arguments. -/
def ngxConfTake12 : Nat := ngxConfTake1 ||| ngxConfTake2

/-- Two or three arguments. -/
def ngxConfTake23 : Nat := ngxConfTake2 ||| ngxConfTake3

/-- Three or four arguments. -/
def ngxConfTake34 : Nat := ngxConfTake3 ||| ngxConfTake4

/-- One, two or three arguments. -/
def ngxConfTake123 : Nat := ngxConfTake12 ||| ngxConfTake3

/-- One to four arguments. -/
def ngxConfTake1234 : Nat := ngxConfTake123 ||| ngxConfTake4

/-- Main file (not used). -/
def ngxDirectConf : Nat := 0x00010000

/-- Main context. -/
def ngxMainConf : Nat := 0x00040000

/-- events context. -/
def ngxEventConf : Nat := 0x00080000

/-- mail context. -/
def ngxMailMainConf : Nat := 0x00100000

/-- mail > server. -/
def ngxMailSrvConf : Nat := 0x00200000

/-- stream context. -/
def ngxStreamMainConf : Nat := 0x00400000

/-- stream > server. -/
def ngxStreamSrvConf : Nat := 0x00800000

/-- stream > upstream. -/
def ngxStreamUpsConf : Nat := 0x01000000

/-- http context. -/
def ngxHttpMainConf : Nat := 0x02000000

/-- http > server. -/
def ngxHttpSrvConf : Nat := 0x04000000

/-- http > location. -/
def ngxHttpLocConf : Nat := 0x08000000

/-- http > upstream. -/
def ngxHttpUpsConf : Nat := 0x10000000

/-- http > server > if. -/
def ngxHttpSifConf : Nat := 0x20000000

/-- http > location > if. -/
def ngxHttpLifConf : Nat := 0x40000000

/-- http > location > limit_except. -/
def ngxHttpLmtConf : Nat := 0x80000000

/-- lex.go `ngxAnyConf`. -/
def ngxAnyConf : Nat :=
  ngxMainConf ||| ngxEventConf ||| ngxMailMainConf ||| ngxMailSrvConf |||
  ngxStreamMainConf ||| ngxStreamSrvConf ||| ngxStreamUpsConf |||
  ngxHttpMainConf ||| ngxHttpSrvConf ||| ngxHttpLocConf ||| ngxHttpUpsConf

/-- parse.go `blockCtx.key`: join the context names with `>`. -/
def ctxKey (ctx : List String) : String :=
  String.intercalate ">" ctx

/-- lex.go `contexts`: bitmask per recognised context tuple. -/
def contexts : List (String × Nat) :=
  [(ctxKey [], ngxMainConf),
   (ctxKey ["events"], ngxEventConf),
   (ctxKey ["mail"], ngxMailMainConf),
   (ctxKey ["mail", "server"], ngxMailSrvConf),
   (ctxKey ["stream"], ngxStreamMainConf),
   (ctxKey ["stream", "server"], ngxStreamSrvConf),
   (ctxKey ["stream", "upstream"], ngxStreamUpsConf),
   (ctxKey ["http"], ngxHttpMainConf),
   (ctxKey ["http", "server"], ngxHttpSrvConf),
   (ctxKey ["http", "location"], ngxHttpLocConf),
   (ctxKey ["http", "upstream"], ngxHttpUpsConf),
   (ctxKey ["http", "server", "if"], ngxHttpSifConf),
   (ctxKey ["http", "location", "if"], ngxHttpLifConf),
   (ctxKey ["http", "location", "limit_except"], ngxHttpLmtConf)]

/-- Association-list lookup modelling a Go map read. -/
def assocLookup {α : Type} (l : List (String × α)) (k : String) : Option α :=
  match l.find? (fun p => p.1 = k) with
  | some p => some p.2
  | none => none

/-- lex.go `directives`: the static catalogue mapping each directive name
to its list of bitmask variants, transcribed entry for entry. -/
def directives : List (String × List Nat) := [
  ("absolute_redirect", [ngxHttpMainConf ||| ngxHttpSrvConf ||| ngxHttpLocConf ||| ngxConfFlag]),
  ("accept_mutex", [ngxEventConf ||| ngxConfFlag]),
  ("accept_mutex_delay", [ngxEventConf ||| ngxConfTake1]),
  ("access_log", [ngxHttpMainConf ||| ngxHttpSrvConf ||| ngxHttpLocConf ||| ngxHttpLifConf ||| ngxHttpLmtConf ||| ngxConf1More, ngxStreamMainConf ||| ngxStreamSrvConf ||| ngxConf1More]),
  ("add_after_body", [ngxHttpMainConf ||| ngxHttpSrvConf ||| ngxHttpLocConf ||| ngxConfTake1]),
  ("add_before_body", [ngxHttpMainConf ||| ngxHttpSrvConf ||| ngxHttpLocConf ||| ngxConfTake1]),
  ("add_header", [ngxHttpMainConf ||| ngxHttpSrvConf ||| ngxHttpLocConf ||| ngxHttpLifConf ||| ngxConfTake23]),
  ("add_trailer", [ngxHttpMainConf ||| ngxHttpSrvConf ||| ngxHttpLocConf ||| ngxHttpLifConf ||| ngxConfTake23]),
  ("addition_types", [ngxHttpMainConf ||| ngxHttpSrvConf ||| ngxHttpLocConf ||| ngxConf1More]),
  ("aio", [ngxHttpMainConf ||| ngxHttpSrvConf ||| ngxHttpLocConf ||| ngxConfTake1]),
  ("aio_write", [ngxHttpMainConf ||| ngxHttpSrvConf ||| ngxHttpLocConf ||| ngxConfFlag]),
  ("alias", [ngxHttpLocConf ||| ngxConfTake1]),
  ("allow", [ngxHttpMainConf ||| ngxHttpSrvConf ||| ngxHttpLocConf ||| ngxHttpLmtConf ||| ngxConfTake1, ngxStreamMainConf ||| ngxStreamSrvConf ||| ngxConfTake1]),
  ("ancient_browser", [ngxHttpMainConf ||| ngxHttpSrvConf ||| ngxHttpLocConf ||| ngxConf1More]),
  ("ancient_browser_value", [ngxHttpMainConf ||| ngxHttpSrvConf ||| ngxHttpLocConf ||| ngxConfTake1]),
  ("auth_basic", [ngxHttpMainConf ||| ngxHttpSrvConf ||| ngxHttpLocConf ||| ngxHttpLmtConf ||| ngxConfTake1]),
  ("auth_basic_user_file", [ngxHttpMainConf ||| ngxHttpSrvConf ||| ngxHttpLocConf ||| ngxHttpLmtConf ||| ngxConfTake1]),
  ("auth_http", [ngxMailMainConf ||| ngxMailSrvConf ||| ngxConfTake1]),
  ("auth_Httpheader", [ngxMailMainConf ||| ngxMailSrvConf ||| ngxConfTake2]),
  ("auth_Httppass_client_cert", [ngxMailMainConf ||| ngxMailSrvConf ||| ngxConfFlag]),
  ("auth_Httptimeout", [ngxMailMainConf ||| ngxMailSrvConf ||| ngxConfTake1]),
  ("auth_request", [ngxHttpMainConf ||| ngxHttpSrvConf ||| ngxHttpLocConf ||| ngxConfTake1]),
  ("auth_request_set", [ngxHttpMainConf ||| ngxHttpSrvConf ||| ngxHttpLocConf ||| ngxConfTake2]),
  ("autoindex", [ngxHttpMainConf ||| ngxHttpSrvConf ||| ngxHttpLocConf ||| ngxConfFlag]),
  ("autoindex_exact_size", [ngxHttpMainConf ||| ngxHttpSrvConf ||| ngxHttpLocConf ||| ngxConfFlag]),
  ("autoindex_format", [ngxHttpMainConf ||| ngxHttpSrvConf ||| ngxHttpLocConf ||| ngxConfTake1]),
  ("autoindex_localtime", [ngxHttpMainConf ||| ngxHttpSrvConf ||| ngxHttpLocConf ||| ngxConfFlag]),
  ("break", [ngxHttpSrvConf ||| ngxHttpSifConf ||| ngxHttpLocConf ||| ngxHttpLifConf ||| ngxConfNoArgs]),
  ("charset", [ngxHttpMainConf ||| ngxHttpSrvConf ||| ngxHttpLocConf ||| ngxHttpLifConf ||| ngxConfTake1]),
  ("charset_map", [ngxHttpMainConf ||| ngxConfBlock ||| ngxConfTake2]),
  ("charset_types", [ngxHttpMainConf ||| ngxHttpSrvConf ||| ngxHttpLocConf ||| ngxConf1More]),
  ("chunked_transfer_encoding", [ngxHttpMainConf ||| ngxHttpSrvConf ||| ngxHttpLocConf ||| ngxConfFlag]),
  ("client_body_buffer_size", [ngxHttpMainConf ||| ngxHttpSrvConf ||| ngxHttpLocConf ||| ngxConfTake1]),
  ("client_body_in_file_only", [ngxHttpMainConf ||| ngxHttpSrvConf ||| ngxHttpLocConf ||| ngxConfTake1]),
  ("client_body_in_single_buffer", [ngxHttpMainConf ||| ngxHttpSrvConf ||| ngxHttpLocConf ||| ngxConfFlag]),
  ("client_body_temp_path", [ngxHttpMainConf ||| ngxHttpSrvConf ||| ngxHttpLocConf ||| ngxConfTake1234]),
  ("client_body_timeout", [ngxHttpMainConf ||| ngxHttpSrvConf ||| ngxHttpLocConf ||| ngxConfTake1]),
  ("client_header_buffer_size", [ngxHttpMainConf ||| ngxHttpSrvConf ||| ngxConfTake1]),
  ("client_header_timeout", [ngxHttpMainConf ||| ngxHttpSrvConf ||| ngxConfTake1]),
  ("client_max_body_size", [ngxHttpMainConf ||| ngxHttpSrvConf ||| ngxHttpLocConf ||| ngxConfTake1]),
  ("connection_pool_size", [ngxHttpMainConf ||| ngxHttpSrvConf ||| ngxConfTake1]),
  ("create_full_put_path", [ngxHttpMainConf ||| ngxHttpSrvConf ||| ngxHttpLocConf ||| ngxConfFlag]),
  ("daemon", [ngxMainConf ||| ngxDirectConf ||| ngxConfFlag]),
  ("dav_access", [ngxHttpMainConf ||| ngxHttpSrvConf ||| ngxHttpLocConf ||| ngxConfTake123]),
  ("dav_methods", [ngxHttpMainConf ||| ngxHttpSrvConf ||| ngxHttpLocConf ||| ngxConf1More]),
  ("debug_connection", [ngxEventConf ||| ngxConfTake1]),
  ("debug_points", [ngxMainConf ||| ngxDirectConf ||| ngxConfTake1]),
  ("default_type", [ngxHttpMainConf ||| ngxHttpSrvConf ||| ngxHttpLocConf ||| ngxConfTake1]),
  ("deny", [ngxHttpMainConf ||| ngxHttpSrvConf ||| ngxHttpLocConf ||| ngxHttpLmtConf ||| ngxConfTake1, ngxStreamMainConf ||| ngxStreamSrvConf ||| ngxConfTake1]),
  ("directio", [ngxHttpMainConf ||| ngxHttpSrvConf ||| ngxHttpLocConf ||| ngxConfTake1]),
  ("directio_alignment", [ngxHttpMainConf ||| ngxHttpSrvConf ||| ngxHttpLocConf ||| ngxConfTake1]),
  ("disable_symlinks", [ngxHttpMainConf ||| ngxHttpSrvConf ||| ngxHttpLocConf ||| ngxConfTake12]),
  ("empty_gif", [ngxHttpLocConf ||| ngxConfNoArgs]),
  ("env", [ngxMainConf ||| ngxDirectConf ||| ngxConfTake1]),
  ("error_log", [ngxMainConf ||| ngxConf1More, ngxHttpMainConf ||| ngxHttpSrvConf ||| ngxHttpLocConf ||| ngxConf1More, ngxMailMainConf ||| ngxMailSrvConf ||| ngxConf1More, ngxStreamMainConf ||| ngxStreamSrvConf ||| ngxConf1More]),
  ("error_page", [ngxHttpMainConf ||| ngxHttpSrvConf ||| ngxHttpLocConf ||| ngxHttpLifConf ||| ngxConf2More]),
  ("etag", [ngxHttpMainConf ||| ngxHttpSrvConf ||| ngxHttpLocConf ||| ngxConfFlag]),
  ("events", [ngxMainConf ||| ngxConfBlock ||| ngxConfNoArgs]),
  ("expires", [ngxHttpMainConf ||| ngxHttpSrvConf ||| ngxHttpLocConf ||| ngxHttpLifConf ||| ngxConfTake12]),
  ("fastcgi_bind", [ngxHttpMainConf ||| ngxHttpSrvConf ||| ngxHttpLocConf ||| ngxConfTake12]),
  ("fastcgi_buffer_size", [ngxHttpMainConf ||| ngxHttpSrvConf ||| ngxHttpLocConf ||| ngxConfTake1]),
  ("fastcgi_buffering", [ngxHttpMainConf ||| ngxHttpSrvConf ||| ngxHttpLocConf ||| ngxConfFlag]),
  ("fastcgi_buffers", [ngxHttpMainConf ||| ngxHttpSrvConf ||| ngxHttpLocConf ||| ngxConfTake2]),
  ("fastcgi_busy_buffers_size", [ngxHttpMainConf ||| ngxHttpSrvConf ||| ngxHttpLocConf ||| ngxConfTake1]),
  ("fastcgi_cache", [ngxHttpMainConf ||| ngxHttpSrvConf ||| ngxHttpLocConf ||| ngxConfTake1]),
  ("fastcgi_cache_background_update", [ngxHttpMainConf ||| ngxHttpSrvConf ||| ngxHttpLocConf ||| ngxConfFlag]),
  ("fastcgi_cache_bypass", [ngxHttpMainConf ||| ngxHttpSrvConf ||| ngxHttpLocConf ||| ngxConf1More]),
  ("fastcgi_cache_key", [ngxHttpMainConf ||| ngxHttpSrvConf ||| ngxHttpLocConf ||| ngxConfTake1]),
  ("fastcgi_cache_lock", [ngxHttpMainConf ||| ngxHttpSrvConf ||| ngxHttpLocConf ||| ngxConfFlag]),
  ("fastcgi_cache_lock_age", [ngxHttpMainConf ||| ngxHttpSrvConf ||| ngxHttpLocConf ||| ngxConfTake1]),
  ("fastcgi_cache_lock_timeout", [ngxHttpMainConf ||| ngxHttpSrvConf ||| ngxHttpLocConf ||| ngxConfTake1]),
  ("fastcgi_cache_max_range_offset", [ngxHttpMainConf ||| ngxHttpSrvConf ||| ngxHttpLocConf ||| ngxConfTake1]),
  ("fastcgi_cache_methods", [ngxHttpMainConf ||| ngxHttpSrvConf ||| ngxHttpLocConf ||| ngxConf1More]),
  ("fastcgi_cache_min_uses", [ngxHttpMainConf ||| ngxHttpSrvConf ||| ngxHttpLocConf ||| ngxConfTake1]),
  ("fastcgi_cache_path", [ngxHttpMainConf ||| ngxConf2More]),
  ("fastcgi_cache_revalidate", [ngxHttpMainConf ||| ngxHttpSrvConf ||| ngxHttpLocConf ||| ngxConfFlag]),
  ("fastcgi_cache_use_stale", [ngxHttpMainConf ||| ngxHttpSrvConf ||| ngxHttpLocConf ||| ngxConf1More]),
  ("fastcgi_cache_valid", [ngxHttpMainConf ||| ngxHttpSrvConf ||| ngxHttpLocConf ||| ngxConf1More]),
  ("fastcgi_catch_stderr", [ngxHttpMainConf ||| ngxHttpSrvConf ||| ngxHttpLocConf ||| ngxConfTake1]),
  ("fastcgi_connect_timeout", [ngxHttpMainConf ||| ngxHttpSrvConf ||| ngxHttpLocConf ||| ngxConfTake1]),
  ("fastcgi_force_ranges", [ngxHttpMainConf ||| ngxHttpSrvConf ||| ngxHttpLocConf ||| ngxConfFlag]),
  ("fastcgi_hide_header", [ngxHttpMainConf ||| ngxHttpSrvConf ||| ngxHttpLocConf ||| ngxConfTake1]),
  ("fastcgi_ignore_client_abort", [ngxHttpMainConf ||| ngxHttpSrvConf ||| ngxHttpLocConf ||| ngxConfFlag]),
  ("fastcgi_ignore_headers", [ngxHttpMainConf ||| ngxHttpSrvConf ||| ngxHttpLocConf ||| ngxConf1More]),
  ("fastcgi_index", [ngxHttpMainConf ||| ngxHttpSrvConf ||| ngxHttpLocConf ||| ngxConfTake1]),
  ("fastcgi_intercept_errors", [ngxHttpMainConf ||| ngxHttpSrvConf ||| ngxHttpLocConf ||| ngxConfFlag]),
  ("fastcgi_keep_conn", [ngxHttpMainConf ||| ngxHttpSrvConf ||| ngxHttpLocConf ||| ngxConfFlag]),
  ("fastcgi_limit_rate", [ngxHttpMainConf ||| ngxHttpSrvConf ||| ngxHttpLocConf ||| ngxConfTake1]),
  ("fastcgi_max_temp_file_size", [ngxHttpMainConf ||| ngxHttpSrvConf ||| ngxHttpLocConf ||| ngxConfTake1]),
  ("fastcgi_next_upstream", [ngxHttpMainConf ||| ngxHttpSrvConf ||| ngxHttpLocConf ||| ngxConf1More]),
  ("fastcgi_next_upStreamtimeout", [ngxHttpMainConf ||| ngxHttpSrvConf ||| ngxHttpLocConf ||| ngxConfTake1]),
  ("fastcgi_next_upStreamtries", [ngxHttpMainConf ||| ngxHttpSrvConf ||| ngxHttpLocConf ||| ngxConfTake1]),
  ("fastcgi_no_cache", [ngxHttpMainConf ||| ngxHttpSrvConf ||| ngxHttpLocConf ||| ngxConf1More]),
  ("fastcgi_param", [ngxHttpMainConf ||| ngxHttpSrvConf ||| ngxHttpLocConf ||| ngxConfTake23]),
  ("fastcgi_pass", [ngxHttpLocConf ||| ngxHttpLifConf ||| ngxConfTake1]),
  ("fastcgi_pass_header", [ngxHttpMainConf ||| ngxHttpSrvConf ||| ngxHttpLocConf ||| ngxConfTake1]),
  ("fastcgi_pass_request_body", [ngxHttpMainConf ||| ngxHttpSrvConf ||| ngxHttpLocConf ||| ngxConfFlag]),
  ("fastcgi_pass_request_headers", [ngxHttpMainConf ||| ngxHttpSrvConf ||| ngxHttpLocConf ||| ngxConfFlag]),
  ("fastcgi_read_timeout", [ngxHttpMainConf ||| ngxHttpSrvConf ||| ngxHttpLocConf ||| ngxConfTake1]),
  ("fastcgi_request_buffering", [ngxHttpMainConf ||| ngxHttpSrvConf ||| ngxHttpLocConf ||| ngxConfFlag]),
  ("fastcgi_send_lowat", [ngxHttpMainConf ||| ngxHttpSrvConf ||| ngxHttpLocConf ||| ngxConfTake1]),
  ("fastcgi_send_timeout", [ngxHttpMainConf ||| ngxHttpSrvConf ||| ngxHttpLocConf ||| ngxConfTake1]),
  ("fastcgi_socket_keepalive", [ngxHttpMainConf ||| ngxHttpSrvConf ||| ngxHttpLocConf ||| ngxConfFlag]),
  ("fastcgi_split_path_info", [ngxHttpMainConf ||| ngxHttpSrvConf ||| ngxHttpLocConf ||| ngxConfTake1]),
  ("fastcgi_store", [ngxHttpMainConf ||| ngxHttpSrvConf ||| ngxHttpLocConf ||| ngxConfTake1]),
  ("fastcgi_store_access", [ngxHttpMainConf ||| ngxHttpSrvConf ||| ngxHttpLocConf ||| ngxConfTake123]),
  ("fastcgi_temp_file_write_size", [ngxHttpMainConf ||| ngxHttpSrvConf ||| ngxHttpLocConf ||| ngxConfTake1]),
  ("fastcgi_temp_path", [ngxHttpMainConf ||| ngxHttpSrvConf ||| ngxHttpLocConf ||| ngxConfTake1234]),
  ("flv", [ngxHttpLocConf ||| ngxConfNoArgs]),
  ("geo", [ngxHttpMainConf ||| ngxConfBlock ||| ngxConfTake12, ngxStreamMainConf ||| ngxConfBlock ||| ngxConfTake12]),
  ("geoip_city", [ngxHttpMainConf ||| ngxConfTake12, ngxStreamMainConf ||| ngxConfTake12]),
  ("geoip_country", [ngxHttpMainConf ||| ngxConfTake12, ngxStreamMainConf ||| ngxConfTake12]),
  ("geoip_org", [ngxHttpMainConf ||| ngxConfTake12, ngxStreamMainConf ||| ngxConfTake12]),
  ("geoip_proxy", [ngxHttpMainConf ||| ngxConfTake1]),
  ("geoip_proxy_recursive", [ngxHttpMainConf ||| ngxConfFlag]),
  ("google_perftools_profiles", [ngxMainConf ||| ngxDirectConf ||| ngxConfTake1]),
  ("grpc_bind", [ngxHttpMainConf ||| ngxHttpSrvConf ||| ngxHttpLocConf ||| ngxConfTake12]),
  ("grpc_buffer_size", [ngxHttpMainConf ||| ngxHttpSrvConf ||| ngxHttpLocConf ||| ngxConfTake1]),
  ("grpc_connect_timeout", [ngxHttpMainConf ||| ngxHttpSrvConf ||| ngxHttpLocConf ||| ngxConfTake1]),
  ("grpc_hide_header", [ngxHttpMainConf ||| ngxHttpSrvConf ||| ngxHttpLocConf ||| ngxConfTake1]),
  ("grpc_ignore_headers", [ngxHttpMainConf ||| ngxHttpSrvConf ||| ngxHttpLocConf ||| ngxConf1More]),
  ("grpc_intercept_errors", [ngxHttpMainConf ||| ngxHttpSrvConf ||| ngxHttpLocConf ||| ngxConfFlag]),
  ("grpc_next_upstream", [ngxHttpMainConf ||| ngxHttpSrvConf ||| ngxHttpLocConf ||| ngxConf1More]),
  ("grpc_next_upStreamtimeout", [ngxHttpMainConf ||| ngxHttpSrvConf ||| ngxHttpLocConf ||| ngxConfTake1]),
  ("grpc_next_upStreamtries", [ngxHttpMainConf ||| ngxHttpSrvConf ||| ngxHttpLocConf ||| ngxConfTake1]),
  ("grpc_pass", [ngxHttpLocConf ||| ngxHttpLifConf ||| ngxConfTake1]),
  ("grpc_pass_header", [ngxHttpMainConf ||| ngxHttpSrvConf ||| ngxHttpLocConf ||| ngxConfTake1]),
  ("grpc_read_timeout", [ngxHttpMainConf ||| ngxHttpSrvConf ||| ngxHttpLocConf ||| ngxConfTake1]),
  ("grpc_send_timeout", [ngxHttpMainConf ||| ngxHttpSrvConf ||| ngxHttpLocConf ||| ngxConfTake1]),
  ("grpc_set_header", [ngxHttpMainConf ||| ngxHttpSrvConf ||| ngxHttpLocConf ||| ngxConfTake2]),
  ("grpc_socket_keepalive", [ngxHttpMainConf ||| ngxHttpSrvConf ||| ngxHttpLocConf ||| ngxConfFlag]),
  ("grpc_ssl_certificate", [ngxHttpMainConf ||| ngxHttpSrvConf ||| ngxHttpLocConf ||| ngxConfTake1]),
  ("grpc_ssl_certificate_key", [ngxHttpMainConf ||| ngxHttpSrvConf ||| ngxHttpLocConf ||| ngxConfTake1]),
  ("grpc_ssl_ciphers", [ngxHttpMainConf ||| ngxHttpSrvConf ||| ngxHttpLocConf ||| ngxConfTake1]),
  ("grpc_ssl_crl", [ngxHttpMainConf ||| ngxHttpSrvConf ||| ngxHttpLocConf ||| ngxConfTake1]),
  ("grpc_ssl_name", [ngxHttpMainConf ||| ngxHttpSrvConf ||| ngxHttpLocConf ||| ngxConfTake1]),
  ("grpc_ssl_password_file", [ngxHttpMainConf ||| ngxHttpSrvConf ||| ngxHttpLocConf ||| ngxConfTake1]),
  ("grpc_ssl_protocols", [ngxHttpMainConf ||| ngxHttpSrvConf ||| ngxHttpLocConf ||| ngxConf1More]),
  ("grpc_ssl_server_name", [ngxHttpMainConf ||| ngxHttpSrvConf ||| ngxHttpLocConf ||| ngxConfFlag]),
  ("grpc_ssl_session_reuse", [ngxHttpMainConf ||| ngxHttpSrvConf ||| ngxHttpLocConf ||| ngxConfFlag]),
  ("grpc_ssl_trusted_certificate", [ngxHttpMainConf ||| ngxHttpSrvConf ||| ngxHttpLocConf ||| ngxConfTake1]),
  ("grpc_ssl_verify", [ngxHttpMainConf ||| ngxHttpSrvConf ||| ngxHttpLocConf ||| ngxConfFlag]),
  ("grpc_ssl_verify_depth", [ngxHttpMainConf ||| ngxHttpSrvConf ||| ngxHttpLocConf ||| ngxConfTake1]),
  ("gunzip", [ngxHttpMainConf ||| ngxHttpSrvConf ||| ngxHttpLocConf ||| ngxConfFlag]),
  ("gunzip_buffers", [ngxHttpMainConf ||| ngxHttpSrvConf ||| ngxHttpLocConf ||| ngxConfTake2]),
  ("gzip", [ngxHttpMainConf ||| ngxHttpSrvConf ||| ngxHttpLocConf ||| ngxHttpLifConf ||| ngxConfFlag]),
  ("gzip_buffers", [ngxHttpMainConf ||| ngxHttpSrvConf ||| ngxHttpLocConf ||| ngxConfTake2]),
  ("gzip_comp_level", [ngxHttpMainConf ||| ngxHttpSrvConf ||| ngxHttpLocConf ||| ngxConfTake1]),
  ("gzip_disable", [ngxHttpMainConf ||| ngxHttpSrvConf ||| ngxHttpLocConf ||| ngxConf1More]),
  ("gzip_Httpversion", [ngxHttpMainConf ||| ngxHttpSrvConf ||| ngxHttpLocConf ||| ngxConfTake1]),
  ("gzip_min_length", [ngxHttpMainConf ||| ngxHttpSrvConf ||| ngxHttpLocConf ||| ngxConfTake1]),
  ("gzip_proxied", [ngxHttpMainConf ||| ngxHttpSrvConf ||| ngxHttpLocConf ||| ngxConf1More]),
  ("gzip_static", [ngxHttpMainConf ||| ngxHttpSrvConf ||| ngxHttpLocConf ||| ngxConfTake1]),
  ("gzip_types", [ngxHttpMainConf ||| ngxHttpSrvConf ||| ngxHttpLocConf ||| ngxConf1More]),
  ("gzip_vary", [ngxHttpMainConf ||| ngxHttpSrvConf ||| ngxHttpLocConf ||| ngxConfFlag]),
  ("hash", [ngxHttpUpsConf ||| ngxConfTake12, ngxStreamUpsConf ||| ngxConfTake12]),
  ("http", [ngxMainConf ||| ngxConfBlock ||| ngxConfNoArgs]),
  ("http2_body_preread_size", [ngxHttpMainConf ||| ngxHttpSrvConf ||| ngxConfTake1]),
  ("http2_chunk_size", [ngxHttpMainConf ||| ngxHttpSrvConf ||| ngxHttpLocConf ||| ngxConfTake1]),
  ("http2_idle_timeout", [ngxHttpMainConf ||| ngxHttpSrvConf ||| ngxConfTake1]),
  ("http2_max_concurrent_pushes", [ngxHttpMainConf ||| ngxHttpSrvConf ||| ngxConfTake1]),
  ("http2_max_concurrent_streams", [ngxHttpMainConf ||| ngxHttpSrvConf ||| ngxConfTake1]),
  ("http2_max_field_size", [ngxHttpMainConf ||| ngxHttpSrvConf ||| ngxConfTake1]),
  ("http2_max_header_size", [ngxHttpMainConf ||| ngxHttpSrvConf ||| ngxConfTake1]),
  ("http2_max_requests", [ngxHttpMainConf ||| ngxHttpSrvConf ||| ngxConfTake1]),
  ("http2_push", [ngxHttpMainConf ||| ngxHttpSrvConf ||| ngxHttpLocConf ||| ngxConfTake1]),
  ("http2_push_preload", [ngxHttpMainConf ||| ngxHttpSrvConf ||| ngxHttpLocConf ||| ngxConfFlag]),
  ("http2_recv_buffer_size", [ngxHttpMainConf ||| ngxConfTake1]),
  ("http2_recv_timeout", [ngxHttpMainConf ||| ngxHttpSrvConf ||| ngxConfTake1]),
  ("if", [ngxHttpSrvConf ||| ngxHttpLocConf ||| ngxConfBlock ||| ngxConf1More]),
  ("if_modified_since", [ngxHttpMainConf ||| ngxHttpSrvConf ||| ngxHttpLocConf ||| ngxConfTake1]),
  ("ignore_invalid_headers", [ngxHttpMainConf ||| ngxHttpSrvConf ||| ngxConfFlag]),
  ("image_filter", [ngxHttpLocConf ||| ngxConfTake123]),
  ("image_filter_buffer", [ngxHttpMainConf ||| ngxHttpSrvConf ||| ngxHttpLocConf ||| ngxConfTake1]),
  ("image_filter_interlace", [ngxHttpMainConf ||| ngxHttpSrvConf ||| ngxHttpLocConf ||| ngxConfFlag]),
  ("image_filter_jpeg_quality", [ngxHttpMainConf ||| ngxHttpSrvConf ||| ngxHttpLocConf ||| ngxConfTake1]),
  ("image_filter_sharpen", [ngxHttpMainConf ||| ngxHttpSrvConf ||| ngxHttpLocConf ||| ngxConfTake1]),
  ("image_filter_transparency", [ngxHttpMainConf ||| ngxHttpSrvConf ||| ngxHttpLocConf ||| ngxConfFlag]),
  ("image_filter_webp_quality", [ngxHttpMainConf ||| ngxHttpSrvConf ||| ngxHttpLocConf ||| ngxConfTake1]),
  ("imap_auth", [ngxMailMainConf ||| ngxMailSrvConf ||| ngxConf1More]),
  ("imap_capabilities", [ngxMailMainConf ||| ngxMailSrvConf ||| ngxConf1More]),
  ("imap_client_buffer", [ngxMailMainConf ||| ngxMailSrvConf ||| ngxConfTake1]),
  ("include", [ngxAnyConf ||| ngxConfTake1]),
  ("index", [ngxHttpMainConf ||| ngxHttpSrvConf ||| ngxHttpLocConf ||| ngxConf1More]),
  ("internal", [ngxHttpLocConf ||| ngxConfNoArgs]),
  ("ip_hash", [ngxHttpUpsConf ||| ngxConfNoArgs]),
  ("keepalive", [ngxHttpUpsConf ||| ngxConfTake1]),
  ("keepalive_disable", [ngxHttpMainConf ||| ngxHttpSrvConf ||| ngxHttpLocConf ||| ngxConfTake12]),
  ("keepalive_requests", [ngxHttpMainConf ||| ngxHttpSrvConf ||| ngxHttpLocConf ||| ngxConfTake1, ngxHttpUpsConf ||| ngxConfTake1]),
  ("keepalive_timeout", [ngxHttpMainConf ||| ngxHttpSrvConf ||| ngxHttpLocConf ||| ngxConfTake12, ngxHttpUpsConf ||| ngxConfTake1]),
  ("large_client_header_buffers", [ngxHttpMainConf ||| ngxHttpSrvConf ||| ngxConfTake2]),
  ("least_conn", [ngxHttpUpsConf ||| ngxConfNoArgs, ngxStreamUpsConf ||| ngxConfNoArgs]),
  ("limit_conn", [ngxHttpMainConf ||| ngxHttpSrvConf ||| ngxHttpLocConf ||| ngxConfTake2, ngxStreamMainConf ||| ngxStreamSrvConf ||| ngxConfTake2]),
  ("limit_conn_dry_run", [ngxHttpMainConf ||| ngxHttpSrvConf ||| ngxHttpLocConf ||| ngxConfTake1, ngxStreamMainConf ||| ngxStreamSrvConf ||| ngxConfTake1]),
  ("limit_conn_log_level", [ngxHttpMainConf ||| ngxHttpSrvConf ||| ngxHttpLocConf ||| ngxConfTake1, ngxStreamMainConf ||| ngxStreamSrvConf ||| ngxConfTake1]),
  ("limit_conn_status", [ngxHttpMainConf ||| ngxHttpSrvConf ||| ngxHttpLocConf ||| ngxConfTake1]),
  ("limit_conn_zone", [ngxHttpMainConf ||| ngxConfTake2, ngxStreamMainConf ||| ngxConfTake2]),
  ("limit_except", [ngxHttpLocConf ||| ngxConfBlock ||| ngxConf1More]),
  ("limit_rate", [ngxHttpMainConf ||| ngxHttpSrvConf ||| ngxHttpLocConf ||| ngxHttpLifConf ||| ngxConfTake1]),
  ("limit_rate_after", [ngxHttpMainConf ||| ngxHttpSrvConf ||| ngxHttpLocConf ||| ngxHttpLifConf ||| ngxConfTake1]),
  ("limit_req", [ngxHttpMainConf ||| ngxHttpSrvConf ||| ngxHttpLocConf ||| ngxConfTake123]),
  ("limit_req_dry_run", [ngxHttpMainConf ||| ngxHttpSrvConf ||| ngxHttpLocConf ||| ngxConfTake1]),
  ("limit_req_log_level", [ngxHttpMainConf ||| ngxHttpSrvConf ||| ngxHttpLocConf ||| ngxConfTake1]),
  ("limit_req_status", [ngxHttpMainConf ||| ngxHttpSrvConf ||| ngxHttpLocConf ||| ngxConfTake1]),
  ("limit_req_zone", [ngxHttpMainConf ||| ngxConfTake34]),
  ("lingering_close", [ngxHttpMainConf ||| ngxHttpSrvConf ||| ngxHttpLocConf ||| ngxConfTake1]),
  ("lingering_time", [ngxHttpMainConf ||| ngxHttpSrvConf ||| ngxHttpLocConf ||| ngxConfTake1]),
  ("lingering_timeout", [ngxHttpMainConf ||| ngxHttpSrvConf ||| ngxHttpLocConf ||| ngxConfTake1]),
  ("listen", [ngxHttpSrvConf ||| ngxConf1More, ngxMailSrvConf ||| ngxConf1More, ngxStreamSrvConf ||| ngxConf1More]),
  ("load_module", [ngxMainConf ||| ngxDirectConf ||| ngxConfTake1]),
  ("location", [ngxHttpSrvConf ||| ngxHttpLocConf ||| ngxConfBlock ||| ngxConfTake12]),
  ("lock_file", [ngxMainConf ||| ngxDirectConf ||| ngxConfTake1]),
  ("log_format", [ngxHttpMainConf ||| ngxConf2More, ngxStreamMainConf ||| ngxConf2More]),
  ("log_not_found", [ngxHttpMainConf ||| ngxHttpSrvConf ||| ngxHttpLocConf ||| ngxConfFlag]),
  ("log_subrequest", [ngxHttpMainConf ||| ngxHttpSrvConf ||| ngxHttpLocConf ||| ngxConfFlag]),
  ("mail", [ngxMainConf ||| ngxConfBlock ||| ngxConfNoArgs]),
  ("map", [ngxHttpMainConf ||| ngxConfBlock ||| ngxConfTake2, ngxStreamMainConf ||| ngxConfBlock ||| ngxConfTake2]),
  ("map_hash_bucket_size", [ngxHttpMainConf ||| ngxConfTake1, ngxStreamMainConf ||| ngxConfTake1]),
  ("map_hash_max_size", [ngxHttpMainConf ||| ngxConfTake1, ngxStreamMainConf ||| ngxConfTake1]),
  ("master_process", [ngxMainConf ||| ngxDirectConf ||| ngxConfFlag]),
  ("max_ranges", [ngxHttpMainConf ||| ngxHttpSrvConf ||| ngxHttpLocConf ||| ngxConfTake1]),
  ("memcached_bind", [ngxHttpMainConf ||| ngxHttpSrvConf ||| ngxHttpLocConf ||| ngxConfTake12]),
  ("memcached_buffer_size", [ngxHttpMainConf ||| ngxHttpSrvConf ||| ngxHttpLocConf ||| ngxConfTake1]),
  ("memcached_connect_timeout", [ngxHttpMainConf ||| ngxHttpSrvConf ||| ngxHttpLocConf ||| ngxConfTake1]),
  ("memcached_gzip_flag", [ngxHttpMainConf ||| ngxHttpSrvConf ||| ngxHttpLocConf ||| ngxConfTake1]),
  ("memcached_next_upstream", [ngxHttpMainConf ||| ngxHttpSrvConf ||| ngxHttpLocConf ||| ngxConf1More]),
  ("memcached_next_upStreamtimeout", [ngxHttpMainConf ||| ngxHttpSrvConf ||| ngxHttpLocConf ||| ngxConfTake1]),
  ("memcached_next_upStreamtries", [ngxHttpMainConf ||| ngxHttpSrvConf ||| ngxHttpLocConf ||| ngxConfTake1]),
  ("memcached_pass", [ngxHttpLocConf ||| ngxHttpLifConf ||| ngxConfTake1]),
  ("memcached_read_timeout", [ngxHttpMainConf ||| ngxHttpSrvConf ||| ngxHttpLocConf ||| ngxConfTake1]),
  ("memcached_send_timeout", [ngxHttpMainConf ||| ngxHttpSrvConf ||| ngxHttpLocConf ||| ngxConfTake1]),
  ("memcached_socket_keepalive", [ngxHttpMainConf ||| ngxHttpSrvConf ||| ngxHttpLocConf ||| ngxConfFlag]),
  ("merge_slashes", [ngxHttpMainConf ||| ngxHttpSrvConf ||| ngxConfFlag]),
  ("min_delete_depth", [ngxHttpMainConf ||| ngxHttpSrvConf ||| ngxHttpLocConf ||| ngxConfTake1]),
  ("mirror", [ngxHttpMainConf ||| ngxHttpSrvConf ||| ngxHttpLocConf ||| ngxConfTake1]),
  ("mirror_request_body", [ngxHttpMainConf ||| ngxHttpSrvConf ||| ngxHttpLocConf ||| ngxConfFlag]),
  ("modern_browser", [ngxHttpMainConf ||| ngxHttpSrvConf ||| ngxHttpLocConf ||| ngxConfTake12]),
  ("modern_browser_value", [ngxHttpMainConf ||| ngxHttpSrvConf ||| ngxHttpLocConf ||| ngxConfTake1]),
  ("mp4", [ngxHttpLocConf ||| ngxConfNoArgs]),
  ("mp4_buffer_size", [ngxHttpMainConf ||| ngxHttpSrvConf ||| ngxHttpLocConf ||| ngxConfTake1]),
  ("mp4_max_buffer_size", [ngxHttpMainConf ||| ngxHttpSrvConf ||| ngxHttpLocConf ||| ngxConfTake1]),
  ("msie_padding", [ngxHttpMainConf ||| ngxHttpSrvConf ||| ngxHttpLocConf ||| ngxConfFlag]),
  ("msie_refresh", [ngxHttpMainConf ||| ngxHttpSrvConf ||| ngxHttpLocConf ||| ngxConfFlag]),
  ("multi_accept", [ngxEventConf ||| ngxConfFlag]),
  ("open_file_cache", [ngxHttpMainConf ||| ngxHttpSrvConf ||| ngxHttpLocConf ||| ngxConfTake12]),
  ("open_file_cache_errors", [ngxHttpMainConf ||| ngxHttpSrvConf ||| ngxHttpLocConf ||| ngxConfFlag]),
  ("open_file_cache_min_uses", [ngxHttpMainConf ||| ngxHttpSrvConf ||| ngxHttpLocConf ||| ngxConfTake1]),
  ("open_file_cache_valid", [ngxHttpMainConf ||| ngxHttpSrvConf ||| ngxHttpLocConf ||| ngxConfTake1]),
  ("open_log_file_cache", [ngxHttpMainConf ||| ngxHttpSrvConf ||| ngxHttpLocConf ||| ngxConfTake1234, ngxStreamMainConf ||| ngxStreamSrvConf ||| ngxConfTake1234]),
  ("output_buffers", [ngxHttpMainConf ||| ngxHttpSrvConf ||| ngxHttpLocConf ||| ngxConfTake2]),
  ("override_charset", [ngxHttpMainConf ||| ngxHttpSrvConf ||| ngxHttpLocConf ||| ngxHttpLifConf ||| ngxConfFlag]),
  ("pcre_jit", [ngxMainConf ||| ngxDirectConf ||| ngxConfFlag]),
  ("perl", [ngxHttpLocConf ||| ngxHttpLmtConf ||| ngxConfTake1]),
  ("perl_modules", [ngxHttpMainConf ||| ngxConfTake1]),
  ("perl_require", [ngxHttpMainConf ||| ngxConfTake1]),
  ("perl_set", [ngxHttpMainConf ||| ngxConfTake2]),
  ("pid", [ngxMainConf ||| ngxDirectConf ||| ngxConfTake1]),
  ("pop3_auth", [ngxMailMainConf ||| ngxMailSrvConf ||| ngxConf1More]),
  ("pop3_capabilities", [ngxMailMainConf ||| ngxMailSrvConf ||| ngxConf1More]),
  ("port_in_redirect", [ngxHttpMainConf ||| ngxHttpSrvConf ||| ngxHttpLocConf ||| ngxConfFlag]),
  ("postpone_output", [ngxHttpMainConf ||| ngxHttpSrvConf ||| ngxHttpLocConf ||| ngxConfTake1]),
  ("preread_buffer_size", [ngxStreamMainConf ||| ngxStreamSrvConf ||| ngxConfTake1]),
  ("preread_timeout", [ngxStreamMainConf ||| ngxStreamSrvConf ||| ngxConfTake1]),
  ("protocol", [ngxMailSrvConf ||| ngxConfTake1]),
  ("proxy_bind", [ngxHttpMainConf ||| ngxHttpSrvConf ||| ngxHttpLocConf ||| ngxConfTake12, ngxStreamMainConf ||| ngxStreamSrvConf ||| ngxConfTake12]),
  ("proxy_buffer", [ngxMailMainConf ||| ngxMailSrvConf ||| ngxConfTake1]),
  ("proxy_buffer_size", [ngxHttpMainConf ||| ngxHttpSrvConf ||| ngxHttpLocConf ||| ngxConfTake1, ngxStreamMainConf ||| ngxStreamSrvConf ||| ngxConfTake1]),
  ("proxy_buffering", [ngxHttpMainConf ||| ngxHttpSrvConf ||| ngxHttpLocConf ||| ngxConfFlag]),
  ("proxy_buffers", [ngxHttpMainConf ||| ngxHttpSrvConf ||| ngxHttpLocConf ||| ngxConfTake2]),
  ("proxy_busy_buffers_size", [ngxHttpMainConf ||| ngxHttpSrvConf ||| ngxHttpLocConf ||| ngxConfTake1]),
  ("proxy_cache", [ngxHttpMainConf ||| ngxHttpSrvConf ||| ngxHttpLocConf ||| ngxConfTake1]),
  ("proxy_cache_background_update", [ngxHttpMainConf ||| ngxHttpSrvConf ||| ngxHttpLocConf ||| ngxConfFlag]),
  ("proxy_cache_bypass", [ngxHttpMainConf ||| ngxHttpSrvConf ||| ngxHttpLocConf ||| ngxConf1More]),
  ("proxy_cache_convert_head", [ngxHttpMainConf ||| ngxHttpSrvConf ||| ngxHttpLocConf ||| ngxConfFlag]),
  ("proxy_cache_key", [ngxHttpMainConf ||| ngxHttpSrvConf ||| ngxHttpLocConf ||| ngxConfTake1]),
  ("proxy_cache_lock", [ngxHttpMainConf ||| ngxHttpSrvConf ||| ngxHttpLocConf ||| ngxConfFlag]),
  ("proxy_cache_lock_age", [ngxHttpMainConf ||| ngxHttpSrvConf ||| ngxHttpLocConf ||| ngxConfTake1]),
  ("proxy_cache_lock_timeout", [ngxHttpMainConf ||| ngxHttpSrvConf ||| ngxHttpLocConf ||| ngxConfTake1]),
  ("proxy_cache_max_range_offset", [ngxHttpMainConf ||| ngxHttpSrvConf ||| ngxHttpLocConf ||| ngxConfTake1]),
  ("proxy_cache_methods", [ngxHttpMainConf ||| ngxHttpSrvConf ||| ngxHttpLocConf ||| ngxConf1More]),
  ("proxy_cache_min_uses", [ngxHttpMainConf ||| ngxHttpSrvConf ||| ngxHttpLocConf ||| ngxConfTake1]),
  ("proxy_cache_path", [ngxHttpMainConf ||| ngxConf2More]),
  ("proxy_cache_revalidate", [ngxHttpMainConf ||| ngxHttpSrvConf ||| ngxHttpLocConf ||| ngxConfFlag]),
  ("proxy_cache_use_stale", [ngxHttpMainConf ||| ngxHttpSrvConf ||| ngxHttpLocConf ||| ngxConf1More]),
  ("proxy_cache_valid", [ngxHttpMainConf ||| ngxHttpSrvConf ||| ngxHttpLocConf ||| ngxConf1More]),
  ("proxy_connect_timeout", [ngxHttpMainConf ||| ngxHttpSrvConf ||| ngxHttpLocConf ||| ngxConfTake1, ngxStreamMainConf ||| ngxStreamSrvConf ||| ngxConfTake1]),
  ("proxy_cookie_domain", [ngxHttpMainConf ||| ngxHttpSrvConf ||| ngxHttpLocConf ||| ngxConfTake12]),
  ("proxy_cookie_path", [ngxHttpMainConf ||| ngxHttpSrvConf ||| ngxHttpLocConf ||| ngxConfTake12]),
  ("proxy_download_rate", [ngxStreamMainConf ||| ngxStreamSrvConf ||| ngxConfTake1]),
  ("proxy_force_ranges", [ngxHttpMainConf ||| ngxHttpSrvConf ||| ngxHttpLocConf ||| ngxConfFlag]),
  ("proxy_headers_hash_bucket_size", [ngxHttpMainConf ||| ngxHttpSrvConf ||| ngxHttpLocConf ||| ngxConfTake1]),
  ("proxy_headers_hash_max_size", [ngxHttpMainConf ||| ngxHttpSrvConf ||| ngxHttpLocConf ||| ngxConfTake1]),
  ("proxy_hide_header", [ngxHttpMainConf ||| ngxHttpSrvConf ||| ngxHttpLocConf ||| ngxConfTake1]),
  ("proxy_Httpversion", [ngxHttpMainConf ||| ngxHttpSrvConf ||| ngxHttpLocConf ||| ngxConfTake1]),
  ("proxy_ignore_client_abort", [ngxHttpMainConf ||| ngxHttpSrvConf ||| ngxHttpLocConf ||| ngxConfFlag]),
  ("proxy_ignore_headers", [ngxHttpMainConf ||| ngxHttpSrvConf ||| ngxHttpLocConf ||| ngxConf1More]),
  ("proxy_intercept_errors", [ngxHttpMainConf ||| ngxHttpSrvConf ||| ngxHttpLocConf ||| ngxConfFlag]),
  ("proxy_limit_rate", [ngxHttpMainConf ||| ngxHttpSrvConf ||| ngxHttpLocConf ||| ngxConfTake1]),
  ("proxy_max_temp_file_size", [ngxHttpMainConf ||| ngxHttpSrvConf ||| ngxHttpLocConf ||| ngxConfTake1]),
  ("proxy_method", [ngxHttpMainConf ||| ngxHttpSrvConf ||| ngxHttpLocConf ||| ngxConfTake1]),
  ("proxy_next_upstream", [ngxHttpMainConf ||| ngxHttpSrvConf ||| ngxHttpLocConf ||| ngxConf1More, ngxStreamMainConf ||| ngxStreamSrvConf ||| ngxConfFlag]),
  ("proxy_next_upStreamtimeout", [ngxHttpMainConf ||| ngxHttpSrvConf ||| ngxHttpLocConf ||| ngxConfTake1, ngxStreamMainConf ||| ngxStreamSrvConf ||| ngxConfTake1]),
  ("proxy_next_upStreamtries", [ngxHttpMainConf ||| ngxHttpSrvConf ||| ngxHttpLocConf ||| ngxConfTake1, ngxStreamMainConf ||| ngxStreamSrvConf ||| ngxConfTake1]),
  ("proxy_no_cache", [ngxHttpMainConf ||| ngxHttpSrvConf ||| ngxHttpLocConf ||| ngxConf1More]),
  ("proxy_pass", [ngxHttpLocConf ||| ngxHttpLifConf ||| ngxHttpLmtConf ||| ngxConfTake1, ngxStreamSrvConf ||| ngxConfTake1]),
  ("proxy_pass_error_message", [ngxMailMainConf ||| ngxMailSrvConf ||| ngxConfFlag]),
  ("proxy_pass_header", [ngxHttpMainConf ||| ngxHttpSrvConf ||| ngxHttpLocConf ||| ngxConfTake1]),
  ("proxy_pass_request_body", [ngxHttpMainConf ||| ngxHttpSrvConf ||| ngxHttpLocConf ||| ngxConfFlag]),
  ("proxy_pass_request_headers", [ngxHttpMainConf ||| ngxHttpSrvConf ||| ngxHttpLocConf ||| ngxConfFlag]),
  ("proxy_protocol", [ngxStreamMainConf ||| ngxStreamSrvConf ||| ngxConfFlag]),
  ("proxy_protocol_timeout", [ngxStreamMainConf ||| ngxStreamSrvConf ||| ngxConfTake1]),
  ("proxy_read_timeout", [ngxHttpMainConf ||| ngxHttpSrvConf ||| ngxHttpLocConf ||| ngxConfTake1]),
  ("proxy_redirect", [ngxHttpMainConf ||| ngxHttpSrvConf ||| ngxHttpLocConf ||| ngxConfTake12]),
  ("proxy_request_buffering", [ngxHttpMainConf ||| ngxHttpSrvConf ||| ngxHttpLocConf ||| ngxConfFlag]),
  ("proxy_requests", [ngxStreamMainConf ||| ngxStreamSrvConf ||| ngxConfTake1]),
  ("proxy_responses", [ngxStreamMainConf ||| ngxStreamSrvConf ||| ngxConfTake1]),
  ("proxy_send_lowat", [ngxHttpMainConf ||| ngxHttpSrvConf ||| ngxHttpLocConf ||| ngxConfTake1]),
  ("proxy_send_timeout", [ngxHttpMainConf ||| ngxHttpSrvConf ||| ngxHttpLocConf ||| ngxConfTake1]),
  ("proxy_set_body", [ngxHttpMainConf ||| ngxHttpSrvConf ||| ngxHttpLocConf ||| ngxConfTake1]),
  ("proxy_set_header", [ngxHttpMainConf ||| ngxHttpSrvConf ||| ngxHttpLocConf ||| ngxConfTake2]),
  ("proxy_socket_keepalive", [ngxHttpMainConf ||| ngxHttpSrvConf ||| ngxHttpLocConf ||| ngxConfFlag, ngxStreamMainConf ||| ngxStreamSrvConf ||| ngxConfFlag]),
  ("proxy_ssl", [ngxStreamMainConf ||| ngxStreamSrvConf ||| ngxConfFlag]),
  ("proxy_ssl_certificate", [ngxHttpMainConf ||| ngxHttpSrvConf ||| ngxHttpLocConf ||| ngxConfTake1, ngxStreamMainConf ||| ngxStreamSrvConf ||| ngxConfTake1]),
  ("proxy_ssl_certificate_key", [ngxHttpMainConf ||| ngxHttpSrvConf ||| ngxHttpLocConf ||| ngxConfTake1, ngxStreamMainConf ||| ngxStreamSrvConf ||| ngxConfTake1]),
  ("proxy_ssl_ciphers", [ngxHttpMainConf ||| ngxHttpSrvConf ||| ngxHttpLocConf ||| ngxConfTake1, ngxStreamMainConf ||| ngxStreamSrvConf ||| ngxConfTake1]),
  ("proxy_ssl_crl", [ngxHttpMainConf ||| ngxHttpSrvConf ||| ngxHttpLocConf ||| ngxConfTake1, ngxStreamMainConf ||| ngxStreamSrvConf ||| ngxConfTake1]),
  ("proxy_ssl_name", [ngxHttpMainConf ||| ngxHttpSrvConf ||| ngxHttpLocConf ||| ngxConfTake1, ngxStreamMainConf ||| ngxStreamSrvConf ||| ngxConfTake1]),
  ("proxy_ssl_password_file", [ngxHttpMainConf ||| ngxHttpSrvConf ||| ngxHttpLocConf ||| ngxConfTake1, ngxStreamMainConf ||| ngxStreamSrvConf ||| ngxConfTake1]),
  ("proxy_ssl_protocols", [ngxHttpMainConf ||| ngxHttpSrvConf ||| ngxHttpLocConf ||| ngxConf1More, ngxStreamMainConf ||| ngxStreamSrvConf ||| ngxConf1More]),
  ("proxy_ssl_server_name", [ngxHttpMainConf ||| ngxHttpSrvConf ||| ngxHttpLocConf ||| ngxConfFlag, ngxStreamMainConf ||| ngxStreamSrvConf ||| ngxConfFlag]),
  ("proxy_ssl_session_reuse", [ngxHttpMainConf ||| ngxHttpSrvConf ||| ngxHttpLocConf ||| ngxConfFlag, ngxStreamMainConf ||| ngxStreamSrvConf ||| ngxConfFlag]),
  ("proxy_ssl_trusted_certificate", [ngxHttpMainConf ||| ngxHttpSrvConf ||| ngxHttpLocConf ||| ngxConfTake1, ngxStreamMainConf ||| ngxStreamSrvConf ||| ngxConfTake1]),
  ("proxy_ssl_verify", [ngxHttpMainConf ||| ngxHttpSrvConf ||| ngxHttpLocConf ||| ngxConfFlag, ngxStreamMainConf ||| ngxStreamSrvConf ||| ngxConfFlag]),
  ("proxy_ssl_verify_depth", [ngxHttpMainConf ||| ngxHttpSrvConf ||| ngxHttpLocConf ||| ngxConfTake1, ngxStreamMainConf ||| ngxStreamSrvConf ||| ngxConfTake1]),
  ("proxy_store", [ngxHttpMainConf ||| ngxHttpSrvConf ||| ngxHttpLocConf ||| ngxConfTake1]),
  ("proxy_store_access", [ngxHttpMainConf ||| ngxHttpSrvConf ||| ngxHttpLocConf ||| ngxConfTake123]),
  ("proxy_temp_file_write_size", [ngxHttpMainConf ||| ngxHttpSrvConf ||| ngxHttpLocConf ||| ngxConfTake1]),
  ("proxy_temp_path", [ngxHttpMainConf ||| ngxHttpSrvConf ||| ngxHttpLocConf ||| ngxConfTake1234]),
  ("proxy_timeout", [ngxMailMainConf ||| ngxMailSrvConf ||| ngxConfTake1, ngxStreamMainConf ||| ngxStreamSrvConf ||| ngxConfTake1]),
  ("proxy_upload_rate", [ngxStreamMainConf ||| ngxStreamSrvConf ||| ngxConfTake1]),
  ("random", [ngxHttpUpsConf ||| ngxConfNoArgs ||| ngxConfTake12, ngxStreamUpsConf ||| ngxConfNoArgs ||| ngxConfTake12]),
  ("random_index", [ngxHttpLocConf ||| ngxConfFlag]),
  ("read_ahead", [ngxHttpMainConf ||| ngxHttpSrvConf ||| ngxHttpLocConf ||| ngxConfTake1]),
  ("real_ip_header", [ngxHttpMainConf ||| ngxHttpSrvConf ||| ngxHttpLocConf ||| ngxConfTake1]),
  ("real_ip_recursive", [ngxHttpMainConf ||| ngxHttpSrvConf ||| ngxHttpLocConf ||| ngxConfFlag]),
  ("recursive_error_pages", [ngxHttpMainConf ||| ngxHttpSrvConf ||| ngxHttpLocConf ||| ngxConfFlag]),
  ("referer_hash_bucket_size", [ngxHttpSrvConf ||| ngxHttpLocConf ||| ngxConfTake1]),
  ("referer_hash_max_size", [ngxHttpSrvConf ||| ngxHttpLocConf ||| ngxConfTake1]),
  ("request_pool_size", [ngxHttpMainConf ||| ngxHttpSrvConf ||| ngxConfTake1]),
  ("reset_timedout_connection", [ngxHttpMainConf ||| ngxHttpSrvConf ||| ngxHttpLocConf ||| ngxConfFlag]),
  ("resolver", [ngxHttpMainConf ||| ngxHttpSrvConf ||| ngxHttpLocConf ||| ngxConf1More, ngxMailMainConf ||| ngxMailSrvConf ||| ngxConf1More, ngxStreamMainConf ||| ngxStreamSrvConf ||| ngxConf1More]),
  ("resolver_timeout", [ngxHttpMainConf ||| ngxHttpSrvConf ||| ngxHttpLocConf ||| ngxConfTake1, ngxMailMainConf ||| ngxMailSrvConf ||| ngxConfTake1, ngxStreamMainConf ||| ngxStreamSrvConf ||| ngxConfTake1]),
  ("return", [ngxHttpSrvConf ||| ngxHttpSifConf ||| ngxHttpLocConf ||| ngxHttpLifConf ||| ngxConfTake12, ngxStreamSrvConf ||| ngxConfTake1]),
  ("rewrite", [ngxHttpSrvConf ||| ngxHttpSifConf ||| ngxHttpLocConf ||| ngxHttpLifConf ||| ngxConfTake23]),
  ("rewrite_log", [ngxHttpMainConf ||| ngxHttpSrvConf ||| ngxHttpSifConf ||| ngxHttpLocConf ||| ngxHttpLifConf ||| ngxConfFlag]),
  ("root", [ngxHttpMainConf ||| ngxHttpSrvConf ||| ngxHttpLocConf ||| ngxHttpLifConf ||| ngxConfTake1]),
  ("satisfy", [ngxHttpMainConf ||| ngxHttpSrvConf ||| ngxHttpLocConf ||| ngxConfTake1]),
  ("scgi_bind", [ngxHttpMainConf ||| ngxHttpSrvConf ||| ngxHttpLocConf ||| ngxConfTake12]),
  ("scgi_buffer_size", [ngxHttpMainConf ||| ngxHttpSrvConf ||| ngxHttpLocConf ||| ngxConfTake1]),
  ("scgi_buffering", [ngxHttpMainConf ||| ngxHttpSrvConf ||| ngxHttpLocConf ||| ngxConfFlag]),
  ("scgi_buffers", [ngxHttpMainConf ||| ngxHttpSrvConf ||| ngxHttpLocConf ||| ngxConfTake2]),
  ("scgi_busy_buffers_size", [ngxHttpMainConf ||| ngxHttpSrvConf ||| ngxHttpLocConf ||| ngxConfTake1]),
  ("scgi_cache", [ngxHttpMainConf ||| ngxHttpSrvConf ||| ngxHttpLocConf ||| ngxConfTake1]),
  ("scgi_cache_background_update", [ngxHttpMainConf ||| ngxHttpSrvConf ||| ngxHttpLocConf ||| ngxConfFlag]),
  ("scgi_cache_bypass", [ngxHttpMainConf ||| ngxHttpSrvConf ||| ngxHttpLocConf ||| ngxConf1More]),
  ("scgi_cache_key", [ngxHttpMainConf ||| ngxHttpSrvConf ||| ngxHttpLocConf ||| ngxConfTake1]),
  ("scgi_cache_lock", [ngxHttpMainConf ||| ngxHttpSrvConf ||| ngxHttpLocConf ||| ngxConfFlag]),
  ("scgi_cache_lock_age", [ngxHttpMainConf ||| ngxHttpSrvConf ||| ngxHttpLocConf ||| ngxConfTake1]),
  ("scgi_cache_lock_timeout", [ngxHttpMainConf ||| ngxHttpSrvConf ||| ngxHttpLocConf ||| ngxConfTake1]),
  ("scgi_cache_max_range_offset", [ngxHttpMainConf ||| ngxHttpSrvConf ||| ngxHttpLocConf ||| ngxConfTake1]),
  ("scgi_cache_methods", [ngxHttpMainConf ||| ngxHttpSrvConf ||| ngxHttpLocConf ||| ngxConf1More]),
  ("scgi_cache_min_uses", [ngxHttpMainConf ||| ngxHttpSrvConf ||| ngxHttpLocConf ||| ngxConfTake1]),
  ("scgi_cache_path", [ngxHttpMainConf ||| ngxConf2More]),
  ("scgi_cache_revalidate", [ngxHttpMainConf ||| ngxHttpSrvConf ||| ngxHttpLocConf ||| ngxConfFlag]),
  ("scgi_cache_use_stale", [ngxHttpMainConf ||| ngxHttpSrvConf ||| ngxHttpLocConf ||| ngxConf1More]),
  ("scgi_cache_valid", [ngxHttpMainConf ||| ngxHttpSrvConf ||| ngxHttpLocConf ||| ngxConf1More]),
  ("scgi_connect_timeout", [ngxHttpMainConf ||| ngxHttpSrvConf ||| ngxHttpLocConf ||| ngxConfTake1]),
  ("scgi_force_ranges", [ngxHttpMainConf ||| ngxHttpSrvConf ||| ngxHttpLocConf ||| ngxConfFlag]),
  ("scgi_hide_header", [ngxHttpMainConf ||| ngxHttpSrvConf ||| ngxHttpLocConf ||| ngxConfTake1]),
  ("scgi_ignore_client_abort", [ngxHttpMainConf ||| ngxHttpSrvConf ||| ngxHttpLocConf ||| ngxConfFlag]),
  ("scgi_ignore_headers", [ngxHttpMainConf ||| ngxHttpSrvConf ||| ngxHttpLocConf ||| ngxConf1More]),
  ("scgi_intercept_errors", [ngxHttpMainConf ||| ngxHttpSrvConf ||| ngxHttpLocConf ||| ngxConfFlag]),
  ("scgi_limit_rate", [ngxHttpMainConf ||| ngxHttpSrvConf ||| ngxHttpLocConf ||| ngxConfTake1]),
  ("scgi_max_temp_file_size", [ngxHttpMainConf ||| ngxHttpSrvConf ||| ngxHttpLocConf ||| ngxConfTake1]),
  ("scgi_next_upstream", [ngxHttpMainConf ||| ngxHttpSrvConf ||| ngxHttpLocConf ||| ngxConf1More]),
  ("scgi_next_upStreamtimeout", [ngxHttpMainConf ||| ngxHttpSrvConf ||| ngxHttpLocConf ||| ngxConfTake1]),
  ("scgi_next_upStreamtries", [ngxHttpMainConf ||| ngxHttpSrvConf ||| ngxHttpLocConf ||| ngxConfTake1]),
  ("scgi_no_cache", [ngxHttpMainConf ||| ngxHttpSrvConf ||| ngxHttpLocConf ||| ngxConf1More]),
  ("scgi_param", [ngxHttpMainConf ||| ngxHttpSrvConf ||| ngxHttpLocConf ||| ngxConfTake23]),
  ("scgi_pass", [ngxHttpLocConf ||| ngxHttpLifConf ||| ngxConfTake1]),
  ("scgi_pass_header", [ngxHttpMainConf ||| ngxHttpSrvConf ||| ngxHttpLocConf ||| ngxConfTake1]),
  ("scgi_pass_request_body", [ngxHttpMainConf ||| ngxHttpSrvConf ||| ngxHttpLocConf ||| ngxConfFlag]),
  ("scgi_pass_request_headers", [ngxHttpMainConf ||| ngxHttpSrvConf ||| ngxHttpLocConf ||| ngxConfFlag]),
  ("scgi_read_timeout", [ngxHttpMainConf ||| ngxHttpSrvConf ||| ngxHttpLocConf ||| ngxConfTake1]),
  ("scgi_request_buffering", [ngxHttpMainConf ||| ngxHttpSrvConf ||| ngxHttpLocConf ||| ngxConfFlag]),
  ("scgi_send_timeout", [ngxHttpMainConf ||| ngxHttpSrvConf ||| ngxHttpLocConf ||| ngxConfTake1]),
  ("scgi_socket_keepalive", [ngxHttpMainConf ||| ngxHttpSrvConf ||| ngxHttpLocConf ||| ngxConfFlag]),
  ("scgi_store", [ngxHttpMainConf ||| ngxHttpSrvConf ||| ngxHttpLocConf ||| ngxConfTake1]),
  ("scgi_store_access", [ngxHttpMainConf ||| ngxHttpSrvConf ||| ngxHttpLocConf ||| ngxConfTake123]),
  ("scgi_temp_file_write_size", [ngxHttpMainConf ||| ngxHttpSrvConf ||| ngxHttpLocConf ||| ngxConfTake1]),
  ("scgi_temp_path", [ngxHttpMainConf ||| ngxHttpSrvConf ||| ngxHttpLocConf ||| ngxConfTake1234]),
  ("secure_link", [ngxHttpMainConf ||| ngxHttpSrvConf ||| ngxHttpLocConf ||| ngxConfTake1]),
  ("secure_link_md5", [ngxHttpMainConf ||| ngxHttpSrvConf ||| ngxHttpLocConf ||| ngxConfTake1]),
  ("secure_link_secret", [ngxHttpMainConf ||| ngxHttpSrvConf ||| ngxHttpLocConf ||| ngxConfTake1]),
  ("send_lowat", [ngxHttpMainConf ||| ngxHttpSrvConf ||| ngxHttpLocConf ||| ngxConfTake1]),
  ("send_timeout", [ngxHttpMainConf ||| ngxHttpSrvConf ||| ngxHttpLocConf ||| ngxConfTake1]),
  ("sendfile", [ngxHttpMainConf ||| ngxHttpSrvConf ||| ngxHttpLocConf ||| ngxHttpLifConf ||| ngxConfFlag]),
  ("sendfile_max_chunk", [ngxHttpMainConf ||| ngxHttpSrvConf ||| ngxHttpLocConf ||| ngxConfTake1]),
  ("server", [ngxHttpMainConf ||| ngxConfBlock ||| ngxConfNoArgs, ngxHttpUpsConf ||| ngxConf1More, ngxMailMainConf ||| ngxConfBlock ||| ngxConfNoArgs, ngxStreamMainConf ||| ngxConfBlock ||| ngxConfNoArgs, ngxStreamUpsConf ||| ngxConf1More]),
  ("server_name", [ngxHttpSrvConf ||| ngxConf1More, ngxMailMainConf ||| ngxMailSrvConf ||| ngxConfTake1]),
  ("server_name_in_redirect", [ngxHttpMainConf ||| ngxHttpSrvConf ||| ngxHttpLocConf ||| ngxConfFlag]),
  ("server_names_hash_bucket_size", [ngxHttpMainConf ||| ngxConfTake1]),
  ("server_names_hash_max_size", [ngxHttpMainConf ||| ngxConfTake1]),
  ("server_tokens", [ngxHttpMainConf ||| ngxHttpSrvConf ||| ngxHttpLocConf ||| ngxConfTake1]),
  ("set", [ngxHttpSrvConf ||| ngxHttpSifConf ||| ngxHttpLocConf ||| ngxHttpLifConf ||| ngxConfTake2]),
  ("set_real_ip_from", [ngxHttpMainConf ||| ngxHttpSrvConf ||| ngxHttpLocConf ||| ngxConfTake1, ngxStreamMainConf ||| ngxStreamSrvConf ||| ngxConfTake1]),
  ("slice", [ngxHttpMainConf ||| ngxHttpSrvConf ||| ngxHttpLocConf ||| ngxConfTake1]),
  ("smtp_auth", [ngxMailMainConf ||| ngxMailSrvConf ||| ngxConf1More]),
  ("smtp_capabilities", [ngxMailMainConf ||| ngxMailSrvConf ||| ngxConf1More]),
  ("smtp_client_buffer", [ngxMailMainConf ||| ngxMailSrvConf ||| ngxConfTake1]),
  ("smtp_greeting_delay", [ngxMailMainConf ||| ngxMailSrvConf ||| ngxConfTake1]),
  ("source_charset", [ngxHttpMainConf ||| ngxHttpSrvConf ||| ngxHttpLocConf ||| ngxHttpLifConf ||| ngxConfTake1]),
  ("spdy_chunk_size", [ngxHttpMainConf ||| ngxHttpSrvConf ||| ngxHttpLocConf ||| ngxConfTake1]),
  ("spdy_headers_comp", [ngxHttpMainConf ||| ngxHttpSrvConf ||| ngxConfTake1]),
  ("split_clients", [ngxHttpMainConf ||| ngxConfBlock ||| ngxConfTake2, ngxStreamMainConf ||| ngxConfBlock ||| ngxConfTake2]),
  ("ssi", [ngxHttpMainConf ||| ngxHttpSrvConf ||| ngxHttpLocConf ||| ngxHttpLifConf ||| ngxConfFlag]),
  ("ssi_last_modified", [ngxHttpMainConf ||| ngxHttpSrvConf ||| ngxHttpLocConf ||| ngxConfFlag]),
  ("ssi_min_file_chunk", [ngxHttpMainConf ||| ngxHttpSrvConf ||| ngxHttpLocConf ||| ngxConfTake1]),
  ("ssi_silent_errors", [ngxHttpMainConf ||| ngxHttpSrvConf ||| ngxHttpLocConf ||| ngxConfFlag]),
  ("ssi_types", [ngxHttpMainConf ||| ngxHttpSrvConf ||| ngxHttpLocConf ||| ngxConf1More]),
  ("ssi_value_length", [ngxHttpMainConf ||| ngxHttpSrvConf ||| ngxHttpLocConf ||| ngxConfTake1]),
  ("ssl", [ngxHttpMainConf ||| ngxHttpSrvConf ||| ngxConfFlag, ngxMailMainConf ||| ngxMailSrvConf ||| ngxConfFlag]),
  ("ssl_buffer_size", [ngxHttpMainConf ||| ngxHttpSrvConf ||| ngxConfTake1]),
  ("ssl_certificate", [ngxHttpMainConf ||| ngxHttpSrvConf ||| ngxConfTake1, ngxMailMainConf ||| ngxMailSrvConf ||| ngxConfTake1, ngxStreamMainConf ||| ngxStreamSrvConf ||| ngxConfTake1]),
  ("ssl_certificate_key", [ngxHttpMainConf ||| ngxHttpSrvConf ||| ngxConfTake1, ngxMailMainConf ||| ngxMailSrvConf ||| ngxConfTake1, ngxStreamMainConf ||| ngxStreamSrvConf ||| ngxConfTake1]),
  ("ssl_ciphers", [ngxHttpMainConf ||| ngxHttpSrvConf ||| ngxConfTake1, ngxMailMainConf ||| ngxMailSrvConf ||| ngxConfTake1, ngxStreamMainConf ||| ngxStreamSrvConf ||| ngxConfTake1]),
  ("ssl_client_certificate", [ngxHttpMainConf ||| ngxHttpSrvConf ||| ngxConfTake1, ngxMailMainConf ||| ngxMailSrvConf ||| ngxConfTake1, ngxStreamMainConf ||| ngxStreamSrvConf ||| ngxConfTake1]),
  ("ssl_crl", [ngxHttpMainConf ||| ngxHttpSrvConf ||| ngxConfTake1, ngxMailMainConf ||| ngxMailSrvConf ||| ngxConfTake1, ngxStreamMainConf ||| ngxStreamSrvConf ||| ngxConfTake1]),
  ("ssl_dhparam", [ngxHttpMainConf ||| ngxHttpSrvConf ||| ngxConfTake1, ngxMailMainConf ||| ngxMailSrvConf ||| ngxConfTake1, ngxStreamMainConf ||| ngxStreamSrvConf ||| ngxConfTake1]),
  ("ssl_early_data", [ngxHttpMainConf ||| ngxHttpSrvConf ||| ngxConfFlag]),
  ("ssl_ecdh_curve", [ngxHttpMainConf ||| ngxHttpSrvConf ||| ngxConfTake1, ngxMailMainConf ||| ngxMailSrvConf ||| ngxConfTake1, ngxStreamMainConf ||| ngxStreamSrvConf ||| ngxConfTake1]),
  ("ssl_engine", [ngxMainConf ||| ngxDirectConf ||| ngxConfTake1]),
  ("ssl_handshake_timeout", [ngxStreamMainConf ||| ngxStreamSrvConf ||| ngxConfTake1]),
  ("ssl_password_file", [ngxHttpMainConf ||| ngxHttpSrvConf ||| ngxConfTake1, ngxMailMainConf ||| ngxMailSrvConf ||| ngxConfTake1, ngxStreamMainConf ||| ngxStreamSrvConf ||| ngxConfTake1]),
  ("ssl_prefer_server_ciphers", [ngxHttpMainConf ||| ngxHttpSrvConf ||| ngxConfFlag, ngxMailMainConf ||| ngxMailSrvConf ||| ngxConfFlag, ngxStreamMainConf ||| ngxStreamSrvConf ||| ngxConfFlag]),
  ("ssl_preread", [ngxStreamMainConf ||| ngxStreamSrvConf ||| ngxConfFlag]),
  ("ssl_protocols", [ngxHttpMainConf ||| ngxHttpSrvConf ||| ngxConf1More, ngxMailMainConf ||| ngxMailSrvConf ||| ngxConf1More, ngxStreamMainConf ||| ngxStreamSrvConf ||| ngxConf1More]),
  ("ssl_session_cache", [ngxHttpMainConf ||| ngxHttpSrvConf ||| ngxConfTake12, ngxMailMainConf ||| ngxMailSrvConf ||| ngxConfTake12, ngxStreamMainConf ||| ngxStreamSrvConf ||| ngxConfTake12]),
  ("ssl_session_ticket_key", [ngxHttpMainConf ||| ngxHttpSrvConf ||| ngxConfTake1, ngxMailMainConf ||| ngxMailSrvConf ||| ngxConfTake1, ngxStreamMainConf ||| ngxStreamSrvConf ||| ngxConfTake1]),
  ("ssl_session_tickets", [ngxHttpMainConf ||| ngxHttpSrvConf ||| ngxConfFlag, ngxMailMainConf ||| ngxMailSrvConf ||| ngxConfFlag, ngxStreamMainConf ||| ngxStreamSrvConf ||| ngxConfFlag]),
  ("ssl_session_timeout", [ngxHttpMainConf ||| ngxHttpSrvConf ||| ngxConfTake1, ngxMailMainConf ||| ngxMailSrvConf ||| ngxConfTake1, ngxStreamMainConf ||| ngxStreamSrvConf ||| ngxConfTake1]),
  ("ssl_stapling", [ngxHttpMainConf ||| ngxHttpSrvConf ||| ngxConfFlag]),
  ("ssl_stapling_file", [ngxHttpMainConf ||| ngxHttpSrvConf ||| ngxConfTake1]),
  ("ssl_stapling_responder", [ngxHttpMainConf ||| ngxHttpSrvConf ||| ngxConfTake1]),
  ("ssl_stapling_verify", [ngxHttpMainConf ||| ngxHttpSrvConf ||| ngxConfFlag]),
  ("ssl_trusted_certificate", [ngxHttpMainConf ||| ngxHttpSrvConf ||| ngxConfTake1, ngxMailMainConf ||| ngxMailSrvConf ||| ngxConfTake1, ngxStreamMainConf ||| ngxStreamSrvConf ||| ngxConfTake1]),
  ("ssl_verify_client", [ngxHttpMainConf ||| ngxHttpSrvConf ||| ngxConfTake1, ngxMailMainConf ||| ngxMailSrvConf ||| ngxConfTake1, ngxStreamMainConf ||| ngxStreamSrvConf ||| ngxConfTake1]),
  ("ssl_verify_depth", [ngxHttpMainConf ||| ngxHttpSrvConf ||| ngxConfTake1, ngxMailMainConf ||| ngxMailSrvConf ||| ngxConfTake1, ngxStreamMainConf ||| ngxStreamSrvConf ||| ngxConfTake1]),
  ("starttls", [ngxMailMainConf ||| ngxMailSrvConf ||| ngxConfTake1]),
  ("stream", [ngxMainConf ||| ngxConfBlock ||| ngxConfNoArgs]),
  ("stub_status", [ngxHttpSrvConf ||| ngxHttpLocConf ||| ngxConfNoArgs ||| ngxConfTake1]),
  ("sub_filter", [ngxHttpMainConf ||| ngxHttpSrvConf ||| ngxHttpLocConf ||| ngxConfTake2]),
  ("sub_filter_last_modified", [ngxHttpMainConf ||| ngxHttpSrvConf ||| ngxHttpLocConf ||| ngxConfFlag]),
  ("sub_filter_once", [ngxHttpMainConf ||| ngxHttpSrvConf ||| ngxHttpLocConf ||| ngxConfFlag]),
  ("sub_filter_types", [ngxHttpMainConf ||| ngxHttpSrvConf ||| ngxHttpLocConf ||| ngxConf1More]),
  ("subrequest_output_buffer_size", [ngxHttpMainConf ||| ngxHttpSrvConf ||| ngxHttpLocConf ||| ngxConfTake1]),
  ("tcp_nodelay", [ngxHttpMainConf ||| ngxHttpSrvConf ||| ngxHttpLocConf ||| ngxConfFlag, ngxStreamMainConf ||| ngxStreamSrvConf ||| ngxConfFlag]),
  ("tcp_nopush", [ngxHttpMainConf ||| ngxHttpSrvConf ||| ngxHttpLocConf ||| ngxConfFlag]),
  ("thread_pool", [ngxMainConf ||| ngxDirectConf ||| ngxConfTake23]),
  ("timeout", [ngxMailMainConf ||| ngxMailSrvConf ||| ngxConfTake1]),
  ("timer_resolution", [ngxMainConf ||| ngxDirectConf ||| ngxConfTake1]),
  ("try_files", [ngxHttpSrvConf ||| ngxHttpLocConf ||| ngxConf2More]),
  ("types", [ngxHttpMainConf ||| ngxHttpSrvConf ||| ngxHttpLocConf ||| ngxConfBlock ||| ngxConfNoArgs]),
  ("types_hash_bucket_size", [ngxHttpMainConf ||| ngxHttpSrvConf ||| ngxHttpLocConf ||| ngxConfTake1]),
  ("types_hash_max_size", [ngxHttpMainConf ||| ngxHttpSrvConf ||| ngxHttpLocConf ||| ngxConfTake1]),
  ("underscores_in_headers", [ngxHttpMainConf ||| ngxHttpSrvConf ||| ngxConfFlag]),
  ("uninitialized_variable_warn", [ngxHttpMainConf ||| ngxHttpSrvConf ||| ngxHttpSifConf ||| ngxHttpLocConf ||| ngxHttpLifConf ||| ngxConfFlag]),
  ("upstream", [ngxHttpMainConf ||| ngxConfBlock ||| ngxConfTake1, ngxStreamMainConf ||| ngxConfBlock ||| ngxConfTake1]),
  ("use", [ngxEventConf ||| ngxConfTake1]),
  ("user", [ngxMainConf ||| ngxDirectConf ||| ngxConfTake12]),
  ("userid", [ngxHttpMainConf ||| ngxHttpSrvConf ||| ngxHttpLocConf ||| ngxConfTake1]),
  ("userid_domain", [ngxHttpMainConf ||| ngxHttpSrvConf ||| ngxHttpLocConf ||| ngxConfTake1]),
  ("userid_expires", [ngxHttpMainConf ||| ngxHttpSrvConf ||| ngxHttpLocConf ||| ngxConfTake1]),
  ("userid_mark", [ngxHttpMainConf ||| ngxHttpSrvConf ||| ngxHttpLocConf ||| ngxConfTake1]),
  ("userid_name", [ngxHttpMainConf ||| ngxHttpSrvConf ||| ngxHttpLocConf ||| ngxConfTake1]),
  ("userid_p3p", [ngxHttpMainConf ||| ngxHttpSrvConf ||| ngxHttpLocConf ||| ngxConfTake1]),
  ("userid_path", [ngxHttpMainConf ||| ngxHttpSrvConf ||| ngxHttpLocConf ||| ngxConfTake1]),
  ("userid_service", [ngxHttpMainConf ||| ngxHttpSrvConf ||| ngxHttpLocConf ||| ngxConfTake1]),
  ("uwsgi_bind", [ngxHttpMainConf ||| ngxHttpSrvConf ||| ngxHttpLocConf ||| ngxConfTake12]),
  ("uwsgi_buffer_size", [ngxHttpMainConf ||| ngxHttpSrvConf ||| ngxHttpLocConf ||| ngxConfTake1]),
  ("uwsgi_buffering", [ngxHttpMainConf ||| ngxHttpSrvConf ||| ngxHttpLocConf ||| ngxConfFlag]),
  ("uwsgi_buffers", [ngxHttpMainConf ||| ngxHttpSrvConf ||| ngxHttpLocConf ||| ngxConfTake2]),
  ("uwsgi_busy_buffers_size", [ngxHttpMainConf ||| ngxHttpSrvConf ||| ngxHttpLocConf ||| ngxConfTake1]),
  ("uwsgi_cache", [ngxHttpMainConf ||| ngxHttpSrvConf ||| ngxHttpLocConf ||| ngxConfTake1]),
  ("uwsgi_cache_background_update", [ngxHttpMainConf ||| ngxHttpSrvConf ||| ngxHttpLocConf ||| ngxConfTake1]),
  ("uwsgi_cache_bypass", [ngxHttpMainConf ||| ngxHttpSrvConf ||| ngxHttpLocConf ||| ngxConf1More]),
  ("uwsgi_cache_key", [ngxHttpMainConf ||| ngxHttpSrvConf ||| ngxHttpLocConf ||| ngxConfTake1]),
  ("uwsgi_cache_lock", [ngxHttpMainConf ||| ngxHttpSrvConf ||| ngxHttpLocConf ||| ngxConfFlag]),
  ("uwsgi_cache_lock_age", [ngxHttpMainConf ||| ngxHttpSrvConf ||| ngxHttpLocConf ||| ngxConfTake1]),
  ("uwsgi_cache_lock_timeout", [ngxHttpMainConf ||| ngxHttpSrvConf ||| ngxHttpLocConf ||| ngxConfTake1]),
  ("uwsgi_cache_max_range_offset", [ngxHttpMainConf ||| ngxHttpSrvConf ||| ngxHttpLocConf ||| ngxConfTake1]),
  ("uwsgi_cache_methods", [ngxHttpMainConf ||| ngxHttpSrvConf ||| ngxHttpLocConf ||| ngxConf1More]),
  ("uwsgi_cache_min_uses", [ngxHttpMainConf ||| ngxHttpSrvConf ||| ngxHttpLocConf ||| ngxConfTake1]),
  ("uwsgi_cache_path", [ngxHttpMainConf ||| ngxConf2More]),
  ("uwsgi_cache_revalidate", [ngxHttpMainConf ||| ngxHttpSrvConf ||| ngxHttpLocConf ||| ngxConfFlag]),
  ("uwsgi_cache_use_stale", [ngxHttpMainConf ||| ngxHttpSrvConf ||| ngxHttpLocConf ||| ngxConf1More]),
  ("uwsgi_cache_valid", [ngxHttpMainConf ||| ngxHttpSrvConf ||| ngxHttpLocConf ||| ngxConf1More]),
  ("uwsgi_connect_timeout", [ngxHttpMainConf ||| ngxHttpSrvConf ||| ngxHttpLocConf ||| ngxConfTake1]),
  ("uwsgi_force_ranges", [ngxHttpMainConf ||| ngxHttpSrvConf ||| ngxHttpLocConf ||| ngxConfFlag]),
  ("uwsgi_hide_header", [ngxHttpMainConf ||| ngxHttpSrvConf ||| ngxHttpLocConf ||| ngxConfTake1]),
  ("uwsgi_ignore_client_abort", [ngxHttpMainConf ||| ngxHttpSrvConf ||| ngxHttpLocConf ||| ngxConfFlag]),
  ("uwsgi_ignore_headers", [ngxHttpMainConf ||| ngxHttpSrvConf ||| ngxHttpLocConf ||| ngxConf1More]),
  ("uwsgi_intercept_errors", [ngxHttpMainConf ||| ngxHttpSrvConf ||| ngxHttpLocConf ||| ngxConfFlag]),
  ("uwsgi_limit_rate", [ngxHttpMainConf ||| ngxHttpSrvConf ||| ngxHttpLocConf ||| ngxConfTake1]),
  ("uwsgi_max_temp_file_size", [ngxHttpMainConf ||| ngxHttpSrvConf ||| ngxHttpLocConf ||| ngxConfTake1]),
  ("uwsgi_modifier1", [ngxHttpMainConf ||| ngxHttpSrvConf ||| ngxHttpLocConf ||| ngxConfTake1]),
  ("uwsgi_modifier2", [ngxHttpMainConf ||| ngxHttpSrvConf ||| ngxHttpLocConf ||| ngxConfTake1]),
  ("uwsgi_next_upstream", [ngxHttpMainConf ||| ngxHttpSrvConf ||| ngxHttpLocConf ||| ngxConf1More]),
  ("uwsgi_next_upStreamtimeout", [ngxHttpMainConf ||| ngxHttpSrvConf ||| ngxHttpLocConf ||| ngxConfTake1]),
  ("uwsgi_next_upStreamtries", [ngxHttpMainConf ||| ngxHttpSrvConf ||| ngxHttpLocConf ||| ngxConfTake1]),
  ("uwsgi_no_cache", [ngxHttpMainConf ||| ngxHttpSrvConf ||| ngxHttpLocConf ||| ngxConf1More]),
  ("uwsgi_param", [ngxHttpMainConf ||| ngxHttpSrvConf ||| ngxHttpLocConf ||| ngxConfTake23]),
  ("uwsgi_pass", [ngxHttpLocConf ||| ngxHttpLifConf ||| ngxConfTake1]),
  ("uwsgi_pass_header", [ngxHttpMainConf ||| ngxHttpSrvConf ||| ngxHttpLocConf ||| ngxConfTake1]),
  ("uwsgi_pass_request_body", [ngxHttpMainConf ||| ngxHttpSrvConf ||| ngxHttpLocConf ||| ngxConfFlag]),
  ("uwsgi_pass_request_headers", [ngxHttpMainConf ||| ngxHttpSrvConf ||| ngxHttpLocConf ||| ngxConfFlag]),
  ("uwsgi_read_timeout", [ngxHttpMainConf ||| ngxHttpSrvConf ||| ngxHttpLocConf ||| ngxConfTake1]),
  ("uwsgi_request_buffering", [ngxHttpMainConf ||| ngxHttpSrvConf ||| ngxHttpLocConf ||| ngxConfFlag]),
  ("uwsgi_send_timeout", [ngxHttpMainConf ||| ngxHttpSrvConf ||| ngxHttpLocConf ||| ngxConfTake1]),
  ("uwsgi_socket_keepalive", [ngxHttpMainConf ||| ngxHttpSrvConf ||| ngxHttpLocConf ||| ngxConfFlag]),
  ("uwsgi_ssl_certificate", [ngxHttpMainConf ||| ngxHttpSrvConf ||| ngxHttpLocConf ||| ngxConfTake1]),
  ("uwsgi_ssl_certificate_key", [ngxHttpMainConf ||| ngxHttpSrvConf ||| ngxHttpLocConf ||| ngxConfTake1]),
  ("uwsgi_ssl_ciphers", [ngxHttpMainConf ||| ngxHttpSrvConf ||| ngxHttpLocConf ||| ngxConfTake1]),
  ("uwsgi_ssl_crl", [ngxHttpMainConf ||| ngxHttpSrvConf ||| ngxHttpLocConf ||| ngxConfTake1]),
  ("uwsgi_ssl_name", [ngxHttpMainConf ||| ngxHttpSrvConf ||| ngxHttpLocConf ||| ngxConfTake1]),
  ("uwsgi_ssl_password_file", [ngxHttpMainConf ||| ngxHttpSrvConf ||| ngxHttpLocConf ||| ngxConfTake1]),
  ("uwsgi_ssl_protocols", [ngxHttpMainConf ||| ngxHttpSrvConf ||| ngxHttpLocConf ||| ngxConf1More]),
  ("uwsgi_ssl_server_name", [ngxHttpMainConf ||| ngxHttpSrvConf ||| ngxHttpLocConf ||| ngxConfFlag]),
  ("uwsgi_ssl_session_reuse", [ngxHttpMainConf ||| ngxHttpSrvConf ||| ngxHttpLocConf ||| ngxConfFlag]),
  ("uwsgi_ssl_trusted_certificate", [ngxHttpMainConf ||| ngxHttpSrvConf ||| ngxHttpLocConf ||| ngxConfTake1]),
  ("uwsgi_ssl_verify", [ngxHttpMainConf ||| ngxHttpSrvConf ||| ngxHttpLocConf ||| ngxConfFlag]),
  ("uwsgi_ssl_verify_depth", [ngxHttpMainConf ||| ngxHttpSrvConf ||| ngxHttpLocConf ||| ngxConfTake1]),
  ("uwsgi_store", [ngxHttpMainConf ||| ngxHttpSrvConf ||| ngxHttpLocConf ||| ngxConfTake1]),
  ("uwsgi_store_access", [ngxHttpMainConf ||| ngxHttpSrvConf ||| ngxHttpLocConf ||| ngxConfTake123]),
  ("uwsgi_temp_file_write_size", [ngxHttpMainConf ||| ngxHttpSrvConf ||| ngxHttpLocConf ||| ngxConfTake1]),
  ("uwsgi_temp_path", [ngxHttpMainConf ||| ngxHttpSrvConf ||| ngxHttpLocConf ||| ngxConfTake1234]),
  ("valid_referers", [ngxHttpSrvConf ||| ngxHttpLocConf ||| ngxConf1More]),
  ("variables_hash_bucket_size", [ngxHttpMainConf ||| ngxConfTake1, ngxStreamMainConf ||| ngxConfTake1]),
  ("variables_hash_max_size", [ngxHttpMainConf ||| ngxConfTake1, ngxStreamMainConf ||| ngxConfTake1]),
  ("worker_aio_requests", [ngxEventConf ||| ngxConfTake1]),
  ("worker_connections", [ngxEventConf ||| ngxConfTake1]),
  ("worker_cpu_affinity", [ngxMainConf ||| ngxDirectConf ||| ngxConf1More]),
  ("worker_priority", [ngxMainConf ||| ngxDirectConf ||| ngxConfTake1]),
  ("worker_processes", [ngxMainConf ||| ngxDirectConf ||| ngxConfTake1]),
  ("worker_rlimit_core", [ngxMainConf ||| ngxDirectConf ||| ngxConfTake1]),
  ("worker_rlimit_nofile", [ngxMainConf ||| ngxDirectConf ||| ngxConfTake1]),
  ("worker_shutdown_timeout", [ngxMainConf ||| ngxDirectConf ||| ngxConfTake1]),
  ("working_directory", [ngxMainConf ||| ngxDirectConf ||| ngxConfTake1]),
  ("xclient", [ngxMailMainConf ||| ngxMailSrvConf ||| ngxConfFlag]),
  ("xml_entities", [ngxHttpMainConf ||| ngxHttpSrvConf ||| ngxHttpLocConf ||| ngxConfTake1]),
  ("xslt_last_modified", [ngxHttpMainConf ||| ngxHttpSrvConf ||| ngxHttpLocConf ||| ngxConfFlag]),
  ("xslt_param", [ngxHttpMainConf ||| ngxHttpSrvConf ||| ngxHttpLocConf ||| ngxConfTake2]),
  ("xslt_string_param", [ngxHttpMainConf ||| ngxHttpSrvConf ||| ngxHttpLocConf ||| ngxConfTake2]),
  ("xslt_stylesheet", [ngxHttpLocConf ||| ngxConf1More]),
  ("xslt_types", [ngxHttpMainConf ||| ngxHttpSrvConf ||| ngxHttpLocConf ||| ngxConf1More]),
  ("zone", [ngxHttpUpsConf ||| ngxConfTake12, ngxStreamUpsConf ||| ngxConfTake12]),
  ("api", [ngxHttpLocConf ||| ngxConfNoArgs ||| ngxConfTake1]),
  ("auth_jwt", [ngxHttpMainConf ||| ngxHttpSrvConf ||| ngxHttpLocConf ||| ngxConfTake12]),
  ("auth_jwt_claim_set", [ngxHttpMainConf ||| ngxConf2More]),
  ("auth_jwt_header_set", [ngxHttpMainConf ||| ngxConf2More]),
  ("auth_jwt_key_file", [ngxHttpMainConf ||| ngxHttpSrvConf ||| ngxHttpLocConf ||| ngxConfTake1]),
  ("auth_jwt_key_request", [ngxHttpMainConf ||| ngxHttpSrvConf ||| ngxHttpLocConf ||| ngxConfTake1]),
  ("auth_jwt_leeway", [ngxHttpMainConf ||| ngxHttpSrvConf ||| ngxHttpLocConf ||| ngxConfTake1]),
  ("f4f", [ngxHttpLocConf ||| ngxConfNoArgs]),
  ("f4f_buffer_size", [ngxHttpMainConf ||| ngxHttpSrvConf ||| ngxHttpLocConf ||| ngxConfTake1]),
  ("fastcgi_cache_purge", [ngxHttpMainConf ||| ngxHttpSrvConf ||| ngxHttpLocConf ||| ngxConf1More]),
  ("health_check", [ngxHttpLocConf ||| ngxConfAny, ngxStreamSrvConf ||| ngxConfAny]),
  ("health_check_timeout", [ngxStreamMainConf ||| ngxStreamSrvConf ||| ngxConfTake1]),
  ("hls", [ngxHttpLocConf ||| ngxConfNoArgs]),
  ("hls_buffers", [ngxHttpMainConf ||| ngxHttpSrvConf ||| ngxHttpLocConf ||| ngxConfTake2]),
  ("hls_forward_args", [ngxHttpMainConf ||| ngxHttpSrvConf ||| ngxHttpLocConf ||| ngxConfFlag]),
  ("hls_fragment", [ngxHttpMainConf ||| ngxHttpSrvConf ||| ngxHttpLocConf ||| ngxConfTake1]),
  ("hls_mp4_buffer_size", [ngxHttpMainConf ||| ngxHttpSrvConf ||| ngxHttpLocConf ||| ngxConfTake1]),
  ("hls_mp4_max_buffer_size", [ngxHttpMainConf ||| ngxHttpSrvConf ||| ngxHttpLocConf ||| ngxConfTake1]),
  ("js_access", [ngxStreamMainConf ||| ngxStreamSrvConf ||| ngxConfTake1]),
  ("js_content", [ngxHttpLocConf ||| ngxHttpLmtConf ||| ngxConfTake1]),
  ("js_filter", [ngxStreamMainConf ||| ngxStreamSrvConf ||| ngxConfTake1]),
  ("js_include", [ngxHttpMainConf ||| ngxConfTake1, ngxStreamMainConf ||| ngxConfTake1]),
  ("js_path", [ngxHttpMainConf ||| ngxConfTake1]),
  ("js_preread", [ngxStreamMainConf ||| ngxStreamSrvConf ||| ngxConfTake1]),
  ("js_set", [ngxHttpMainConf ||| ngxConfTake2, ngxStreamMainConf ||| ngxConfTake2]),
  ("keyval", [ngxHttpMainConf ||| ngxConfTake3, ngxStreamMainConf ||| ngxConfTake3]),
  ("keyval_zone", [ngxHttpMainConf ||| ngxConf1More, ngxStreamMainConf ||| ngxConf1More]),
  ("least_time", [ngxHttpUpsConf ||| ngxConfTake12, ngxStreamUpsConf ||| ngxConfTake12]),
  ("limit_zone", [ngxHttpMainConf ||| ngxConfTake3]),
  ("match", [ngxHttpMainConf ||| ngxConfBlock ||| ngxConfTake1, ngxStreamMainConf ||| ngxConfBlock ||| ngxConfTake1]),
  ("memcached_force_ranges", [ngxHttpMainConf ||| ngxHttpSrvConf ||| ngxHttpLocConf ||| ngxConfFlag]),
  ("mp4_limit_rate", [ngxHttpMainConf ||| ngxHttpSrvConf ||| ngxHttpLocConf ||| ngxConfTake1]),
  ("mp4_limit_rate_after", [ngxHttpMainConf ||| ngxHttpSrvConf ||| ngxHttpLocConf ||| ngxConfTake1]),
  ("ntlm", [ngxHttpUpsConf ||| ngxConfNoArgs]),
  ("proxy_cache_purge", [ngxHttpMainConf ||| ngxHttpSrvConf ||| ngxHttpLocConf ||| ngxConf1More]),
  ("queue", [ngxHttpUpsConf ||| ngxConfTake12]),
  ("scgi_cache_purge", [ngxHttpMainConf ||| ngxHttpSrvConf ||| ngxHttpLocConf ||| ngxConf1More]),
  ("session_log", [ngxHttpMainConf ||| ngxHttpSrvConf ||| ngxHttpLocConf ||| ngxConfTake1]),
  ("session_log_format", [ngxHttpMainConf ||| ngxConf2More]),
  ("session_log_zone", [ngxHttpMainConf ||| ngxConfTake23 ||| ngxConfTake4 ||| ngxConfTake5 ||| ngxConfTake6]),
  ("state", [ngxHttpUpsConf ||| ngxConfTake1, ngxStreamUpsConf ||| ngxConfTake1]),
  ("status", [ngxHttpLocConf ||| ngxConfNoArgs]),
  ("status_format", [ngxHttpMainConf ||| ngxHttpSrvConf ||| ngxHttpLocConf ||| ngxConfTake12]),
  ("status_zone", [ngxHttpSrvConf ||| ngxConfTake1, ngxStreamSrvConf ||| ngxConfTake1, ngxHttpLocConf ||| ngxConfTake1, ngxHttpLifConf ||| ngxConfTake1]),
  ("sticky", [ngxHttpUpsConf ||| ngxConf1More]),
  ("sticky_cookie_insert", [ngxHttpUpsConf ||| ngxConfTake1234]),
  ("upStreamconf", [ngxHttpLocConf ||| ngxConfNoArgs]),
  ("uwsgi_cache_purge", [ngxHttpMainConf ||| ngxHttpSrvConf ||| ngxHttpLocConf ||| ngxConf1More]),
  ("zone_sync", [ngxStreamSrvConf ||| ngxConfNoArgs]),
  ("zone_sync_buffers", [ngxStreamMainConf ||| ngxStreamSrvConf ||| ngxConfTake2]),
  ("zone_sync_connect_retry_interval", [ngxStreamMainConf ||| ngxStreamSrvConf ||| ngxConfTake1]),
  ("zone_sync_connect_timeout", [ngxStreamMainConf ||| ngxStreamSrvConf ||| ngxConfTake1]),
  ("zone_sync_interval", [ngxStreamMainConf ||| ngxStreamSrvConf ||| ngxConfTake1]),
  ("zone_sync_recv_buffer_size", [ngxStreamMainConf ||| ngxStreamSrvConf ||| ngxConfTake1]),
  ("zone_sync_server", [ngxStreamSrvConf ||| ngxConfTake12]),
  ("zone_sync_ssl", [ngxStreamMainConf ||| ngxStreamSrvConf ||| ngxConfFlag]),
  ("zone_sync_ssl_certificate", [ngxStreamMainConf ||| ngxStreamSrvConf ||| ngxConfTake1]),
  ("zone_sync_ssl_certificate_key", [ngxStreamMainConf ||| ngxStreamSrvConf ||| ngxConfTake1]),
  ("zone_sync_ssl_ciphers", [ngxStreamMainConf ||| ngxStreamSrvConf ||| ngxConfTake1]),
  ("zone_sync_ssl_crl", [ngxStreamMainConf ||| ngxStreamSrvConf ||| ngxConfTake1]),
  ("zone_sync_ssl_name", [ngxStreamMainConf ||| ngxStreamSrvConf ||| ngxConfTake1]),
  ("zone_sync_ssl_password_file", [ngxStreamMainConf ||| ngxStreamSrvConf ||| ngxConfTake1]),
  ("zone_sync_ssl_protocols", [ngxStreamMainConf ||| ngxStreamSrvConf ||| ngxConf1More]),
  ("zone_sync_ssl_server_name", [ngxStreamMainConf ||| ngxStreamSrvConf ||| ngxConfFlag]),
  ("zone_sync_ssl_trusted_certificate", [ngxStreamMainConf ||| ngxStreamSrvConf ||| ngxConfTake1]),
  ("zone_sync_ssl_verify", [ngxStreamMainConf ||| ngxStreamSrvConf ||| ngxConfFlag]),
  ("zone_sync_ssl_verify_depth", [ngxStreamMainConf ||| ngxStreamSrvConf ||| ngxConfTake1]),
  ("zone_sync_timeout", [ngxStreamMainConf ||| ngxStreamSrvConf ||| ngxConfTake1])
]

/-- lex.go `enterBlockCtx`: a `location` block under `http` resets the
context to exactly `["http","location"]`; every other block appends its
directive name. -/
def enterBlockCtx (stmt : Directive) (ctx : List String) : List String :=
  if ctx ≠ [] ∧ ctx.headD "" = "http" ∧ stmt.directive = "location" then ["http", "location"]
  else ctx ++ [stmt.directive]

/-- util.go `validFlag`: the lower-cased argument is `on` or `off`. -/
def validFlag (s : String) : Bool :=
  goToLower s = "on" || goToLower s = "off"

/-- The acceptance test of one catalogue variant inside the `analyze` loop
(lex.go lines 375-379): fixed arity bit (0..7), flag with a valid value, or
an `Any`/`OneMore`/`TwoMore` threshold. -/
def maskAccepts (mask : Nat) (args : List String) : Bool :=
  ((mask >>> args.length) &&& 1 ≠ 0 && args.length ≤ 7) ||
  (mask &&& ngxConfFlag ≠ 0 && args.length = 1 && validFlag (args.headD "")) ||
  (mask &&& ngxConfAny ≠ 0) ||
  (mask &&& ngxConf1More ≠ 0 && args.length ≥ 1) ||
  (mask &&& ngxConf2More ≠ 0 && args.length ≥ 2)

/-- The candidate error message a non-accepting variant leaves in `what`
(the branch order of the `analyze` loop). -/
def maskCandidateMsg (mask : Nat) (name : String) (args : List String) (term : String) : String :=
  if mask &&& ngxConfBlock ≠ 0 ∧ term ≠ "\x7b" then
    "directive \"" ++ name ++ "\" has no opening \"\x7b\""
  else if mask &&& ngxConfBlock = 0 ∧ term ≠ ";" then
    "directive \"" ++ name ++ "\" is not terminated by \";\""
  else if mask &&& ngxConfFlag ≠ 0 ∧ args.length = 1 ∧ ¬ validFlag (args.headD "") then
    "invalid value \"" ++ args.headD "" ++ "\" in \"" ++ name ++
      "\" directive, it must be \"on\" or \"off\""
  else
    "invalid number of arguments in \"" ++ name ++ "\" directive. found " ++
      toString args.length

/-- The variant loop of lex.go `analyze` (lines 359-386): return nil on the
first variant whose block flag matches the terminator and whose arity
accepts, otherwise remember this variant's candidate message and keep
going; after the loop the last candidate message stands. -/
def analyzeLoop (name : String) (args : List String) (term : String) :
    List Nat → String → Option String
  | [], what => some what
  | mask :: ms, what =>
    if mask &&& ngxConfBlock ≠ 0 ∧ term ≠ "\x7b" then
      analyzeLoop name args term ms (maskCandidateMsg mask name args term)
    else if mask &&& ngxConfBlock = 0 ∧ term ≠ ";" then
      analyzeLoop name args term ms (maskCandidateMsg mask name args term)
    else if maskAccepts mask args then none
    else analyzeLoop name args term ms (maskCandidateMsg mask name args term)

/-- lex.go `analyze`: catalogue and context lookup, the unknown-directive
error under `ErrorOnUnknownDirectives`, permissiveness for unknown
directives or contexts, the context filter, and the variant loop. -/
def analyze (fname : String) (stmt : Directive) (term : String) (ctx : List String)
    (opts : ParseOptions) : Option ParseErrorS :=
  let masks? := assocLookup directives stmt.directive
  let currCtx? := assocLookup contexts (ctxKey ctx)
  if opts.errorOnUnknownDirectives ∧ masks?.isNone then
    some ⟨"unknown directive \"" ++ stmt.directive ++ "\"", some fname, some stmt.line⟩
  else
    match masks?, currCtx? with
    | none, _ => none
    | _, none => none
    | some masks, some currCtx =>
      if opts.skipDirectiveContextCheck then
        if opts.skipDirectiveArgsCheck then none
        else
          (analyzeLoop stmt.directive stmt.args term masks "").map
            (fun what => ⟨what, some fname, some stmt.line⟩)
      else
        let ctxMasks := masks.filter (fun mask => mask &&& currCtx ≠ 0)
        if ctxMasks = [] then
          some ⟨"\"" ++ stmt.directive ++ "\" directive is not allowed here",
            some fname, some stmt.line⟩
        else if opts.skipDirectiveArgsCheck then none
        else
          (analyzeLoop stmt.directive stmt.args term ctxMasks "").map
            (fun what => ⟨what, some fname, some stmt.line⟩)

/-! ## util.go helpers -/

/-- util.go `contains`. -/
def contains (xs : List String) (x : String) : Bool :=
  xs.any (fun s => s = x)

/-- util.go `prepareIfArgs`: strip the surrounding parentheses (and the
white space adjacent to them) from an `if` directive's arguments, dropping
a first or last element left empty.  After an empty first element is
dropped, the Go code reads `d.Args[e]` with the pre-drop index `e`, which
is out of range for the shortened slice; that panic is modelled as `none`
(the bounds-checked access `args3[e]?`). -/
def prepareIfArgs (d : Directive) : Option Directive :=
  let e := d.args.length - 1
  if d.args.length > 0 ∧ strHasPrefix (d.args.headD "") "(" ∧ strHasSuffix (d.args.getD e "") ")" then
    let args1 := d.args.set 0 (goTrimLeftSpace (goTrimPrefix (d.args.headD "") "("))
    let args2 := args1.set e (goTrimRightSpace (goTrimSuffix (args1.getD e "") ")"))
    let args3 := if (args2.headD "").length = 0 then args2.drop 1 else args2
    match args3[e]? with
    | none => none
    | some ae =>
      some (.mk d.directive d.line (if ae.length = 0 then args3.take e else args3)
        d.includes d.block d.comment)
  else some d

/-! ## Parser (parse.go)

The parser state bundles what the Go `parser` struct and the closures of
`Parse` mutate: the include queue, the `included` map (represented as the
list of paths in insertion order, so the index of a path is the integer
the map stores for it), and the status/error fields of the current config
and of the payload. -/

/-- The mutable parsing state. -/
structure PState where
  queue : List (String × List String)
  included : List String
  curStatus : String
  curErrors : List ConfigError
  payloadStatus : String
  payloadErrors : List PayloadError

/-- The collaborating environment: the file system as an association list
(used by the default opener and by the `os.Open` probe of include
resolution alike) and `filepath.Glob`. -/
structure Env where
  fs : List (String × String)
  glob : String → Except String (List String)

/-- Go `filepath.IsAbs`. -/
def goFilepathIsAbs (p : String) : Bool :=
  strHasPrefix p "/"

/-- Go `filepath.Dir`, without the path cleaning (enough for paths with no
`.`/`..` segments): everything before the last slash, or `.`. -/
def goFilepathDir (p : String) : String :=
  if p.data.contains '/' then
    let d := String.mk (((p.data.reverse.dropWhile (fun c => c ≠ '/')).drop 1).reverse)
    if d = "" then "/" else d
  else "."

/-- Go `filepath.Join` of two nonempty paths, without the path cleaning. -/
def goFilepathJoin (dir p : String) : String :=
  if dir = "." then p else dir ++ "/" ++ p

/-- Lexicographic comparison of character lists by code point, the order
of Go `sort.Strings` on UTF-8 strings. -/
def listLe : List Char → List Char → Bool
  | [], _ => true
  | _ :: _, [] => false
  | a :: as, b :: bs =>
    if a = b then listLe as bs else a.toNat ≤ b.toNat

/-- Go `sort.Strings`: sort ascending (insertion sort; the algorithm is
irrelevant, the sorted result is what `sort.Strings` produces). -/
def sortStrings (l : List String) : List String :=
  let insert := fun (x : String) => List.rec ([x])
    (fun y ys rec => if listLe x.data y.data then x :: y :: ys else y :: rec)
    (motive := fun _ => List String)
  l.foldr insert []

/-- parse.go `hasMagic`: the pattern contains `*`, `?` or `[`. -/
def hasMagic (p : String) : Bool :=
  p.data.any (fun c => c = '*' ∨ c = '?' ∨ c = '[')

/-- The `handleError` closure of `Parse`: render the error (`none` models
the nil-file panic inside `err.Error()`), append it to the current config's
errors and to the payload's errors (with the config's file), and mark both
as failed.  Only a `ParseError` contributes a line. -/
def handleError (file : String) (st : PState) (e : Err) : Option PState :=
  let line : Option Nat := match e with | .perr pe => pe.line | .io _ => none
  e.render.map (fun msg =>
    { st with curStatus := "failed", curErrors := st.curErrors ++ [⟨line, msg⟩],
              payloadStatus := "failed",
              payloadErrors := st.payloadErrors ++ [⟨file, line, msg⟩] })

/-- The argument-collection loop of `parser.parse`: tokens are collected
while quoted or not one of the three punctuators; an unquoted `#`-token
goes to the inline-comment list instead of the arguments.  `none` as first
component means the token channel was exhausted, on which the Go loop
spins forever on the channel's zero value. -/
def argsLoop : List NgxToken → List String → List String →
    Option (NgxToken × List NgxToken) × List String × List String
  | [], args, cmts => (none, args, cmts)
  | t :: rest, args, cmts =>
    if t.isQuoted || (t.value ≠ "\x7b" && t.value ≠ ";" && t.value ≠ "\x7d") then
      if strHasPrefix t.value "#" ∧ ¬ t.isQuoted then
        argsLoop rest args (cmts ++ [strDropLeft t.value 1])
      else argsLoop rest (args ++ [t.value]) cmts
    else (some (t, rest), args, cmts)

/-- One step of include resolution (the body of the `fnames` loop): a path
already in `included` contributes its stored index, a new path is assigned
the next index and enqueued with the current context. -/
def resolveOne (ctx : List String) : List Nat × PState → String → List Nat × PState
  | (idxs, st), f =>
    match st.included.findIdx? (fun s => s = f) with
    | some i => (idxs ++ [i], st)
    | none =>
      (idxs ++ [st.included.length],
       { st with included := st.included ++ [f], queue := st.queue ++ [(f, ctx)] })

/-- Outcome of the include-processing block of `parser.parse`. -/
inductive IncOutcome where
  | ok (includes : Option (List Nat)) (st : PState)
  | fatal (e : Err) (st : PState)
  | panic

/-- The include-processing block of `parser.parse` (lines 255-301): glob
patterns are expanded via the environment and sorted, explicit paths are
probed eagerly via `os.Open` with the failure demoted to a `ParseError` at
the directive's line (unless `StopParsingOnError`); each resolved path is
deduplicated through `included` and its index appended.  Reading
`stmt.Args[0]` of an argument-less include panics. -/
def processIncludes (opts : ParseOptions) (configDir : String) (env : Env) (fname : String)
    (ctx : List String) (stmt : Directive) (st : PState) : IncOutcome :=
  if ¬ opts.singleFile ∧ stmt.directive = "include" then
    match stmt.args with
    | [] => .panic
    | a0 :: _ =>
      let pattern := if goFilepathIsAbs a0 then a0 else goFilepathJoin configDir a0
      if hasMagic pattern then
        match env.glob pattern with
        | .error msg => .fatal (.io msg) st
        | .ok names =>
          let out := (sortStrings names).foldl (resolveOne ctx) ([], st)
          .ok (some out.1) out.2
      else
        match assocLookup env.fs pattern with
        | none =>
          let perr : ParseErrorS :=
            ⟨"open " ++ pattern ++ ": no such file or directory", some fname, some stmt.line⟩
          if ¬ opts.stopParsingOnError then
            match handleError fname st (.perr perr) with
            | none => .panic
            | some st' => .ok (some []) st'
          else .fatal (.perr perr) st
        | some _ =>
          let out := ([pattern] : List String).foldl (resolveOne ctx) ([], st)
          .ok (some out.1) out.2
  else .ok stmt.includes st

/-- Outcome of one `parser.parse` call. -/
inductive POutcome where
  | ok (dirs : List Directive)
  | fatal (e : Err)
  | panic
  | diverge
  | fuelOut

/-- Result of `parser.parse`: outcome, unconsumed tokens, state. -/
structure PResult where
  out : POutcome
  rest : List NgxToken
  st : PState

/-- A synthesised inline-comment directive (parse.go lines 336-344). -/
def inlineComment (line : Nat) (c : String) : Directive :=
  .mk "#" line [] none none (some c)

/-- parse.go `parser.parse`, one statement per recursive step.  The fuel
counts loop iterations and nested calls; the Go loop needs at most one per
consumed token, and the driver supplies `tokens.length + 1`.  Modelled
outcomes: a lexer error token is returned as a fatal error; EOF inside the
argument loop diverges; `prepareIfArgs` out-of-range and `handleError`
rendering a file-less error panic. -/
def pparse (opts : ParseOptions) (configDir : String) (env : Env) (fname : String) :
    Nat → List NgxToken → List String → Bool → PState → PResult
  | 0, tokens, _, _, st => ⟨.fuelOut, tokens, st⟩
  | _ + 1, [], _, _, st => ⟨.ok [], [], st⟩
  | fuel + 1, t :: rest, ctx, consume, st =>
    match t.error with
    | some pe => ⟨.fatal (.perr pe), rest, st⟩
    | none =>
      if t.value = "\x7d" ∧ ¬ t.isQuoted then ⟨.ok [], rest, st⟩
      else if consume then
        if t.value = "\x7b" ∧ ¬ t.isQuoted then
          let r := pparse opts configDir env fname fuel rest [] true st
          match r.out with
          | .panic => ⟨.panic, r.rest, r.st⟩
          | .diverge => ⟨.diverge, r.rest, r.st⟩
          | .fuelOut => ⟨.fuelOut, r.rest, r.st⟩
          | _ => pparse opts configDir env fname fuel r.rest ctx true r.st
        else pparse opts configDir env fname fuel rest ctx true st
      else if strHasPrefix t.value "#" ∧ ¬ t.isQuoted then
        if opts.parseComments then
          let cres := pparse opts configDir env fname fuel rest ctx consume st
          match cres.out with
          | .ok dirs =>
            ⟨.ok (Directive.mk "#" t.line [] none none (some (strDropLeft t.value 1)) :: dirs),
             cres.rest, cres.st⟩
          | _ => cres
        else pparse opts configDir env fname fuel rest ctx consume st
      else
        match argsLoop rest [] [] with
        | (none, _, _) => ⟨.diverge, [], st⟩
        | (some (tt, rest2), args, cmts) =>
          if contains opts.ignoreDirectives t.value then
            if tt.value = "\x7b" ∧ ¬ tt.isQuoted then
              let r := pparse opts configDir env fname fuel rest2 [] true st
              match r.out with
              | .panic => ⟨.panic, r.rest, r.st⟩
              | .diverge => ⟨.diverge, r.rest, r.st⟩
              | .fuelOut => ⟨.fuelOut, r.rest, r.st⟩
              | _ => pparse opts configDir env fname fuel r.rest ctx consume r.st
            else pparse opts configDir env fname fuel rest2 ctx consume st
          else
            match (if t.value = "if" then prepareIfArgs (.mk t.value t.line args none none none)
                   else some (.mk t.value t.line args none none none)) with
            | none => ⟨.panic, rest2, st⟩
            | some stmt1 =>
              match analyze fname stmt1 tt.value ctx opts with
              | some perr =>
                if ¬ opts.stopParsingOnError then
                  match handleError fname st (.perr perr) with
                  | none => ⟨.panic, rest2, st⟩
                  | some st1 =>
                    if strHasSuffix perr.what " is not terminated by \";\"" then
                      if tt.value ≠ "\x7d" ∧ ¬ tt.isQuoted then
                        let r := pparse opts configDir env fname fuel rest2 [] true st1
                        match r.out with
                        | .panic => ⟨.panic, r.rest, r.st⟩
                        | .diverge => ⟨.diverge, r.rest, r.st⟩
                        | .fuelOut => ⟨.fuelOut, r.rest, r.st⟩
                        | _ => pparse opts configDir env fname fuel r.rest ctx consume r.st
                      else ⟨.ok [], rest2, st1⟩
                    else pparse opts configDir env fname fuel rest2 ctx consume st1
                else ⟨.fatal (.perr perr), rest2, st⟩
              | none =>
                match processIncludes opts configDir env fname ctx stmt1 st with
                | .panic => ⟨.panic, rest2, st⟩
                | .fatal e st2 => ⟨.fatal e, rest2, st2⟩
                | .ok includes2 st2 =>
                  let stmt2 := Directive.mk stmt1.directive stmt1.line stmt1.args includes2
                    none stmt1.comment
                  if tt.value = "\x7b" ∧ ¬ tt.isQuoted then
                    let inner := enterBlockCtx stmt2 ctx
                    if strHasSuffix stmt2.directive "_by_lua_block" then
                      let r := pparse opts configDir env fname fuel rest2 inner true st2
                      match r.out with
                      | .panic => ⟨.panic, r.rest, r.st⟩
                      | .diverge => ⟨.diverge, r.rest, r.st⟩
                      | .fuelOut => ⟨.fuelOut, r.rest, r.st⟩
                      | _ =>
                        let r2 := pparse opts configDir env fname fuel r.rest ctx consume r.st
                        match r2.out with
                        | .ok dirs =>
                          ⟨.ok (stmt2 :: (cmts.map (inlineComment stmt2.line) ++ dirs)),
                           r2.rest, r2.st⟩
                        | _ => r2
                    else
                      let r := pparse opts configDir env fname fuel rest2 inner false st2
                      match r.out with
                      | .ok blockDirs =>
                        let stmt3 := Directive.mk stmt2.directive stmt2.line stmt2.args
                          stmt2.includes (some blockDirs) stmt2.comment
                        let r2 := pparse opts configDir env fname fuel r.rest ctx consume r.st
                        match r2.out with
                        | .ok dirs =>
                          ⟨.ok (stmt3 :: (cmts.map (inlineComment stmt3.line) ++ dirs)),
                           r2.rest, r2.st⟩
                        | _ => r2
                      | .fatal e => ⟨.fatal e, r.rest, r.st⟩
                      | .panic => ⟨.panic, r.rest, r.st⟩
                      | .diverge => ⟨.diverge, r.rest, r.st⟩
                      | .fuelOut => ⟨.fuelOut, r.rest, r.st⟩
                  else
                    let r2 := pparse opts configDir env fname fuel rest2 ctx consume st2
                    match r2.out with
                    | .ok dirs =>
                      ⟨.ok (stmt2 :: (cmts.map (inlineComment stmt2.line) ++ dirs)),
                       r2.rest, r2.st⟩
                    | _ => r2

/-! ## Combiner (util.go: combineConfigs, performIncludes) -/

/-- Outcome of `performIncludes` (the first error item of the channel
aborts the consumer). -/
inductive CombRes where
  | ok (dirs : List Directive)
  | err (e : ParseErrorS)
  | fuelOut

mutual

/-- util.go `performIncludes`: expand child blocks recursively, emit every
non-include directive, and splice the referenced configs of every include
directive in place, erroring on an out-of-bounds index.  The fuel bounds
the recursion into referenced configs, which in Go terminates only because
the payload is finite and acyclic. -/
def performIncludes (old : Payload) : Nat → String → List Directive → CombRes
  | 0, _, _ => .fuelOut
  | _ + 1, _, [] => .ok []
  | fuel + 1, fromfile, dir :: rest =>
    let expanded : CombRes :=
      match dir with
      | .mk n l a i (some b) c =>
        match performIncludes old fuel fromfile b with
        | .ok b' => .ok [.mk n l a i (some b') c]
        | .err e => .err e
        | .fuelOut => .fuelOut
      | d => .ok [d]
    match expanded with
    | .err e => .err e
    | .fuelOut => .fuelOut
    | .ok ds =>
      let dir' := ds.headD dir
      if ¬ dir'.isInclude then
        match performIncludes old fuel fromfile rest with
        | .ok tail => .ok (dir' :: tail)
        | other => other
      else
        match spliceIncludes old fuel fromfile dir'.line (dir'.includes.getD []) with
        | .ok spliced =>
          match performIncludes old fuel fromfile rest with
          | .ok tail => .ok (spliced ++ tail)
          | other => other
        | other => other

/-- The include-index loop of `performIncludes`: bounds-check each index
and splice the referenced config's top level. -/
def spliceIncludes (old : Payload) : Nat → String → Nat → List Nat → CombRes
  | 0, _, _, _ => .fuelOut
  | _ + 1, _, _, [] => .ok []
  | fuel + 1, fromfile, line, idx :: idxs =>
    if idx ≥ old.config.length then
      .err ⟨"include config with index: " ++ toString idx, some fromfile, some line⟩
    else
      let cfg := old.config.getD idx ⟨"", "", [], []⟩
      match performIncludes old fuel cfg.file cfg.parsed with
      | .ok ds =>
        match spliceIncludes old fuel fromfile line idxs with
        | .ok ds2 => .ok (ds ++ ds2)
        | other => other
      | other => other

end

/-- Result of the `Parse` entry point: a payload, a returned error, or one
of the modelled abnormal outcomes (Go panic, Go divergence, fuel
exhaustion of the model). -/
inductive GoResult where
  | ok (p : Payload)
  | err (e : Err)
  | panic
  | diverge
  | fuelOut
deriving DecidableEq

/-- util.go `combineConfigs`: keep the payload status (normalising the
empty string to ok) and errors, combine all configs into one carrying the
root file's name, a failed status iff any config failed, the concatenated
errors, and the include-expanded root tree. -/
def combineConfigsM (fuel : Nat) (old : Payload) : GoResult :=
  if old.config.length < 1 then .ok old
  else
    let status := if old.status = "" then "ok" else old.status
    let errors := old.errors
    let combinedStatus := if old.config.any (fun c => c.status = "failed") then "failed" else "ok"
    let combinedErrors := old.config.foldl (fun acc c => acc ++ c.errors) []
    let head := old.config.headD ⟨"", "", [], []⟩
    match performIncludes old fuel head.file head.parsed with
    | .err e => .err (.perr e)
    | .fuelOut => .fuelOut
    | .ok dirs => .ok ⟨status, errors, [⟨head.file, combinedStatus, combinedErrors, dirs⟩]⟩

/-- Modelled from the spec: the `Payload.Combined` method called by
parse.go is not among the source files (only its callers and tests are);
per the spec it runs the Combiner, i.e. util.go `combineConfigs`, on the
payload. -/
def Payload.combined (fuel : Nat) (p : Payload) : GoResult :=
  combineConfigsM fuel p

/-! ## Parse driver (parse.go: Parse) -/

/-- The include-queue loop of `Parse`: pop a queued file, open it through
the opener, lex and parse it, turn a returned error into recorded data via
`handleError` (or return it under `StopParsingOnError`), and append the
config.  The fuel bounds the number of files processed; Go's loop
terminates because each distinct path is parsed at most once. -/
def parseFiles (opts : ParseOptions) (env : Env) (configDir : String) :
    Nat → PState → List Config → GoResult
  | 0, _, _ => .fuelOut
  | fuel + 1, st, configs =>
    match st.queue with
    | [] => .ok ⟨st.payloadStatus, st.payloadErrors, configs⟩
    | (path, ctx) :: q =>
      match assocLookup env.fs path with
      | none => .err (.io ("open " ++ path ++ ": no such file or directory"))
      | some contents =>
        let tokens := lex contents
        let st1 : PState := { st with queue := q, curStatus := "ok", curErrors := [] }
        let r := pparse opts configDir env path (tokens.length + 1) tokens ctx false st1
        match r.out with
        | .panic => .panic
        | .diverge => .diverge
        | .fuelOut => .fuelOut
        | .fatal e =>
          if opts.stopParsingOnError then .err e
          else
            match handleError path r.st e with
            | none => .panic
            | some st2 =>
              parseFiles opts env configDir fuel st2
                (configs ++ [⟨path, st2.curStatus, st2.curErrors, []⟩])
        | .ok dirs =>
          parseFiles opts env configDir fuel r.st
            (configs ++ [⟨path, r.st.curStatus, r.st.curErrors, dirs⟩])

/-- parse.go `Parse`: seed the queue and the `included` map with the root
file, drive the queue, and optionally run the Combiner on the result. -/
def Parse (fuel : Nat) (env : Env) (filename : String) (opts : ParseOptions) : GoResult :=
  let configDir := goFilepathDir filename
  match parseFiles opts env configDir fuel
      ⟨[(filename, [])], [filename], "ok", [], "ok", []⟩ [] with
  | .ok payload => if opts.combineConfigs then payload.combined fuel else .ok payload
  | other => other

/-! ## Tree predicates -/

mutual

/-- Does any node of the directive tree satisfy `p`? -/
def dirAnyB (p : Directive → Bool) : Directive → Bool
  | .mk n l a i (some b) c => p (.mk n l a i (some b) c) || dirsAnyB p b
  | d => p d

/-- Does any node of any tree in the list satisfy `p`? -/
def dirsAnyB (p : Directive → Bool) : List Directive → Bool
  | [] => false
  | d :: ds => dirAnyB p d || dirsAnyB p ds

end

/-- Does any directive of any config of a successful result satisfy `p`? -/
def resultHasDir (p : Directive → Bool) : GoResult → Bool
  | .ok payload => payload.config.any (fun c => dirsAnyB p c.parsed)
  | _ => false

/-- Every node of every tree in the list satisfies `P`, recursively through
blocks. -/
inductive TreeForAll (P : Directive → Prop) : List Directive → Prop where
  | nil : TreeForAll P []
  | cons (d : Directive) (ds : List Directive) :
      P d → (∀ b, d.block = some b → TreeForAll P b) → TreeForAll P ds →
      TreeForAll P (d :: ds)

/-- The sibling lists a comment-free parse can produce: a sequence of
units, each a statement with no comment field followed by its inline
comments — comment directives with empty args carrying the statement's
line — with the statement's block again of this shape. -/
inductive InlineOnly : List Directive → Prop where
  | nil : InlineOnly []
  | cons (stmt : Directive) (cs rest : List Directive) :
      stmt.comment = none →
      (∀ c ∈ cs, c.directive = "#" ∧ c.args = [] ∧ c.line = stmt.line ∧
        c.comment ≠ none ∧ c.block = none ∧ c.includes = none) →
      (∀ b, stmt.block = some b → InlineOnly b) →
      InlineOnly rest →
      InlineOnly (stmt :: (cs ++ rest))

/-! ## Concrete inputs for the claims -/

/-- A glob function for environments that never glob. -/
def noGlob : String → Except String (List String) :=
  fun _ => .error "glob unused"

/-- A root config consisting of a single unmatched closing brace. -/
def envBrace : Env :=
  ⟨[("nginx.conf", "\x7d")], noGlob⟩

/-- A config with an unquoted `#` token inside an argument list. -/
def envInline : Env :=
  ⟨[("nginx.conf", "absolute_redirect on #c\n;")], noGlob⟩

/-- Options that skip the context and argument checks. -/
def optsSkipChecks : ParseOptions :=
  { skipDirectiveContextCheck := true, skipDirectiveArgsCheck := true }

/-- An `include` directive that is followed by a block. -/
def envIncludeBlock : Env :=
  ⟨[("nginx.conf", "include b.conf \x7b\n\x7d\n"), ("b.conf", "")], noGlob⟩

/-- The `if ()` config: `prepareIfArgs` runs before the analyser, so the
placement of the directive does not matter. -/
def envIfEmpty : Env :=
  ⟨[("nginx.conf", "if () \x7b\n\x7d\n")], noGlob⟩

/-- The spec's `if ($scheme = http)` arguments. -/
def envIfScheme : Env :=
  ⟨[("nginx.conf", "if ($scheme = http) \x7b\n\x7d\n")], noGlob⟩

/-- A root including one existing file. -/
def envInclude2 : Env :=
  ⟨[("a.conf", "include b.conf;"), ("b.conf", "")], noGlob⟩

/-- A root including a missing file. -/
def envIncludeMissing : Env :=
  ⟨[("a.conf", "include missing.conf;")], noGlob⟩

/-! ## Spec-worded variants for refinement claims -/

/-- The claim's wording of the `if`-argument normalisation (C5): when the
first argument starts with `(` and the last ends with `)`, strip those
parentheses, and drop a first or last argument left empty by the
stripping; no other change. -/
def prepareIfArgsClaim (args : List String) : List String :=
  if args.length > 0 ∧ strHasPrefix (args.headD "") "(" ∧
      strHasSuffix (args.getD (args.length - 1) "") ")" then
    let e := args.length - 1
    let args1 := args.set 0 (goTrimPrefix (args.headD "") "(")
    let args2 := args1.set e (goTrimSuffix (args1.getD e "") ")")
    let args3 := if (args2.headD "") = "" then args2.drop 1 else args2
    if args3 ≠ [] ∧ (args3.getLastD "") = "" then args3.dropLast else args3
  else args

/-- The amended wording of the normalisation (C5): the parentheses are
stripped together with the white space adjacent to them (after the leading
paren, before the trailing paren); an empty last element is dropped. -/
def prepareIfArgsAmended (args : List String) : List String :=
  if args.length > 0 ∧ strHasPrefix (args.headD "") "(" ∧
      strHasSuffix (args.getD (args.length - 1) "") ")" then
    let e := args.length - 1
    let args1 := args.set 0 (goTrimLeftSpace (goTrimPrefix (args.headD "") "("))
    let args2 := args1.set e (goTrimRightSpace (goTrimSuffix (args1.getD e "") ")"))
    if (args2.getD e "") = "" then args2.take e else args2
  else args

/-- The acceptance test of one catalogue variant as the analyse loop
applies it: the block flag matches the terminator and the arity test
holds. -/
def variantAccepts (mask : Nat) (args : List String) (term : String) : Bool :=
  (if mask &&& ngxConfBlock ≠ 0 then term = "\x7b" else term = ";") && maskAccepts mask args

/-- No carriage return occurs in the string. -/
def noCRStr (s : String) : Prop := ∀ c ∈ s.data, c ≠ '\r'

def modeNoCR : LexMode → Prop
  | .normal token _ => noCRStr token
  | .comment acc _ _ => noCRStr acc
  | .quoteStart q _ => noCRStr q
  | .quoteIn q acc _ => noCRStr q ∧ noCRStr acc
  | .expansion token _ => noCRStr token

/-- How `parser.parse` may change the state: the queue and the `included`
list only grow, in lockstep (each new queue entry's path is the
corresponding new `included` entry), distinctness of `included` is
preserved, and the two status fields are either untouched or both
`"failed"`. -/
def stExtends (st st' : PState) : Prop :=
  (∃ new : List (String × List String),
     st'.queue = st.queue ++ new ∧ st'.included = st.included ++ new.map Prod.fst) ∧
  ((st'.curStatus = st.curStatus ∧ st'.payloadStatus = st.payloadStatus) ∨
     (st'.curStatus = "failed" ∧ st'.payloadStatus = "failed")) ∧
  (st.included.Nodup → st'.included.Nodup)

/-- The per-directive invariant generated by include resolution: an
includes field is only ever attached to an `include` directive and its
indices are below the given bound. -/
def PB (n : Nat) (d : Directive) : Prop :=
  (d.includes ≠ none → d.directive = "include") ∧
  (∀ idxs, d.includes = some idxs → ∀ i ∈ idxs, i < n)

/-- The payload produced for `envInline` under `optsSkipChecks`. -/
def payloadInline : Payload :=
  ⟨"ok", [], [⟨"nginx.conf", "ok", [],
    [.mk "absolute_redirect" 1 ["on"] none none none, .mk "#" 1 [] none none (some "c")]⟩]⟩

/-- The payload produced for `envIncludeBlock` when the args check is skipped. -/
def payloadIncludeBlock : Payload :=
  ⟨"ok", [], [⟨"nginx.conf", "ok", [], [.mk "include" 1 ["b.conf"] (some [1]) (some []) none]⟩,
    ⟨"b.conf", "ok", [], []⟩]⟩

/-- The payload produced for `envInclude2` under default options. -/
def payloadInclude2 : Payload :=
  ⟨"ok", [], [⟨"a.conf", "ok", [], [.mk "include" 1 ["b.conf"] (some [1]) none none]⟩,
    ⟨"b.conf", "ok", [], []⟩]⟩

/-- The payload produced for `envIncludeMissing` under default options. -/
def payloadMissing : Payload :=
  ⟨"failed",
    [⟨"a.conf", some 1, "open missing.conf: no such file or directory in a.conf:1"⟩],
    [⟨"a.conf", "failed",
      [⟨some 1, "open missing.conf: no such file or directory in a.conf:1"⟩],
      [.mk "include" 1 ["missing.conf"] (some []) none none]⟩]⟩

/-! ## Theorems -/

theorem strLenZero (s : String) : s.length = 0 ↔ s = "" := by
  obtain ⟨data⟩ := s
  simp [String.length]
  constructor
  · intro h
    simp [List.length_eq_zero] at h
    simp [h]
  · intro h
    have : data = "".data := congrArg String.data h
    simpa using this


/-- C1: the claim expects a lexer brace error to be recorded as data with
`Parse` returning normally, and in particular rendering the recorded
lexer-produced `ParseError` (which has a line but no file) to succeed.
The code disagrees: the lexer emits the error token with a line and no
file, `ParseError.Error` dereferences its nil `file` pointer, so
`handleError` panics and `Parse` does not return.  This theorem evaluates
the code at the failing input `"}"`. -/
theorem claim_C1_brace_error_render_panics :
    lex "\x7d" = [⟨"", 0, false, some ⟨"unexpected \"\x7d\"", none, some 1⟩⟩] ∧
    ParseErrorS.render ⟨"unexpected \"\x7d\"", none, some 1⟩ = none ∧
    Parse 10 envBrace "nginx.conf" {} = .panic := by
  refine ⟨by decide!, rfl, by decide!⟩

/-- C6: the claim asserts `prepareIfArgs` is total; the code reads the
pre-drop index `e` after dropping an empty first element, which is out of
range whenever the drop happens.  This theorem evaluates the code at the
failing input `if ()`: the argument list `["()"]` makes `prepareIfArgs`
panic, and the whole `Parse` run panics with it. -/
theorem claim_C6_prepareIfArgs_out_of_range :
    prepareIfArgs (.mk "if" 4 ["()"] none none none) = none ∧
    Parse 10 envIfEmpty "nginx.conf" {} = .panic := by
  refine ⟨rfl, by decide!⟩

/-- C5 counterexample: on the argument list `["(x )"]` the code yields
`["x"]` — it also trims the white space adjacent to the stripped
parentheses — while the claim's wording (strip the parentheses, drop an
element left empty, change nothing else) yields `["x "]`. -/
theorem claim_C5_counterexample :
    (prepareIfArgs (.mk "if" 1 ["(x )"] none none none)).map Directive.args ≠
      some (prepareIfArgsClaim ["(x )"]) ∧
    (prepareIfArgs (.mk "if" 1 ["(x )"] none none none)).map Directive.args = some ["x"] ∧
    prepareIfArgsClaim ["(x )"] = ["x "] := by
  refine ⟨by decide, rfl, rfl⟩

/-- Helper: the full behaviour of a completing `prepareIfArgs` run — the
non-argument fields are untouched and the arguments follow
`prepareIfArgsAmended`. -/
theorem prepareIfArgs_spec : ∀ (d r : Directive), prepareIfArgs d = some r →
    r.directive = d.directive ∧ r.line = d.line ∧ r.includes = d.includes ∧
    r.block = d.block ∧ r.comment = d.comment ∧ r.args = prepareIfArgsAmended d.args := by
  intro d r h
  obtain ⟨n, l, a, i, b, c⟩ := d
  simp only [prepareIfArgs, Directive.args] at h
  rw [prepareIfArgsAmended]
  simp only [Directive.args]
  split at h
  case isFalse hc =>
    simp only [Option.some.injEq] at h
    subst h
    rw [if_neg hc]
    exact ⟨rfl, rfl, rfl, rfl, rfl, rfl⟩
  case isTrue hc =>
    rw [if_pos hc]
    set e := a.length - 1 with he
    set a1 := a.set 0 (goTrimLeftSpace (goTrimPrefix (a.headD "") "(")) with ha1
    set a2 := a1.set e (goTrimRightSpace (goTrimSuffix (a1.getD e "") ")")) with ha2
    have hlen2 : a2.length = a.length := by simp [ha2, ha1]
    by_cases hz : (a2.headD "").length = 0
    · rw [if_pos hz] at h
      have hnone : (a2.drop 1)[e]? = none := by
        apply List.getElem?_eq_none
        simp only [List.length_drop, hlen2]
        omega
      rw [hnone] at h
      exact absurd h (by simp)
    · rw [if_neg hz] at h
      have hel : e < a2.length := by
        rw [hlen2]
        have := hc.1
        omega
      rw [List.getElem?_eq_getElem hel] at h
      simp only [Option.some.injEq] at h
      subst h
      refine ⟨rfl, rfl, rfl, rfl, rfl, ?_⟩
      simp only [Directive.args]
      have hgd : a2.getD e "" = a2[e] := List.getD_eq_getElem a2 "" hel
      rw [hgd]
      by_cases hae : a2[e] = ""
      · rw [if_pos (by simp [hae]), if_pos hae]
      · rw [if_neg (by simpa [strLenZero] using hae), if_neg hae]

/-- C5 amended: whenever the normalisation completes without the
out-of-range fault of C6, it strips the parentheses together with the
white space adjacent to them (leading white space of the first argument
after the `(`, trailing white space of the last before the `)`), drops a
last element left empty, and changes nothing else — the fields of the
directive other than its arguments are untouched. -/
theorem claim_C5_if_args_normalisation : ∀ (d r : Directive), prepareIfArgs d = some r →
    r.directive = d.directive ∧ r.line = d.line ∧ r.includes = d.includes ∧
    r.block = d.block ∧ r.comment = d.comment ∧ r.args = prepareIfArgsAmended d.args :=
  prepareIfArgs_spec

/-- C5 witness: the spec's own example, `if ($scheme = http)`.  The
normalisation of the token arguments `["($scheme","=","http)"]` succeeds
and follows the amended description, yielding `["$scheme","=","http"]`,
and a full parse of such a config carries exactly those arguments. -/
theorem claim_C5_witness :
    (Directive.mk "if" 1 ["$scheme", "=", "http"] none none none).args =
      prepareIfArgsAmended ["($scheme", "=", "http)"] ∧
    resultHasDir (fun d => decide (d.directive = "if" ∧ d.args = ["$scheme", "=", "http"]))
      (Parse 10 envIfScheme "nginx.conf" optsSkipChecks) = true := by
  constructor
  · exact (claim_C5_if_args_normalisation (.mk "if" 1 ["($scheme", "=", "http)"] none none none)
      (.mk "if" 1 ["$scheme", "=", "http"] none none none) (by decide!)).2.2.2.2.2
  · decide!

/-! ## No carriage return reaches the token buffer (C3 support) -/


theorem escapeChars_no_cr : ∀ (input : List Char), ∀ u ∈ escapeChars input, noCRStr u := by
  intro input
  induction input using escapeChars.induct with
  | case1 => simp [escapeChars]
  | case2 =>
    intro u hu
    simp [escapeChars] at hu
    subst hu
    intro ch hch
    rw [show ("\\" : String).data = ['\\'] from rfl] at hch
    simp at hch
    subst hch
    decide
  | case3 rest' ih =>
    simpa [escapeChars] using ih
  | case4 cc rest' hne ih =>
    simp only [escapeChars, if_neg hne, List.mem_cons]
    rintro u (rfl | hu)
    · intro ch hch
      simp at hch
      rcases hch with rfl | rfl
      · decide
      · exact hne
    · exact ih u hu
  | case5 rest hnb ih =>
    simpa [escapeChars] using ih
  | case6 cc rest hnb hcr ih =>
    simp only [escapeChars, if_neg hcr, List.mem_cons]
    rintro u (rfl | hu)
    · intro ch hch
      simp [String.singleton] at hch
      subst hch
      exact hcr
    · exact ih u hu
end Crossplane
namespace Crossplane

theorem noCRStr_empty : noCRStr "" := by
  intro c hc
  rw [show ("" : String).data = [] from rfl] at hc
  simp at hc

theorem noCRStr_append (a b : String) (ha : noCRStr a) (hb : noCRStr b) : noCRStr (a ++ b) := by
  intro c hc
  rw [String.data_append] at hc
  rcases List.mem_append.mp hc with h | h
  · exact ha c h
  · exact hb c h

theorem flushTok_no_cr (token : String) (tl : Nat) (h : noCRStr token) :
    ∀ t ∈ flushTok token tl, noCRStr t.value := by
  intro t ht
  rw [flushTok] at ht
  split at ht
  · simp at ht
  · simp at ht
    subst ht
    exact h

theorem afterStep_no_cr (token : String) (tl : Nat) (cl : CharLine)
    (htok : noCRStr token) (hcl : noCRStr cl.char) :
    modeNoCR (afterStep token tl cl).1 ∧ ∀ t ∈ (afterStep token tl cl).2, noCRStr t.value := by
  rw [afterStep]
  split
  · split
    · exact ⟨noCRStr_append _ _ htok hcl, by simp⟩
    · exact ⟨hcl, by simp⟩
  · split
    · refine ⟨noCRStr_empty, ?_⟩
      intro t ht
      rcases List.mem_append.mp ht with h | h
      · exact flushTok_no_cr token tl htok t h
      · simp at h
        subst h
        exact hcl
    · exact ⟨noCRStr_append _ _ htok hcl, by simp⟩

theorem tokStep_no_cr (st : LexMode) (cl : CharLine)
    (hst : modeNoCR st) (hcl : noCRStr cl.char) :
    modeNoCR (tokStep st cl).1 ∧ ∀ t ∈ (tokStep st cl).2, noCRStr t.value := by
  match st with
  | .normal token tl =>
    rw [tokStep]
    split
    · exact ⟨noCRStr_empty, flushTok_no_cr token tl hst⟩
    · split
      · exact ⟨hcl, by simp⟩
      · dsimp only
        split
        · exact ⟨noCRStr_append _ _ hst hcl, by simp⟩
        · exact afterStep_no_cr token _ cl hst hcl
  | .comment acc la tl =>
    rw [tokStep]
    split
    · refine ⟨noCRStr_empty, ?_⟩
      intro t ht
      simp at ht
      subst ht
      exact hst
    · exact ⟨noCRStr_append _ _ hst hcl, by simp⟩
  | .quoteStart q tl =>
    rw [tokStep]
    split
    · refine ⟨noCRStr_empty, ?_⟩
      intro t ht
      simp at ht
      subst ht
      exact noCRStr_empty
    · refine ⟨⟨hst, ?_⟩, by simp⟩
      split
      · exact hst
      · exact hcl
  | .quoteIn q acc tl =>
    rw [tokStep]
    split
    · refine ⟨noCRStr_empty, ?_⟩
      intro t ht
      simp at ht
      subst ht
      exact hst.2
    · refine ⟨⟨hst.1, noCRStr_append _ _ hst.2 ?_⟩, by simp⟩
      split
      · exact hst.1
      · exact hcl
  | .expansion token tl =>
    rw [tokStep]
    split
    · exact afterStep_no_cr token tl cl hst hcl
    · exact ⟨noCRStr_append _ _ hst hcl, by simp⟩

theorem flushEOF_no_cr (st : LexMode) (hst : modeNoCR st) :
    ∀ t ∈ flushEOF st, noCRStr t.value := by
  match st with
  | .normal token tl => exact flushTok_no_cr token tl hst
  | .comment acc la tl =>
    intro t ht
    simp [flushEOF] at ht
    subst ht
    exact hst
  | .quoteStart q tl => simp [flushEOF]
  | .quoteIn q acc tl =>
    intro t ht
    simp [flushEOF] at ht
    subst ht
    exact hst.2
  | .expansion token tl => exact flushTok_no_cr token tl hst

theorem tokenizeFold_no_cr : ∀ (units : List CharLine) (st : LexMode),
    (∀ u ∈ units, noCRStr u.char) → modeNoCR st →
    ∀ t ∈ tokenizeFold units st, noCRStr t.value := by
  intro units
  induction units with
  | nil =>
    intro st _ hst
    exact flushEOF_no_cr st hst
  | cons cl rest ih =>
    intro st hu hst t ht
    rw [tokenizeFold] at ht
    rcases List.mem_append.mp ht with h | h
    · exact (tokStep_no_cr st cl hst (hu cl (by simp))).2 t h
    · exact ih (tokStep st cl).1 (fun u hu' => hu u (by simp [hu']))
        (tokStep_no_cr st cl hst (hu cl (by simp))).1 t h

theorem lineCount_char_mem : ∀ (l : List String) (n : Nat), ∀ u ∈ lineCount l n, u.char ∈ l := by
  intro l
  induction l with
  | nil =>
    intro n u hu
    simp [lineCount] at hu
  | cons x rest ih =>
    intro n u hu
    rw [lineCount] at hu
    rcases List.mem_cons.mp hu with rfl | hu
    · exact List.mem_cons_self _ _
    · exact List.mem_cons_of_mem _ (ih _ u hu)

theorem charSource_no_cr (s : String) : ∀ u ∈ charSource s, noCRStr u.char := by
  intro u hu
  exact escapeChars_no_cr s.data u.char (lineCount_char_mem (escapeChars s.data) 1 u hu)

theorem tokenize_no_cr (s : String) : ∀ t ∈ tokenize s, noCRStr t.value := by
  intro t ht
  exact tokenizeFold_no_cr (charSource s) (.normal "" 0) (charSource_no_cr s) noCRStr_empty t ht

theorem balanceBraces_no_cr : ∀ (toks : List NgxToken) (d ln : Nat),
    (∀ t ∈ toks, noCRStr t.value) → ∀ t ∈ balanceBraces toks d ln, noCRStr t.value := by
  intro toks
  induction toks with
  | nil =>
    intro d ln _ t ht
    rw [balanceBraces] at ht
    split at ht
    · simp at ht
      subst ht
      exact noCRStr_empty
    · simp at ht
  | cons x rest ih =>
    intro d ln hall t ht
    rw [balanceBraces] at ht
    split at ht
    · split at ht
      · simp at ht
        subst ht
        exact noCRStr_empty
      · rcases List.mem_cons.mp ht with rfl | ht
        · exact hall t (by simp)
        · exact ih _ _ (fun u hu => hall u (by simp [hu])) t ht
    · split at ht
      · rcases List.mem_cons.mp ht with rfl | ht
        · exact hall t (by simp)
        · exact ih _ _ (fun u hu => hall u (by simp [hu])) t ht
      · rcases List.mem_cons.mp ht with rfl | ht
        · exact hall t (by simp)
        · exact ih _ _ (fun u hu => hall u (by simp [hu])) t ht

/-- C3: the char source drops every bare carriage return and every
carriage return bonded to a preceding backslash, so no unit of the char
stream contains one, and consequently no token value produced by the lexer
ever contains a carriage return. -/
theorem claim_C3_carriage_returns_dropped :
    (∀ (input : List Char), ∀ u ∈ escapeChars input, ∀ c ∈ u.data, c ≠ '\r') ∧
    (∀ (s : String), ∀ t ∈ lex s, ∀ c ∈ t.value.data, c ≠ '\r') := by
  constructor
  · exact escapeChars_no_cr
  · intro s t ht
    exact balanceBraces_no_cr (tokenize s) 0 0 (tokenize_no_cr s) t ht

/-- C3 witness: both parts applied at concrete inputs containing carriage
returns — the unit stream of `['x', CR]` and the token stream of
`"a<CR>b"`, where the carriage return disappears and `"ab"` is lexed as
one token. -/
theorem claim_C3_witness : ('x' : Char) ≠ '\r' ∧ ('a' : Char) ≠ '\r' :=
  ⟨claim_C3_carriage_returns_dropped.1 ['x', '\r'] "x" (by decide!) 'x' (by decide!),
   claim_C3_carriage_returns_dropped.2 "a\rb" (mkTok "ab" 1 false) (by decide!) 'a' (by decide!)⟩

/-- The analyse loop returns nil exactly when some remaining variant
accepts. -/
theorem analyzeLoop_none_iff (name : String) (args : List String) (term : String) :
    ∀ (ms : List Nat) (what : String),
    (analyzeLoop name args term ms what = none ↔ ∃ m ∈ ms, variantAccepts m args term = true) := by
  intro ms
  induction ms with
  | nil =>
    intro what
    simp [analyzeLoop]
  | cons m rest ih =>
    intro what
    rw [analyzeLoop]
    split
    case isTrue hb =>
      rw [ih]
      constructor
      · rintro ⟨x, hx, ha⟩
        exact ⟨x, by simp [hx], ha⟩
      · rintro ⟨x, hx, ha⟩
        rcases List.mem_cons.mp hx with rfl | hx
        · exfalso
          simp [variantAccepts, if_pos hb.1] at ha
          exact hb.2 ha.1
        · exact ⟨x, hx, ha⟩
    case isFalse hb =>
      split
      case isTrue hb2 =>
        rw [ih]
        constructor
        · rintro ⟨x, hx, ha⟩
          exact ⟨x, by simp [hx], ha⟩
        · rintro ⟨x, hx, ha⟩
          rcases List.mem_cons.mp hx with rfl | hx
          · exfalso
            simp only [variantAccepts] at ha
            rw [if_neg (by tauto)] at ha
            simp at ha
            exact hb2.2 ha.1
          · exact ⟨x, hx, ha⟩
      case isFalse hb2 =>
        split
        case isTrue hacc =>
          simp only [true_iff, eq_self_iff_true]
          refine ⟨m, by simp, ?_⟩
          simp only [variantAccepts]
          by_cases hblk : m &&& ngxConfBlock ≠ 0
          · rw [if_pos hblk]
            have ht : term = "\x7b" := by
              by_contra hne
              exact hb ⟨hblk, hne⟩
            simp [ht, hacc]
          · rw [if_neg hblk]
            have ht : term = ";" := by
              by_contra hne
              exact hb2 ⟨by omega, hne⟩
            simp [ht, hacc]
        case isFalse hacc =>
          rw [ih]
          constructor
          · rintro ⟨x, hx, ha⟩
            exact ⟨x, by simp [hx], ha⟩
          · rintro ⟨x, hx, ha⟩
            rcases List.mem_cons.mp hx with rfl | hx
            · exfalso
              simp only [variantAccepts, Bool.and_eq_true] at ha
              exact hacc ha.2
            · exact ⟨x, hx, ha⟩
/-- When no variant accepts, the analyse loop ends with the candidate
message of its last variant, whatever message it started from. -/
theorem analyzeLoop_last_msg (name : String) (args : List String) (term : String) :
    ∀ (ms : List Nat) (what : String), ms ≠ [] →
    (∀ m ∈ ms, variantAccepts m args term = false) →
    analyzeLoop name args term ms what =
      some (maskCandidateMsg (ms.getLastD 0) name args term) := by
  intro ms
  induction ms with
  | nil => intro what h; exact absurd rfl h
  | cons m rest ih =>
    intro what _ hrej
    have hm : variantAccepts m args term = false := hrej m (by simp)
    have hstep : ∀ w, analyzeLoop name args term (m :: rest) w =
        analyzeLoop name args term rest (maskCandidateMsg m name args term) := by
      intro w
      rw [analyzeLoop]
      split
      case isTrue h1 => rfl
      case isFalse h1 =>
        split
        case isTrue h2 => rfl
        case isFalse h2 =>
          split
          case isTrue hacc =>
            exfalso
            simp only [variantAccepts] at hm
            by_cases hblk : m &&& ngxConfBlock ≠ 0
            · rw [if_pos hblk] at hm
              have ht : term = "\x7b" := by
                by_contra hne
                exact h1 ⟨hblk, hne⟩
              simp [ht, hacc] at hm
            · rw [if_neg hblk] at hm
              have ht : term = ";" := by
                by_contra hne
                exact h2 ⟨by omega, hne⟩
              simp [ht, hacc] at hm
          case isFalse hacc => rfl
    match rest with
    | [] =>
      rw [hstep, analyzeLoop]
      rfl
    | r :: rs =>
      rw [hstep, ih _ (by simp) (fun x hx => hrej x (by simp [hx]))]
      rfl
/-- C7: for a known directive in a known context with at least one
context-valid variant and the two skip options unset, `analyze` returns
nil iff some context-valid variant accepts (block flag matching the
terminator and the arity condition holding), and otherwise returns a
`ParseError` carrying the file and line whose message is the candidate
message of the last context-valid variant. -/
theorem claim_C7_analyze_variants (fname name : String) (line : Nat) (args : List String) (term : String)
    (ctx : List String) (opts : ParseOptions) (masks : List Nat) (currCtx : Nat)
    (h1 : assocLookup directives name = some masks)
    (h2 : assocLookup contexts (ctxKey ctx) = some currCtx)
    (h3 : opts.skipDirectiveContextCheck = false)
    (h4 : opts.skipDirectiveArgsCheck = false)
    (h5 : masks.filter (fun m => m &&& currCtx ≠ 0) ≠ []) :
    (analyze fname (.mk name line args none none none) term ctx opts = none ↔
      ∃ m ∈ masks.filter (fun m => m &&& currCtx ≠ 0), variantAccepts m args term = true) ∧
    ((¬ ∃ m ∈ masks.filter (fun m => m &&& currCtx ≠ 0), variantAccepts m args term = true) →
      analyze fname (.mk name line args none none none) term ctx opts =
        some ⟨maskCandidateMsg ((masks.filter (fun m => m &&& currCtx ≠ 0)).getLastD 0)
          name args term, some fname, some line⟩) := by
  have hred : analyze fname (.mk name line args none none none) term ctx opts =
      (analyzeLoop name args term (masks.filter (fun m => m &&& currCtx ≠ 0)) "").map
        (fun what => ⟨what, some fname, some line⟩) := by
    rw [analyze]
    simp only [Directive.directive, Directive.args, Directive.line, h1, h2]
    rw [if_neg (by simp)]
    rw [if_neg (by simp [h3])]
    rw [if_neg h5]
    rw [if_neg (by simp [h4])]
  rw [hred]
  constructor
  · rw [Option.map_eq_none']
    exact analyzeLoop_none_iff name args term _ ""
  · intro hne
    rw [analyzeLoop_last_msg name args term _ "" h5 ?hrej]
    · rfl
    case hrej =>
      intro m hm
      by_contra hcon
      exact hne ⟨m, hm, by simpa using hcon⟩
/-- C7 witness: `accept_mutex maybe;` in the `events` context — the only
variant is a flag variant, no variant accepts, and the error is the flag
variant's candidate message with file and line. -/
theorem claim_C7_witness :
    analyze "f" (.mk "accept_mutex" 2 ["maybe"] none none none) ";" ["events"] {} =
      some ⟨"invalid value \"maybe\" in \"accept_mutex\" directive, it must be \"on\" or \"off\"",
        some "f", some 2⟩ := by
  have h := (claim_C7_analyze_variants "f" "accept_mutex" 2 ["maybe"] ";" ["events"] {}
    [ngxEventConf ||| ngxConfFlag] ngxEventConf (by decide!) (by decide!) rfl rfl
    (by decide)).2 (by decide)
  exact h.trans (by decide!)

/-- C2 counterexample: with `ParseComments` unset (and the two check-skip
options set, which the claim quantifies over), the config
`absolute_redirect on #c<NL>;` parses to a tree containing a comment
directive: the unquoted `#`-token found inside the argument list is
emitted unconditionally. -/
theorem claim_C2_counterexample :
    optsSkipChecks.parseComments = false ∧
    resultHasDir (fun d => d.directive = "#")
      (Parse 10 envInline "nginx.conf" optsSkipChecks) = true := by
  exact ⟨rfl, by decide!⟩

/-- C4 counterexample: with `SkipDirectiveArgsCheck` set (an option the
claim quantifies over), `include b.conf { }` parses to a directive whose
`includes` and `block` fields are both present. -/
theorem claim_C4_counterexample :
    resultHasDir (fun d => d.block.isSome && d.includes.isSome)
      (Parse 10 envIncludeBlock "nginx.conf" { skipDirectiveArgsCheck := true }) = true := by
  decide!

end Crossplane
namespace Crossplane


theorem stExtends_refl (st : PState) : stExtends st st :=
  ⟨⟨[], by simp, by simp⟩, .inl ⟨rfl, rfl⟩, id⟩

theorem stExtends_trans {a b c : PState} (h1 : stExtends a b) (h2 : stExtends b c) :
    stExtends a c := by
  obtain ⟨⟨n1, hq1, hi1⟩, hs1, hd1⟩ := h1
  obtain ⟨⟨n2, hq2, hi2⟩, hs2, hd2⟩ := h2
  refine ⟨⟨n1 ++ n2, ?_, ?_⟩, ?_, fun h => hd2 (hd1 h)⟩
  · rw [hq2, hq1, List.append_assoc]
  · rw [hi2, hi1, List.map_append, List.append_assoc]
  · rcases hs2 with ⟨e1, e2⟩ | hf
    · rcases hs1 with ⟨f1, f2⟩ | hf1
      · exact .inl ⟨e1.trans f1, e2.trans f2⟩
      · exact .inr ⟨e1.trans hf1.1, e2.trans hf1.2⟩
    · exact .inr hf

theorem stExtends_included_le {a b : PState} (h : stExtends a b) :
    a.included.length ≤ b.included.length := by
  obtain ⟨⟨n, _, hi⟩, _, _⟩ := h
  rw [hi]
  simp

theorem handleError_some {f : String} {st st' : PState} {e : Err}
    (h : handleError f st e = some st') :
    st'.queue = st.queue ∧ st'.included = st.included ∧
    st'.curStatus = "failed" ∧ st'.payloadStatus = "failed" := by
  rw [handleError.eq_def] at h
  cases hr : e.render with
  | none => rw [hr] at h; simp [Option.map] at h
  | some msg =>
    rw [hr] at h
    simp only [Option.map, Option.some.injEq] at h
    subst h
    exact ⟨rfl, rfl, rfl, rfl⟩

theorem handleError_stExtends {f : String} {st st' : PState} {e : Err}
    (h : handleError f st e = some st') : stExtends st st' := by
  obtain ⟨hq, hi, hc, hp⟩ := handleError_some h
  exact ⟨⟨[], by simp [hq], by simp [hi]⟩, .inr ⟨hc, hp⟩, by rw [hi]; exact id⟩

theorem resolveOne_step (ctx : List String) (idxs : List Nat) (st : PState) (f : String) :
    let r := resolveOne ctx (idxs, st) f
    (∃ new, r.2.queue = st.queue ++ new ∧ r.2.included = st.included ++ new.map Prod.fst) ∧
    r.2.curStatus = st.curStatus ∧ r.2.payloadStatus = st.payloadStatus ∧
    r.2.curErrors = st.curErrors ∧ r.2.payloadErrors = st.payloadErrors ∧
    st.included.length ≤ r.2.included.length ∧
    (st.included.Nodup → r.2.included.Nodup) ∧
    ((∀ i ∈ idxs, i < st.included.length) → ∀ i ∈ r.1, i < r.2.included.length) := by
  rw [resolveOne]
  cases hf : st.included.findIdx? (fun s => s = f) with
  | some i =>
    refine ⟨⟨[], by simp, by simp⟩, rfl, rfl, rfl, rfl, le_refl _, id, ?_⟩
    intro hb j hj
    rcases List.mem_append.mp hj with h | h
    · exact hb j h
    · simp at h
      subst h
      exact (List.findIdx?_eq_some_iff_findIdx_eq.mp hf).1
  | none =>
    refine ⟨⟨[(f, ctx)], by simp, by simp⟩, rfl, rfl, rfl, rfl, by simp, ?_, ?_⟩
    · intro hnd
      rw [List.nodup_append]
      refine ⟨hnd, by simp, ?_⟩
      intro a ha hb
      simp at hb
      subst hb
      rw [List.findIdx?_eq_none_iff] at hf
      have := hf a ha
      simp at this
    · intro hb j hj
      rcases List.mem_append.mp hj with h | h
      · have := hb j h
        simp
        omega
      · simp at h
        subst h
        simp

end Crossplane
namespace Crossplane

theorem resolveFold (ctx : List String) : ∀ (fnames : List String) (idxs0 : List Nat) (st0 : PState),
    let r := fnames.foldl (resolveOne ctx) (idxs0, st0)
    (∃ new, r.2.queue = st0.queue ++ new ∧ r.2.included = st0.included ++ new.map Prod.fst) ∧
    r.2.curStatus = st0.curStatus ∧ r.2.payloadStatus = st0.payloadStatus ∧
    st0.included.length ≤ r.2.included.length ∧
    (st0.included.Nodup → r.2.included.Nodup) ∧
    ((∀ i ∈ idxs0, i < st0.included.length) → ∀ i ∈ r.1, i < r.2.included.length) := by
  intro fnames
  induction fnames with
  | nil =>
    intro idxs0 st0
    exact ⟨⟨[], by simp, by simp⟩, rfl, rfl, le_refl _, id, fun h => h⟩
  | cons f rest ih =>
    intro idxs0 st0
    have hstep := resolveOne_step ctx idxs0 st0 f
    obtain ⟨⟨n1, hq1, hi1⟩, hc1, hp1, _, _, hlen1, hnd1, hb1⟩ := hstep
    have hrest := ih (resolveOne ctx (idxs0, st0) f).1 (resolveOne ctx (idxs0, st0) f).2
    obtain ⟨⟨n2, hq2, hi2⟩, hc2, hp2, hlen2, hnd2, hb2⟩ := hrest
    rw [List.foldl_cons]
    refine ⟨⟨n1 ++ n2, ?_, ?_⟩, ?_, ?_, ?_, ?_, ?_⟩
    · rw [show rest.foldl (resolveOne ctx) (resolveOne ctx (idxs0, st0) f) =
        rest.foldl (resolveOne ctx) ((resolveOne ctx (idxs0, st0) f).1, (resolveOne ctx (idxs0, st0) f).2) from by rfl] at hq2 ⊢
      rw [hq2, hq1, List.append_assoc]
    · rw [show rest.foldl (resolveOne ctx) (resolveOne ctx (idxs0, st0) f) =
        rest.foldl (resolveOne ctx) ((resolveOne ctx (idxs0, st0) f).1, (resolveOne ctx (idxs0, st0) f).2) from by rfl] at hi2 ⊢
      rw [hi2, hi1, List.map_append, List.append_assoc]
    · exact hc2.trans hc1
    · exact hp2.trans hp1
    · exact hlen1.trans hlen2
    · exact fun h => hnd2 (hnd1 h)
    · intro hb
      exact hb2 (hb1 hb)
end Crossplane
namespace Crossplane

theorem processIncludes_ok {opts : ParseOptions} {configDir : String} {env : Env}
    {fname : String} {ctx : List String} {stmt : Directive} {st : PState}
    {inc : Option (List Nat)} {st' : PState}
    (hstmt : stmt.includes = none)
    (h : processIncludes opts configDir env fname ctx stmt st = .ok inc st') :
    stExtends st st' ∧
    (inc ≠ none → stmt.directive = "include") ∧
    (∀ idxs, inc = some idxs → ∀ i ∈ idxs, i < st'.included.length) := by
  rw [processIncludes] at h
  split at h
  case isTrue hcond =>
    match harg : stmt.args with
    | [] =>
      rw [harg] at h
      simp at h
    | a0 :: restArgs =>
      rw [harg] at h
      dsimp only at h
      set pat := if goFilepathIsAbs a0 = true then a0 else goFilepathJoin configDir a0 with hpat
      split at h
      case isTrue hmag =>
        split at h
        case h_1 msg hg => simp at h
        case h_2 names hg =>
          simp only [IncOutcome.ok.injEq] at h
          obtain ⟨hinc, hst⟩ := h
          have hr := resolveFold ctx (sortStrings names) [] st
          obtain ⟨⟨nn, hqq, hii⟩, hcc, hpp, hlen, hnd, hbb⟩ := hr
          subst hst
          refine ⟨⟨⟨nn, hqq, hii⟩, .inl ⟨hcc, hpp⟩, hnd⟩, fun _ => hcond.2, ?_⟩
          intro idxs hidxs i hi
          rw [← hinc] at hidxs
          simp only [Option.some.injEq] at hidxs
          subst hidxs
          exact hbb (by simp) i hi
      case isFalse hmag =>
        split at h
        case h_1 hfs =>
          split at h
          case isTrue hstop =>
            split at h
            case h_1 hhe => simp at h
            case h_2 st2 hhe =>
              simp only [IncOutcome.ok.injEq] at h
              obtain ⟨hinc, hst⟩ := h
              subst hst
              refine ⟨handleError_stExtends hhe, fun _ => hcond.2, ?_⟩
              intro idxs hidxs i hi
              rw [← hinc] at hidxs
              simp only [Option.some.injEq] at hidxs
              subst hidxs
              simp at hi
          case isFalse hstop => simp at h
        case h_2 c hfs =>
          simp only [IncOutcome.ok.injEq] at h
          obtain ⟨hinc, hst⟩ := h
          have hr := resolveFold ctx [pat] [] st
          obtain ⟨⟨nn, hqq, hii⟩, hcc, hpp, hlen, hnd, hbb⟩ := hr
          subst hst
          refine ⟨⟨⟨nn, hqq, hii⟩, .inl ⟨hcc, hpp⟩, hnd⟩, fun _ => hcond.2, ?_⟩
          intro idxs hidxs i hi
          rw [← hinc] at hidxs
          simp only [Option.some.injEq] at hidxs
          subst hidxs
          exact hbb (by simp) i hi
  case isFalse hcond =>
    simp only [IncOutcome.ok.injEq] at h
    obtain ⟨hinc, hst⟩ := h
    subst hst
    refine ⟨stExtends_refl st, ?_, ?_⟩
    · intro hne
      rw [← hinc, hstmt] at hne
      exact absurd rfl hne
    · intro idxs hidxs
      rw [← hinc, hstmt] at hidxs
      simp at hidxs

theorem processIncludes_fatal {opts : ParseOptions} {configDir : String} {env : Env}
    {fname : String} {ctx : List String} {stmt : Directive} {st : PState}
    {e : Err} {st' : PState}
    (h : processIncludes opts configDir env fname ctx stmt st = .fatal e st') :
    stExtends st st' := by
  rw [processIncludes] at h
  split at h
  case isTrue hcond =>
    match harg : stmt.args with
    | [] =>
      rw [harg] at h
      simp at h
    | a0 :: restArgs =>
      rw [harg] at h
      dsimp only at h
      set pat := if goFilepathIsAbs a0 = true then a0 else goFilepathJoin configDir a0 with hpat
      split at h
      case isTrue hmag =>
        split at h
        case h_1 msg hg =>
          simp only [IncOutcome.fatal.injEq] at h
          rw [← h.2]
          exact stExtends_refl st
        case h_2 names hg => simp at h
      case isFalse hmag =>
        split at h
        case h_1 hfs =>
          split at h
          case isTrue hstop =>
            split at h
            case h_1 hhe => simp at h
            case h_2 st2 hhe => simp at h
          case isFalse hstop =>
            simp only [IncOutcome.fatal.injEq] at h
            rw [← h.2]
            exact stExtends_refl st
        case h_2 c hfs => simp at h
  case isFalse hcond => simp at h

end Crossplane
namespace Crossplane

theorem TreeForAll_append {P : Directive → Prop} : ∀ {l1 l2 : List Directive},
    TreeForAll P l1 → TreeForAll P l2 → TreeForAll P (l1 ++ l2) := by
  intro l1 l2 h1 h2
  induction h1 with
  | nil => simpa using h2
  | cons d ds hd hb htail ihb ihtail => exact TreeForAll.cons d (ds ++ l2) hd hb ihtail

theorem TreeForAll_mono {P Q : Directive → Prop} (hpq : ∀ d, P d → Q d) :
    ∀ {l : List Directive}, TreeForAll P l → TreeForAll Q l := by
  intro l h
  induction h with
  | nil => exact TreeForAll.nil
  | cons d ds hd hb htail ihb ihtail =>
    exact TreeForAll.cons d ds (hpq d hd) ihb ihtail

end Crossplane
namespace Crossplane


theorem PB_mono {n m : Nat} (h : n ≤ m) : ∀ d, PB n d → PB m d := fun d hd =>
  ⟨hd.1, fun idxs hi i hii => lt_of_lt_of_le (hd.2 idxs hi i hii) h⟩

theorem prepareIfArgs_fields : ∀ (d r : Directive), prepareIfArgs d = some r →
    r.directive = d.directive ∧ r.line = d.line ∧ r.includes = d.includes ∧
    r.block = d.block ∧ r.comment = d.comment := by
  intro d r h
  have := prepareIfArgs_spec d r h
  exact ⟨this.1, this.2.1, this.2.2.1, this.2.2.2.1, this.2.2.2.2.1⟩

theorem inlineComment_PB (n : Nat) (line : Nat) (c : String) : PB n (inlineComment line c) :=
  ⟨fun h => absurd rfl h, fun idxs h => by simp [inlineComment, Directive.includes] at h⟩

theorem TreeForAll_map_inline (P : Directive → Prop) (line : Nat) :
    ∀ (cms : List String), (∀ c, P (inlineComment line c)) →
    TreeForAll P (cms.map (inlineComment line)) := by
  intro cms hP
  induction cms with
  | nil => exact TreeForAll.nil
  | cons c cs ihc =>
    refine TreeForAll.cons _ _ (hP c) ?_ ihc
    intro b hb
    simp [inlineComment, Directive.block] at hb

theorem inline_cs_prop (stmtLine : Nat) : ∀ (cmts : List String),
    ∀ c ∈ cmts.map (inlineComment stmtLine),
      c.directive = "#" ∧ c.args = [] ∧ c.line = stmtLine ∧
      c.comment ≠ none ∧ c.block = none ∧ c.includes = none := by
  intro cmts c hc
  rcases List.mem_map.mp hc with ⟨x, _, rfl⟩
  exact ⟨rfl, rfl, rfl, by simp [inlineComment, Directive.comment], rfl, rfl⟩

theorem pparse_master (opts : ParseOptions) (configDir : String) (env : Env) (fname : String) :
    ∀ (fuel : Nat) (tokens : List NgxToken) (ctx : List String) (consume : Bool) (st : PState)
    (r : PResult), pparse opts configDir env fname fuel tokens ctx consume st = r →
    stExtends st r.st ∧
    (∀ dirs, r.out = .ok dirs →
      TreeForAll (PB r.st.included.length) dirs ∧
      (opts.parseComments = false → InlineOnly dirs)) := by
  intro fuel
  induction fuel with
  | zero =>
    intro tokens ctx consume st r hr
    rw [pparse] at hr
    subst hr
    exact ⟨stExtends_refl st, by intro dirs h; simp at h⟩
  | succ fuel ih =>
    intro tokens ctx consume st r hr
    match tokens with
    | [] =>
      rw [pparse] at hr
      subst hr
      refine ⟨stExtends_refl st, ?_⟩
      intro dirs h
      simp only [POutcome.ok.injEq] at h
      subst h
      exact ⟨TreeForAll.nil, fun _ => InlineOnly.nil⟩
    | t :: rest =>
      rw [pparse] at hr
      cases herr : t.error with
      | some pe =>
        rw [herr] at hr
        dsimp only at hr
        subst hr
        exact ⟨stExtends_refl st, by intro dirs h; simp at h⟩
      | none =>
        rw [herr] at hr
        dsimp only at hr
        split at hr
        case isTrue hclose =>
          subst hr
          refine ⟨stExtends_refl st, ?_⟩
          intro dirs h
          simp only [POutcome.ok.injEq] at h
          subst h
          exact ⟨TreeForAll.nil, fun _ => InlineOnly.nil⟩
        case isFalse hclose =>
        split at hr
        case isTrue hcons =>
          split at hr
          case isTrue hbrace =>
            obtain ⟨hS1, hT1⟩ := ih rest [] true st _ rfl
            split at hr
            case h_1 hout =>
              subst hr
              exact ⟨hS1, by intro dirs h; simp at h⟩
            case h_2 hout =>
              subst hr
              exact ⟨hS1, by intro dirs h; simp at h⟩
            case h_3 hout =>
              subst hr
              exact ⟨hS1, by intro dirs h; simp at h⟩
            case h_4 hout =>
              obtain ⟨hS2, hT2⟩ := ih _ ctx true _ r hr
              exact ⟨stExtends_trans hS1 hS2, hT2⟩
          case isFalse hbrace =>
            obtain ⟨hS2, hT2⟩ := ih rest ctx true st r hr
            exact ⟨hS2, hT2⟩
        case isFalse hcons =>
        split at hr
        case isTrue hcmt =>
          split at hr
          case isTrue hpc =>
            obtain ⟨hS1, hT1⟩ := ih rest ctx consume st _ rfl
            split at hr
            case h_1 dirs0 hout =>
              subst hr
              refine ⟨hS1, ?_⟩
              intro dirs h
              simp only [POutcome.ok.injEq] at h
              subst h
              obtain ⟨hTF, hIO⟩ := hT1 dirs0 hout
              refine ⟨?_, ?_⟩
              · refine TreeForAll.cons _ _ ?_ ?_ hTF
                · exact ⟨fun h => absurd rfl h, fun idxs h => by simp [Directive.includes] at h⟩
                · intro b hb
                  simp [Directive.block] at hb
              · intro hpcf
                rw [hpcf] at hpc
                cases hpc
            case h_2 hout =>
              obtain ⟨hS2, hT2⟩ := ih rest ctx consume st r hr
              exact ⟨hS2, hT2⟩
          case isFalse hpc =>
            obtain ⟨hS2, hT2⟩ := ih rest ctx consume st r hr
            exact ⟨hS2, hT2⟩
        case isFalse hcmt =>
        split at hr
        case h_1 pr args cmts heq =>
          subst hr
          exact ⟨stExtends_refl st, by intro dirs h; simp at h⟩
        case h_2 pr tt rest2 args cmts heq =>
        split at hr
        case isTrue hign =>
          split at hr
          case isTrue hbrk =>
            obtain ⟨hS1, hT1⟩ := ih rest2 [] true st _ rfl
            split at hr
            case h_1 hout =>
              subst hr
              exact ⟨hS1, by intro dirs h; simp at h⟩
            case h_2 hout =>
              subst hr
              exact ⟨hS1, by intro dirs h; simp at h⟩
            case h_3 hout =>
              subst hr
              exact ⟨hS1, by intro dirs h; simp at h⟩
            case h_4 hout =>
              obtain ⟨hS2, hT2⟩ := ih _ ctx consume _ r hr
              exact ⟨stExtends_trans hS1 hS2, hT2⟩
          case isFalse hbrk =>
            obtain ⟨hS2, hT2⟩ := ih rest2 ctx consume st r hr
            exact ⟨hS2, hT2⟩
        case isFalse hign =>
        split at hr
        case h_1 hprep =>
          subst hr
          exact ⟨stExtends_refl st, by intro dirs h; simp at h⟩
        case h_2 stmt1 hprep =>
        have hstmt1 : stmt1.includes = none ∧ stmt1.comment = none := by
          split at hprep
          · have := prepareIfArgs_fields _ _ hprep
            rw [this.2.2.1, this.2.2.2.2]
            exact ⟨rfl, rfl⟩
          · simp only [Option.some.injEq] at hprep
            subst hprep
            exact ⟨rfl, rfl⟩
        split at hr
        case h_1 perr hana =>
          split at hr
          case isTrue hstop =>
            split at hr
            case h_1 hhe =>
              subst hr
              exact ⟨stExtends_refl st, by intro dirs h; simp at h⟩
            case h_2 st1 hhe =>
              have hSh := handleError_stExtends hhe
              split at hr
              case isTrue hterm =>
                split at hr
                case isTrue hnb =>
                  obtain ⟨hS1, hT1⟩ := ih rest2 [] true st1 _ rfl
                  split at hr
                  case h_1 hout =>
                    subst hr
                    exact ⟨stExtends_trans hSh hS1, by intro dirs h; simp at h⟩
                  case h_2 hout =>
                    subst hr
                    exact ⟨stExtends_trans hSh hS1, by intro dirs h; simp at h⟩
                  case h_3 hout =>
                    subst hr
                    exact ⟨stExtends_trans hSh hS1, by intro dirs h; simp at h⟩
                  case h_4 hout =>
                    obtain ⟨hS2, hT2⟩ := ih _ ctx consume _ r hr
                    exact ⟨stExtends_trans hSh (stExtends_trans hS1 hS2), hT2⟩
                case isFalse hnb =>
                  subst hr
                  refine ⟨hSh, ?_⟩
                  intro dirs h
                  simp only [POutcome.ok.injEq] at h
                  subst h
                  exact ⟨TreeForAll.nil, fun _ => InlineOnly.nil⟩
              case isFalse hterm =>
                obtain ⟨hS2, hT2⟩ := ih rest2 ctx consume st1 r hr
                exact ⟨stExtends_trans hSh hS2, hT2⟩
          case isFalse hstop =>
            subst hr
            exact ⟨stExtends_refl st, by intro dirs h; simp at h⟩
        case h_2 hana =>
        split at hr
        case h_1 hpi =>
          subst hr
          exact ⟨stExtends_refl st, by intro dirs h; simp at h⟩
        case h_2 e st2 hpi =>
          subst hr
          exact ⟨processIncludes_fatal hpi, by intro dirs h; simp at h⟩
        case h_3 inc st2 hpi =>
        obtain ⟨hSpi, hIncName, hIncBound⟩ := processIncludes_ok hstmt1.1 hpi
        have hPBstmt2 : ∀ (stf : PState), st2.included.length ≤ stf.included.length →
            PB stf.included.length
              (Directive.mk stmt1.directive stmt1.line stmt1.args inc none stmt1.comment) := by
          intro stf hle
          refine ⟨?_, ?_⟩
          · intro hne
            exact hIncName hne
          · intro idxs hidxs i hi
            exact lt_of_lt_of_le (hIncBound idxs hidxs i hi) hle
        split at hr
        case isTrue hblk =>
          split at hr
          case isTrue hlua =>
            obtain ⟨hS1, hT1⟩ := ih rest2 _ true st2 _ rfl
            split at hr
            case h_1 hout =>
              subst hr
              exact ⟨stExtends_trans hSpi hS1, by intro dirs h; simp at h⟩
            case h_2 hout =>
              subst hr
              exact ⟨stExtends_trans hSpi hS1, by intro dirs h; simp at h⟩
            case h_3 hout =>
              subst hr
              exact ⟨stExtends_trans hSpi hS1, by intro dirs h; simp at h⟩
            case h_4 hout =>
              obtain ⟨hS2, hT2⟩ := ih _ ctx consume _ _ rfl
              split at hr
              case h_1 dirs2 hout2 =>
                subst hr
                refine ⟨stExtends_trans hSpi (stExtends_trans hS1 hS2), ?_⟩
                intro dirs h
                simp only [POutcome.ok.injEq] at h
                subst h
                obtain ⟨hTF2, hIO2⟩ := hT2 dirs2 hout2
                have hle : st2.included.length ≤ _ :=
                  le_trans (stExtends_included_le hS1) (stExtends_included_le hS2)
                refine ⟨?_, ?_⟩
                · refine TreeForAll.cons _ _ (hPBstmt2 _ hle) ?_ ?_
                  · intro b hb
                    simp [Directive.block] at hb
                  · exact TreeForAll_append
                      (TreeForAll_map_inline _ _ cmts (fun c => inlineComment_PB _ _ c)) hTF2
                · intro hpcf
                  refine InlineOnly.cons _ _ _ hstmt1.2 (inline_cs_prop _ cmts) ?_ (hIO2 hpcf)
                  intro b hb
                  simp [Directive.block] at hb
              case h_2 hout2 =>
                subst hr
                exact ⟨stExtends_trans hSpi (stExtends_trans hS1 hS2), hT2⟩
          case isFalse hlua =>
            obtain ⟨hS1, hT1⟩ := ih rest2 _ false st2 _ rfl
            split at hr
            case h_1 blockDirs hout =>
              obtain ⟨hS2, hT2⟩ := ih _ ctx consume _ _ rfl
              split at hr
              case h_1 dirs2 hout2 =>
                subst hr
                refine ⟨stExtends_trans hSpi (stExtends_trans hS1 hS2), ?_⟩
                intro dirs h
                simp only [POutcome.ok.injEq] at h
                subst h
                obtain ⟨hTF1, hIO1⟩ := hT1 blockDirs hout
                obtain ⟨hTF2, hIO2⟩ := hT2 dirs2 hout2
                have hle : st2.included.length ≤ _ :=
                  le_trans (stExtends_included_le hS1) (stExtends_included_le hS2)
                have hle12 : _ ≤ _ := stExtends_included_le hS2
                refine ⟨?_, ?_⟩
                · refine TreeForAll.cons _ _ ?_ ?_ ?_
                  · exact ⟨fun hne => hIncName hne,
                      fun idxs hidxs i hi => lt_of_lt_of_le (hIncBound idxs hidxs i hi) hle⟩
                  · intro b hb
                    simp only [Directive.block, Option.some.injEq] at hb
                    subst hb
                    exact TreeForAll_mono (PB_mono hle12) hTF1
                  · exact TreeForAll_append
                      (TreeForAll_map_inline _ _ cmts (fun c => inlineComment_PB _ _ c)) hTF2
                · intro hpcf
                  refine InlineOnly.cons _ _ _ hstmt1.2 (inline_cs_prop _ cmts) ?_ (hIO2 hpcf)
                  intro b hb
                  simp only [Directive.block, Option.some.injEq] at hb
                  subst hb
                  exact hIO1 hpcf
              case h_2 hout2 =>
                subst hr
                exact ⟨stExtends_trans hSpi (stExtends_trans hS1 hS2), hT2⟩
            case h_2 e hout =>
              subst hr
              exact ⟨stExtends_trans hSpi hS1, by intro dirs h; simp at h⟩
            case h_3 hout =>
              subst hr
              exact ⟨stExtends_trans hSpi hS1, by intro dirs h; simp at h⟩
            case h_4 hout =>
              subst hr
              exact ⟨stExtends_trans hSpi hS1, by intro dirs h; simp at h⟩
            case h_5 hout =>
              subst hr
              exact ⟨stExtends_trans hSpi hS1, by intro dirs h; simp at h⟩
        case isFalse hblk =>
          obtain ⟨hS2, hT2⟩ := ih rest2 ctx consume st2 _ rfl
          split at hr
          case h_1 dirs2 hout2 =>
            subst hr
            refine ⟨stExtends_trans hSpi hS2, ?_⟩
            intro dirs h
            simp only [POutcome.ok.injEq] at h
            subst h
            obtain ⟨hTF2, hIO2⟩ := hT2 dirs2 hout2
            have hle : st2.included.length ≤ _ := stExtends_included_le hS2
            refine ⟨?_, ?_⟩
            · refine TreeForAll.cons _ _ (hPBstmt2 _ hle) ?_ ?_
              · intro b hb
                simp [Directive.block] at hb
              · exact TreeForAll_append
                  (TreeForAll_map_inline _ _ cmts (fun c => inlineComment_PB _ _ c)) hTF2
            · intro hpcf
              refine InlineOnly.cons _ _ _ hstmt1.2 (inline_cs_prop _ cmts) ?_ (hIO2 hpcf)
              intro b hb
              simp [Directive.block] at hb
          case h_2 hout2 =>
            subst hr
            exact ⟨stExtends_trans hSpi hS2, hT2⟩
end Crossplane

namespace Crossplane
theorem parseFiles_master (opts : ParseOptions) (env : Env) (configDir : String) :
    ∀ (fuel : Nat) (st : PState) (configs : List Config) (payload : Payload),
    parseFiles opts env configDir fuel st configs = .ok payload →
    configs.map Config.file ++ st.queue.map Prod.fst = st.included →
    st.included.Nodup →
    (st.payloadStatus = "ok" ∨ st.payloadStatus = "failed") →
    (st.payloadStatus = "failed" ↔ ∃ c ∈ configs, c.status = "failed") →
    (∀ c ∈ configs, TreeForAll (PB st.included.length) c.parsed) →
    (∀ c ∈ configs, opts.parseComments = false → InlineOnly c.parsed) →
    (payload.config.map Config.file).Nodup ∧
    (payload.status = "ok" ∨ payload.status = "failed") ∧
    (payload.status = "failed" ↔ ∃ c ∈ payload.config, c.status = "failed") ∧
    (∀ c ∈ payload.config, TreeForAll (PB payload.config.length) c.parsed) ∧
    (∀ c ∈ payload.config, opts.parseComments = false → InlineOnly c.parsed) := by
  intro fuel
  induction fuel with
  | zero =>
    intro st configs payload h
    rw [parseFiles] at h
    simp at h
  | succ fuel ih =>
    intro st configs payload h hmap hnd hsv hiff htree hio
    rw [parseFiles] at h
    split at h
    case h_1 hq =>
      simp only [GoResult.ok.injEq] at h
      subst h
      rw [hq] at hmap
      simp only [List.map_nil, List.append_nil] at hmap
      have hlen : configs.length = st.included.length := by
        rw [← hmap, List.length_map]
      refine ⟨?_, hsv, hiff, ?_, hio⟩
      · rw [hmap]
        exact hnd
      · intro c hc
        have := htree c hc
        rw [← hlen] at this
        exact this
    case h_2 path ctx q hq =>
      split at h
      case h_1 hfs => simp at h
      case h_2 contents hfs =>
        dsimp only at h
        obtain ⟨hS, hT⟩ := pparse_master opts configDir env path
          ((lex contents).length + 1) (lex contents) ctx false
          { st with queue := q, curStatus := "ok", curErrors := [] } _ rfl
        obtain ⟨⟨new, hq2, hi2⟩, hstat, hnd2⟩ := hS
        simp only at hq2 hi2 hstat hnd2
        have hmap2 : ∀ (c : Config), c.file = path →
            (configs ++ [c]).map Config.file ++
              (pparse opts configDir env path ((lex contents).length + 1) (lex contents) ctx false
                { st with queue := q, curStatus := "ok", curErrors := [] }).st.queue.map Prod.fst =
              (pparse opts configDir env path ((lex contents).length + 1) (lex contents) ctx false
                { st with queue := q, curStatus := "ok", curErrors := [] }).st.included := by
          intro c hc
          rw [hq2, hi2, List.map_append, List.map_append]
          rw [hq] at hmap
          simp only [List.map_cons] at hmap
          simp only [List.map_cons, List.map_nil, hc]
          rw [← hmap]
          simp [List.append_assoc]
        have hndq : (pparse opts configDir env path ((lex contents).length + 1) (lex contents) ctx
            false { st with queue := q, curStatus := "ok", curErrors := [] }).st.included.Nodup :=
          hnd2 hnd
        have hlenle : st.included.length ≤
            (pparse opts configDir env path ((lex contents).length + 1) (lex contents) ctx false
              { st with queue := q, curStatus := "ok", curErrors := [] }).st.included.length := by
          rw [hi2]
          simp
        split at h
        case h_1 hout => simp at h
        case h_2 hout => simp at h
        case h_3 hout => simp at h
        case h_4 e hout =>
          split at h
          case isTrue hstop => simp at h
          case isFalse hstop =>
            split at h
            case h_1 hhe => simp at h
            case h_2 st2 hhe =>
              obtain ⟨hq3, hi3, hc3, hp3⟩ := handleError_some hhe
              refine ih st2 _ payload h ?_ ?_ ?_ ?_ ?_ ?_
              · rw [hq3, hi3]
                exact hmap2 _ rfl
              · rw [hi3]
                exact hndq
              · exact .inr hp3
              · rw [hp3]
                simp only [true_iff]
                exact ⟨⟨path, st2.curStatus, st2.curErrors, []⟩, by simp, by rw [hc3]⟩
              · intro c hc
                rcases List.mem_append.mp hc with hcin | hcin
                · have := htree c hcin
                  refine TreeForAll_mono (PB_mono ?_) this
                  rw [hi3]
                  exact hlenle
                · simp at hcin
                  subst hcin
                  exact TreeForAll.nil
              · intro c hc hpc
                rcases List.mem_append.mp hc with hcin | hcin
                · exact hio c hcin hpc
                · simp at hcin
                  subst hcin
                  exact InlineOnly.nil
        case h_5 dirs hout =>
          obtain ⟨hTF, hIO⟩ := hT dirs hout
          refine ih _ _ payload h (hmap2 _ rfl) hndq ?_ ?_ ?_ ?_
          · rcases hstat with ⟨_, hp⟩ | ⟨_, hp⟩
            · rw [hp]
              exact hsv
            · exact .inr hp
          · rcases hstat with ⟨hcs, hp⟩ | ⟨hcs, hp⟩
            · rw [hp]
              rw [hiff]
              constructor
              · rintro ⟨c, hcin, hcf⟩
                exact ⟨c, by simp [hcin], hcf⟩
              · rintro ⟨c, hcin, hcf⟩
                rcases List.mem_append.mp hcin with hcin | hcin
                · exact ⟨c, hcin, hcf⟩
                · simp at hcin
                  subst hcin
                  simp only [Config.status] at hcf
                  rw [hcs] at hcf
                  exact absurd hcf (by decide)
            · rw [hp]
              simp only [true_iff]
              refine ⟨⟨path,
                (pparse opts configDir env path ((lex contents).length + 1) (lex contents) ctx
                  false { st with queue := q, curStatus := "ok", curErrors := [] }).st.curStatus,
                (pparse opts configDir env path ((lex contents).length + 1) (lex contents) ctx
                  false { st with queue := q, curStatus := "ok", curErrors := [] }).st.curErrors,
                dirs⟩, by simp, hcs⟩
          · intro c hc
            rcases List.mem_append.mp hc with hcin | hcin
            · exact TreeForAll_mono (PB_mono hlenle) (htree c hcin)
            · simp at hcin
              subst hcin
              exact hTF
          · intro c hc hpc
            rcases List.mem_append.mp hc with hcin | hcin
            · exact hio c hcin hpc
            · simp at hcin
              subst hcin
              exact hIO hpc
end Crossplane

namespace Crossplane

theorem performIncludes_strip : ∀ (fuel : Nat),
    (∀ (old : Payload) (fromfile : String) (l ds : List Directive),
      performIncludes old fuel fromfile l = .ok ds →
      TreeForAll (fun d => d.includes = none) ds) ∧
    (∀ (old : Payload) (fromfile : String) (line : Nat) (idxs : List Nat) (ds : List Directive),
      spliceIncludes old fuel fromfile line idxs = .ok ds →
      TreeForAll (fun d => d.includes = none) ds) := by
  intro fuel
  induction fuel with
  | zero =>
    constructor
    · intro old fromfile l ds h
      rw [performIncludes] at h
      simp at h
    · intro old fromfile line idxs ds h
      rw [spliceIncludes] at h
      simp at h
  | succ fuel ih =>
    constructor
    · intro old fromfile l ds h
      cases l with
      | nil =>
        rw [performIncludes] at h
        simp only [CombRes.ok.injEq] at h
        subst h
        exact TreeForAll.nil
      | cons dir rest =>
        obtain ⟨n, li, a, i, bo, c⟩ := dir
        cases bo with
        | none =>
          rw [performIncludes] at h
          case x_3 => simp
          simp only [List.headD] at h
          cases i with
          | none =>
            rw [if_pos (by simp [Directive.isInclude, Directive.includes])] at h
            split at h
            case h_1 tail htail =>
              simp only [CombRes.ok.injEq] at h
              subst h
              refine TreeForAll.cons _ _ rfl ?_ (ih.1 old fromfile rest tail htail)
              intro bb hbb
              simp only [Directive.block] at hbb
              exact Option.noConfusion hbb
            case h_2 x hne => exact (hne ds h).elim
          | some v =>
            rw [if_neg (by simp [Directive.isInclude, Directive.includes])] at h
            split at h
            case h_1 spliced hspl =>
              split at h
              case h_1 tail htail =>
                simp only [CombRes.ok.injEq] at h
                subst h
                exact TreeForAll_append (ih.2 old fromfile _ _ spliced hspl)
                  (ih.1 old fromfile rest tail htail)
              case h_2 x hne => exact (hne ds h).elim
            case h_2 x hne => exact (hne ds h).elim
        | some b =>
          rw [performIncludes] at h
          dsimp only at h
          cases hblk : performIncludes old fuel fromfile b with
          | err e => rw [hblk] at h; simp at h
          | fuelOut => rw [hblk] at h; simp at h
          | ok b2 =>
            rw [hblk] at h
            dsimp only at h
            simp only [List.headD] at h
            cases i with
            | none =>
              rw [if_pos (by simp [Directive.isInclude, Directive.includes])] at h
              split at h
              case h_1 tail htail =>
                simp only [CombRes.ok.injEq] at h
                subst h
                refine TreeForAll.cons _ _ rfl ?_ (ih.1 old fromfile rest tail htail)
                intro bb hbb
                simp only [Directive.block, Option.some.injEq] at hbb
                subst hbb
                exact ih.1 old fromfile b b2 hblk
              case h_2 x hne => exact (hne ds h).elim
            | some v =>
              rw [if_neg (by simp [Directive.isInclude, Directive.includes])] at h
              split at h
              case h_1 spliced hspl =>
                split at h
                case h_1 tail htail =>
                  simp only [CombRes.ok.injEq] at h
                  subst h
                  exact TreeForAll_append (ih.2 old fromfile _ _ spliced hspl)
                    (ih.1 old fromfile rest tail htail)
                case h_2 x hne => exact (hne ds h).elim
              case h_2 x hne => exact (hne ds h).elim
    · intro old fromfile line idxs ds h
      cases idxs with
      | nil =>
        rw [spliceIncludes] at h
        simp only [CombRes.ok.injEq] at h
        subst h
        exact TreeForAll.nil
      | cons idx rest =>
        rw [spliceIncludes] at h
        split at h
        case isTrue hge => simp at h
        case isFalse hge =>
          dsimp only at h
          split at h
          case h_1 ds1 hds1 =>
            split at h
            case h_1 ds2 hds2 =>
              simp only [CombRes.ok.injEq] at h
              subst h
              exact TreeForAll_append (ih.1 old _ _ ds1 hds1)
                (ih.2 old fromfile line rest ds2 hds2)
            case h_2 x hne => exact (hne ds h).elim
          case h_2 x hne => exact (hne ds h).elim

end Crossplane

namespace Crossplane

theorem combineConfigsM_master (fuel : Nat) (old res : Payload)
    (hsv : old.status = "ok" ∨ old.status = "failed")
    (hiff : old.status = "failed" ↔ ∃ c ∈ old.config, c.status = "failed")
    (hnd : (old.config.map Config.file).Nodup)
    (htree : ∀ c ∈ old.config, TreeForAll (PB old.config.length) c.parsed)
    (h : combineConfigsM fuel old = .ok res) :
    (res.config.map Config.file).Nodup ∧
    (res.status = "failed" ↔ ∃ c ∈ res.config, c.status = "failed") ∧
    (∀ c ∈ res.config, TreeForAll (PB res.config.length) c.parsed) := by
  rw [combineConfigsM] at h
  split at h
  case isTrue hlen =>
    simp only [GoResult.ok.injEq] at h
    subst h
    exact ⟨hnd, hiff, htree⟩
  case isFalse hlen =>
    dsimp only at h
    split at h
    case h_1 e hpi => simp at h
    case h_2 hpi => simp at h
    case h_3 dirs hpi =>
      simp only [GoResult.ok.injEq] at h
      subst h
      have hstat : (if old.status = "" then "ok" else old.status) = old.status := by
        rcases hsv with hv | hv
        · rw [hv]
          simp
        · rw [hv]
          simp
      have hstrip := (performIncludes_strip fuel).1 old _ _ dirs hpi
      refine ⟨by simp, ?_, ?_⟩
      · simp only [Payload.status, Payload.config, hstat]
        by_cases hany : old.config.any (fun c => decide (c.status = "failed")) = true
        · rw [if_pos hany]
          have : ∃ c ∈ old.config, c.status = "failed" := by
            rcases List.any_eq_true.mp hany with ⟨c, hc, hcf⟩
            exact ⟨c, hc, of_decide_eq_true hcf⟩
          rw [hiff.mpr this]
          constructor
          · intro _
            exact ⟨_, List.mem_singleton_self _, rfl⟩
          · intro _
            rfl
        · rw [if_neg hany]
          constructor
          · intro hf
            exfalso
            rcases hiff.mp hf with ⟨c, hc, hcf⟩
            exact hany (List.any_eq_true.mpr ⟨c, hc, decide_eq_true hcf⟩)
          · rintro ⟨c, hc, hcf⟩
            simp only [List.mem_singleton] at hc
            subst hc
            simp only [Config.status] at hcf
            exact absurd hcf (by decide)
      · intro c hc
        simp only [Payload.config, List.mem_singleton] at hc
        subst hc
        simp only [Config.parsed]
        refine TreeForAll_mono ?_ hstrip
        intro d hd
        refine ⟨fun hne => absurd hd hne, ?_⟩
        intro idxs hidxs
        rw [hd] at hidxs
        exact absurd hidxs (by simp)

end Crossplane

namespace Crossplane

theorem Parse_master (fuel : Nat) (env : Env) (fname : String) (opts : ParseOptions)
    (payload : Payload) (h : Parse fuel env fname opts = .ok payload) :
    (payload.config.map Config.file).Nodup ∧
    (payload.status = "failed" ↔ ∃ c ∈ payload.config, c.status = "failed") ∧
    (∀ c ∈ payload.config, TreeForAll (PB payload.config.length) c.parsed) ∧
    (opts.combineConfigs = false → opts.parseComments = false →
      ∀ c ∈ payload.config, InlineOnly c.parsed) := by
  rw [Parse] at h
  split at h
  case h_1 payload0 hpf =>
    have hm := parseFiles_master opts env (goFilepathDir fname) fuel
      ⟨[(fname, [])], [fname], "ok", [], "ok", []⟩ [] payload0 hpf
      (by simp) (by simp) (.inl rfl)
      (by
        constructor
        · intro hx
          exact absurd hx (show ¬ ("ok" : String) = "failed" by decide)
        · rintro ⟨c, hc, _⟩
          exact absurd hc (by simp))
      (by simp) (by simp)
    obtain ⟨hnd0, hsv0, hiff0, htree0, hio0⟩ := hm
    split at h
    case isTrue hcc =>
      rw [Payload.combined] at h
      have hc := combineConfigsM_master fuel payload0 payload hsv0 hiff0 hnd0 htree0 h
      refine ⟨hc.1, hc.2.1, hc.2.2, ?_⟩
      intro hccf
      rw [hccf] at hcc
      exact absurd hcc (by decide)
    case isFalse hcc =>
      simp only [GoResult.ok.injEq] at h
      subst h
      exact ⟨hnd0, hiff0, htree0, fun _ hpc c hc => hio0 c hc hpc⟩
  case h_2 x hne => exact ((hne payload h).elim)

end Crossplane

namespace Crossplane


/-- C2 amended: with `ParseComments` unset and `CombineConfigs` unset, every
config tree of a payload returned by `Parse` consists of statements with no
comment field, each optionally followed by the inline comments collected
from its argument list (comment directives with empty args on the
statement line) — comments that begin a statement are dropped, but
unquoted `#`-prefixed tokens inside an argument list are still emitted. -/
theorem claim_C2_comments_dropped (fuel : Nat) (env : Env) (fname : String)
    (opts : ParseOptions) (payload : Payload)
    (hpc : opts.parseComments = false) (hcc : opts.combineConfigs = false)
    (h : Parse fuel env fname opts = .ok payload) :
    ∀ c ∈ payload.config, InlineOnly c.parsed :=
  (Parse_master fuel env fname opts payload h).2.2.2 hcc hpc

/-- C2 witness: the concrete run on `absolute_redirect on #c<NL>;`, whose
single config holds the statement followed by its inline comment. -/
theorem claim_C2_witness :
    InlineOnly [Directive.mk "absolute_redirect" 1 ["on"] none none none,
      Directive.mk "#" 1 [] none none (some "c")] :=
  claim_C2_comments_dropped 10 envInline "nginx.conf" optsSkipChecks payloadInline
    rfl rfl (by decide!)
    ⟨"nginx.conf", "ok", [], [Directive.mk "absolute_redirect" 1 ["on"] none none none,
      Directive.mk "#" 1 [] none none (some "c")]⟩ (by decide)

/-- C4 amended: a directive of a payload returned by `Parse` can carry both
`block` and `includes` (an include directive followed by a block does, when
the args check is skipped); what holds for every option combination is that
an `includes` field only ever appears on a directive named `include`. -/
theorem claim_C4_includes_only_on_include (fuel : Nat) (env : Env) (fname : String)
    (opts : ParseOptions) (payload : Payload)
    (h : Parse fuel env fname opts = .ok payload) :
    ∀ c ∈ payload.config,
      TreeForAll (fun d => d.includes ≠ none → d.directive = "include") c.parsed := by
  intro c hc
  exact TreeForAll_mono (fun d hd => hd.1)
    ((Parse_master fuel env fname opts payload h).2.2.1 c hc)

/-- C4 witness: the run of the C4 counterexample input, where the include
directive carries both fields and is indeed named `include`. -/
theorem claim_C4_witness :
    TreeForAll (fun d => d.includes ≠ none → d.directive = "include")
      [Directive.mk "include" 1 ["b.conf"] (some [1]) (some []) none] :=
  claim_C4_includes_only_on_include 10 envIncludeBlock "nginx.conf"
    { skipDirectiveArgsCheck := true } payloadIncludeBlock (by decide!)
    ⟨"nginx.conf", "ok", [],
      [Directive.mk "include" 1 ["b.conf"] (some [1]) (some []) none]⟩ (by decide)

/-- C8: in every payload returned by `Parse`, each file path occurs at most
once among the configs, and every index stored in the `includes` list of
any directive is a valid index into the configs of the payload. -/
theorem claim_C8_include_dedup (fuel : Nat) (env : Env) (fname : String)
    (opts : ParseOptions) (payload : Payload)
    (hsf : opts.singleFile = false)
    (h : Parse fuel env fname opts = .ok payload) :
    (payload.config.map Config.file).Nodup ∧
    ∀ c ∈ payload.config,
      TreeForAll (fun d => ∀ idxs, d.includes = some idxs →
        ∀ i ∈ idxs, i < payload.config.length) c.parsed := by
  refine ⟨(Parse_master fuel env fname opts payload h).1, ?_⟩
  intro c hc
  exact TreeForAll_mono (fun d hd => hd.2)
    ((Parse_master fuel env fname opts payload h).2.2.1 c hc)

/-- C8 witness: the two-file run `a.conf` including `b.conf`, whose include
directive stores index 1 into a two-config payload with distinct files. -/
theorem claim_C8_witness : (payloadInclude2.config.map Config.file).Nodup ∧
    ∀ c ∈ payloadInclude2.config,
      TreeForAll (fun d => ∀ idxs, d.includes = some idxs →
        ∀ i ∈ idxs, i < payloadInclude2.config.length) c.parsed :=
  claim_C8_include_dedup 10 envInclude2 "a.conf" {} payloadInclude2 rfl (by decide!)

/-- C9: every payload returned by `Parse` — combined or not — has status
`failed` exactly when one of its configs has status `failed`. -/
theorem claim_C9_failure_composability (fuel : Nat) (env : Env) (fname : String)
    (opts : ParseOptions) (payload : Payload)
    (h : Parse fuel env fname opts = .ok payload) :
    (payload.status = "failed" ↔ ∃ c ∈ payload.config, c.status = "failed") :=
  (Parse_master fuel env fname opts payload h).2.1

/-- C9 witness: the run on a root whose include target is missing — the
recorded open error fails the config and the payload together. -/
theorem claim_C9_witness : payloadMissing.status = "failed" ↔
    ∃ c ∈ payloadMissing.config, c.status = "failed" :=
  claim_C9_failure_composability 10 envIncludeMissing "a.conf" {} payloadMissing (by decide!)

end Crossplane
